import Mathlib

/-!
# ngraph-bridge: cluster deassignment and the rewrite passes

A shallow embedding of

* `src/ngraph_bridge/ngraph_deassign_clusters.cc` (`DeassignClusters`,
  `MaybeLogPlacement`), and
* `src/ngraph_bridge/enable_variable_ops/ngraph_rewrite_pass.cc`
  (`NGraphRewritePass::FreshIndex`, `NGraphVariableCapturePass::Run`,
  `NGraphEncapsulationPass::Run`).

Graph nodes are addressed by their position in `graph->nodes()`; a position
plays the role of the `Node*` of the source.  C++ `int` is `Int` wrapped to 32
bits after every increment.
-/

set_option autoImplicit false

namespace NgraphBridge

/-! ## Data model -/

/-- Wrap of an integer into the range of a 32-bit C++ `int`. -/
def wrapInt32 (x : Int) : Int := (x + 2147483648) % 4294967296 - 2147483648

/-- The `tensorflow::Status` of a call: `OK` or an error with code and message. -/
inductive Status where
  | OK : Status
  | Error (code : String) (msg : String) : Status
deriving DecidableEq, Repr

/-- The value of a node attribute (the cases of `AttrValue` used by the bridge). -/
inductive AttrValue where
  | i (v : Int) : AttrValue
  | b (v : Bool) : AttrValue
  | s (v : String) : AttrValue
deriving DecidableEq, Repr

/-- A graph node: name, op kind (`type_string()`), placement and attribute bag. -/
structure Node where
  name : String
  type_string : String
  assigned_device_name : String
  attrs : List (String × AttrValue)
deriving DecidableEq, Repr

/-- A graph edge between node positions; control edges use slot `-1`. -/
structure Edge where
  src : Nat
  src_output : Int
  dst : Nat
  dst_input : Int
deriving DecidableEq, Repr

/-- The graph: nodes in the order `graph->nodes()` yields them, and its edges. -/
structure Graph where
  nodes : List Node
  edges : List Edge
deriving DecidableEq, Repr

/-- The method `Node::ClearAttr(name)`: erase the attribute `name` from the bag. -/
def Node.ClearAttr (n : Node) (name : String) : Node :=
  { n with attrs := n.attrs.filter (fun kv => !(kv.1 == name)) }

/-- Modelled from the spec: `GetNodeCluster` is declared in
`ngraph_assign_clusters.h`, which is not among the sources.  The spec's data
model gives a node an optional integer `cluster_id`, and the pass header names
the attribute `_ngraph_cluster`; the call succeeds exactly when that attribute
is present with an integer value (`none` stands for a non-OK status). -/
def GetNodeCluster (n : Node) : Option Int :=
  match n.attrs.lookup "_ngraph_cluster" with
  | some (AttrValue.i c) => some c
  | _ => none

/-- Modelled from the spec: `NodeIsMarkedForClustering` is declared in
`ngraph_mark_for_clustering.h`, which is not among the sources.  The spec's
`eligible` flag is the boolean attribute `_ngraph_marked_for_clustering`. -/
def NodeIsMarkedForClustering (n : Node) : Bool :=
  match n.attrs.lookup "_ngraph_marked_for_clustering" with
  | some (AttrValue.b v) => v
  | _ => false

/-- The constant `MIN_NONTRIVIAL_NODES` of the source. -/
def MIN_NONTRIVIAL_NODES : Int := 6

/-- The local `trivial_ops` set of `DeassignClusters`, spelled as in the source. -/
def trivial_ops : List String := ["Const", "Identitiy"]

/-- An `unordered_map<string, int>`: association list, looked up by key. -/
abbrev Histogram := List (String × Int)

/-- Lookup of a key in the histogram (`find`). -/
def Histogram.find (h : Histogram) (k : String) : Option Int := h.lookup k

/-- The statement `h[k]++`: a missing key is first inserted with value `0`. -/
def Histogram.increment : Histogram → String → Histogram
  | [], k => [(k, wrapInt32 (0 + 1))]
  | (k', v) :: t, k =>
    if k' == k then (k', wrapInt32 (v + 1)) :: t
    else (k', v) :: Histogram.increment t k

/-- A `std::map<int, std::set<Node*>>`: entries in increasing key order, each
with the positions of its nodes.  A `std::set<Node*>` is walked in address
order, which the source does not fix; the model walks a set in the order of
insertion, that is by increasing position.  The loops over a set only count,
clear attributes of the node at hand and increment histogram entries: updates
that commute. -/
abbrev ClusterMap := List (Int × List Nat)

/-- The method `std::set::insert`: no effect when the element is present. -/
def setInsert (ps : List Nat) (p : Nat) : List Nat :=
  if p ∈ ps then ps else ps ++ [p]

/-- The statement `cluster_map[c].insert(p)`. -/
def ClusterMap.insertNode : ClusterMap → Int → Nat → ClusterMap
  | [], c, p => [(c, [p])]
  | (c', ps) :: t, c, p =>
    if c < c' then (c, [p]) :: (c', ps) :: t
    else if c = c' then (c', setInsert ps p) :: t
    else (c', ps) :: ClusterMap.insertNode t c p

/-- The process-wide variables of `ngraph_deassign_clusters.cc`. -/
structure Globals where
  deassigned_histogram : Histogram
  num_nodes_marked_before_deassign : Int
deriving DecidableEq, Repr

/-- What the pass reads from outside: the environment variables and the
switches of `config::`. -/
structure Env where
  getenv : String → Option String
  IsEnabled : Bool
  IsLoggingPlacement : Bool

/-! ## `MaybeLogPlacement` -/

/-- The figures `MaybeLogPlacement` prints in its `NGTF_SUMMARY` lines. -/
structure PlacementSummary where
  number_of_nodes : Int
  nodes_marked_for_clustering : Int
  nodes_assigned_a_cluster : Int
  num_nodes_marked_before_deassign : Int
  perc_marked_for_clustering_of_total : Int
  perc_assigned_clusters_of_total : Int
  perc_assigned_clusters_of_marked : Int
  num_encapsulates : Int
  cluster_sizes : List (Int × Nat)
  op_deassigned : Histogram
  placement : List (Int × String × String)
deriving DecidableEq, Repr

/-- The scan of `MaybeLogPlacement` over the nodes: the three counters and
`final_cluster_map` (key `-1` collects the nodes without a cluster). -/
def scanPlacement : List Node → Nat → Int × Int × Int × ClusterMap →
    Int × Int × Int × ClusterMap
  | [], _, acc => acc
  | n :: rest, pos, (total, marked, assigned, m) =>
    let marked1 := if NodeIsMarkedForClustering n then wrapInt32 (marked + 1) else marked
    match GetNodeCluster n with
    | none =>
      scanPlacement rest (pos + 1)
        (wrapInt32 (total + 1), marked1, assigned, m.insertNode (-1) pos)
    | some c =>
      scanPlacement rest (pos + 1)
        (wrapInt32 (total + 1), marked1, wrapInt32 (assigned + 1), m.insertNode c pos)

/-- The expression `(int)((a * 100.0) / b)` for `b > 0`: the quotient is
truncated.  For `0 ≤ a` and `0 < b` below `2^31` the product is exact in a
`double`, and the rounded quotient never reaches the next whole number (it
stays at least `1 / b` below it), so the truncation is that of the exact
quotient. -/
def percentOf (a b : Int) : Int := Int.tdiv (a * 100) b

/-- The function `MaybeLogPlacement`: `none` when nothing is printed. -/
def MaybeLogPlacement (env : Env) (graph : Graph) (gl : Globals) : Option PlacementSummary :=
  if !env.IsLoggingPlacement then none
  else
    match scanPlacement graph.nodes 0 (0, 0, 0, []) with
    | (number_of_nodes, marked, assigned, final_cluster_map) =>
      if number_of_nodes = 0 then none
      else
        some
          { number_of_nodes := number_of_nodes
            nodes_marked_for_clustering := marked
            nodes_assigned_a_cluster := assigned
            num_nodes_marked_before_deassign := gl.num_nodes_marked_before_deassign
            perc_marked_for_clustering_of_total :=
              percentOf gl.num_nodes_marked_before_deassign number_of_nodes
            perc_assigned_clusters_of_total := percentOf assigned number_of_nodes
            perc_assigned_clusters_of_marked :=
              if gl.num_nodes_marked_before_deassign > 0 then
                percentOf assigned gl.num_nodes_marked_before_deassign
              else 0
            num_encapsulates := wrapInt32 ((final_cluster_map.length : Int) - 1)
            cluster_sizes :=
              (final_cluster_map.filter (fun kv => !(kv.1 == -1))).map
                (fun kv => (kv.1, kv.2.length))
            op_deassigned := gl.deassigned_histogram
            placement :=
              final_cluster_map.flatMap (fun kv =>
                kv.2.filterMap (fun p =>
                  (graph.nodes[p]?).map (fun n => (kv.1, n.name, n.type_string)))) }

/-! ## `DeassignClusters` -/

/-- The bypass loop (source lines 157-163): count the nodes with a cluster. -/
def countMarked : List Node → Int → Int
  | [], cnt => cnt
  | n :: rest, cnt =>
    match GetNodeCluster n with
    | some _ => countMarked rest (wrapInt32 (cnt + 1))
    | none => countMarked rest cnt

/-- The first loop of the main path (source lines 170-178): build
`cluster_map` and count the nodes with a cluster. -/
def collectClusters : List Node → Nat → ClusterMap → Int → ClusterMap × Int
  | [], _, m, cnt => (m, cnt)
  | n :: rest, pos, m, cnt =>
    match GetNodeCluster n with
    | none => collectClusters rest (pos + 1) m cnt
    | some c => collectClusters rest (pos + 1) (m.insertNode c pos) (wrapInt32 (cnt + 1))

/-- The inner counting loop (source lines 187-191) over the nodes of one
cluster. -/
def countNonTrivial (nodes : List Node) : List Nat → Int → Int
  | [], cnt => cnt
  | p :: ps, cnt =>
    match nodes[p]? with
    | some n =>
      if trivial_ops.contains n.type_string then countNonTrivial nodes ps cnt
      else countNonTrivial nodes ps (wrapInt32 (cnt + 1))
    | none => countNonTrivial nodes ps cnt

/-- The busting loop (source lines 195-205) over the nodes of one cluster. -/
def bustNodes : List Nat → List Node × Histogram → List Node × Histogram
  | [], st => st
  | p :: ps, (nodes, hist) =>
    match nodes[p]? with
    | some n =>
      bustNodes ps
        (nodes.set p ((n.ClearAttr "_ngraph_cluster").ClearAttr "_ngraph_marked_for_clustering"),
          hist.increment n.type_string)
    | none => bustNodes ps (nodes, hist)

/-- The loop over `cluster_map` (source lines 180-207). -/
def bustClusters : ClusterMap → List Node × Histogram → List Node × Histogram
  | [], st => st
  | (_, ps) :: rest, (nodes, hist) =>
    if countNonTrivial nodes ps 0 < MIN_NONTRIVIAL_NODES then
      bustClusters rest (bustNodes ps (nodes, hist))
    else bustClusters rest (nodes, hist)

/-- What a call of `DeassignClusters` leaves behind. -/
structure DeassignResult where
  status : Status
  graph : Graph
  globals : Globals
  log : Option PlacementSummary
deriving DecidableEq, Repr

/-- The function `DeassignClusters`. -/
def DeassignClusters (env : Env) (graph : Graph) (_gl : Globals) : DeassignResult :=
  -- both globals are reset whatever they held
  let num0 : Int := 0
  let hist0 : Histogram := []
  if (env.getenv "NGRAPH_TF_DISABLE_DEASSIGN_CLUSTERS").isSome then
    let gl1 : Globals :=
      { deassigned_histogram := hist0
        num_nodes_marked_before_deassign := countMarked graph.nodes num0 }
    { status := Status.OK, graph := graph, globals := gl1
      log := MaybeLogPlacement env graph gl1 }
  else
    match collectClusters graph.nodes 0 [] num0 with
    | (cluster_map, num1) =>
      match bustClusters cluster_map (graph.nodes, hist0) with
      | (nodes1, hist1) =>
        let graph1 : Graph := { graph with nodes := nodes1 }
        let gl1 : Globals :=
          { deassigned_histogram := hist1, num_nodes_marked_before_deassign := num1 }
        { status := Status.OK, graph := graph1, globals := gl1
          log := MaybeLogPlacement env graph1 gl1 }


/-! ## The rewrite passes (`ngraph_rewrite_pass.cc`) -/

/-- An `unordered_map<string, string>`: association list, looked up by key. -/
abbrev ConfigMap := List (String × String)

/-- The method `erase(key)` of the configuration map. -/
def ConfigMap.erase (m : ConfigMap) (key : String) : ConfigMap :=
  m.filter (fun kv => !(kv.1 == key))

/-- The encapsulated units registered with `NGraphClusterManager`, by name. -/
abbrev Registry := List (String × Graph)

/-- Modelled from the spec: `NGraphClusterManager::EvictAllClusters` is defined
in `ngraph_cluster_manager.cc`, which is not among the sources.  The spec's
"evict all" call drops every registered encapsulated unit. -/
def EvictAllClusters (_registry : Registry) : Registry := []

/-- What a pipeline stage hands back: its status, the graph as the stage left
it, and the registry as the stage left it. -/
structure StageResult where
  status : Status
  graph : Graph
  registry : Registry
deriving DecidableEq, Repr

/-- The functions the passes call that are not among the sources: the marker
test, the backend manager and the pipeline stages other than
`DeassignClusters`.  Each stage sees its arguments, the graph and the
registry. -/
structure Collaborators where
  IsProcessedByNgraphPass : Graph → Bool
  GetCurrentlySetBackendName : Status × String
  GetBackendAttributeValues : String → ConfigMap
  CaptureVariables : Graph → List String → Registry → StageResult
  ReplaceModifiers : Graph → Int → Registry → StageResult
  MarkForClustering : Graph → List String → String → Registry → StageResult
  AssignClusters : Graph → Registry → StageResult
  EncapsulateClusters : Graph → Int → ConfigMap → Registry → StageResult
  RewriteForVariableSync : Graph → Int → Registry → StageResult
  EnterInCatalog : Graph → Int → Registry → StageResult
  RemoveNGraphAssigns : Graph → Registry → StageResult

/-- A call of a pipeline stage with the arguments the pass supplies. -/
inductive StageCall where
  | CaptureVariables (skip_these_nodes : List String) : StageCall
  | ReplaceModifiers (idx : Int) : StageCall
  | MarkForClustering (skip_these_nodes : List String) (backend_name : String) : StageCall
  | AssignClusters : StageCall
  | DeassignClusters : StageCall
  | EncapsulateClusters (idx : Int) (config_map : ConfigMap) : StageCall
  | RewriteForVariableSync (idx : Int) : StageCall
  | EnterInCatalog (idx : Int) : StageCall
  | RemoveNGraphAssigns : StageCall
deriving DecidableEq, Repr

/-- The stage a call addresses. -/
def StageCall.name : StageCall → String
  | .CaptureVariables _ => "CaptureVariables"
  | .ReplaceModifiers _ => "ReplaceModifiers"
  | .MarkForClustering _ _ => "MarkForClustering"
  | .AssignClusters => "AssignClusters"
  | .DeassignClusters => "DeassignClusters"
  | .EncapsulateClusters _ _ => "EncapsulateClusters"
  | .RewriteForVariableSync _ => "RewriteForVariableSync"
  | .EnterInCatalog _ => "EnterInCatalog"
  | .RemoveNGraphAssigns => "RemoveNGraphAssigns"

/-- What a run of a pass does to the outside, in order: a stage call (with the
graph it was given and the status it returned), a graph dump, the eviction of
the registry, a placement summary printed by `DeassignClusters`. -/
inductive Event where
  | stage (call : StageCall) (graph : Graph) (result : Status) : Event
  | dump (idx : Int) (tag : String) (title : String) (graph : Graph) : Event
  | evictAll : Event
  | summary (s : PlacementSummary) : Event
deriving DecidableEq, Repr

/-- The process-wide state the passes share. -/
structure Process where
  s_serial_counter : Int
  globals : Globals
  registry : Registry
deriving DecidableEq, Repr

/-- The argument of `Run`: `graph` is `none` for a null `options.graph`. -/
structure GraphOptimizationPassOptions where
  graph : Option Graph
deriving DecidableEq, Repr

/-- How a call of `Run` ends: it returns a status, or `config_map.at` throws. -/
inductive Outcome where
  | returned (s : Status) : Outcome
  | threw (what : String) : Outcome
deriving DecidableEq, Repr

/-- The state after a call of `Run` and the events of the call. -/
structure RunResult where
  outcome : Outcome
  graph : Option Graph
  proc : Process
  trace : List Event
deriving DecidableEq, Repr

/-- The function `NGraphRewritePass::FreshIndex`: post-increment of the counter. -/
def FreshIndex (p : Process) : Int × Process :=
  (p.s_serial_counter, { p with s_serial_counter := wrapInt32 (p.s_serial_counter + 1) })

/-- Modelled from the spec: `DumpGraphs` is declared in `ngraph_utils.h` of the
bridge, which is not among the sources.  The spec makes the graph dump an
external collaborator that observes the graph; a call is recorded as an event
when the toggle `b` is on. -/
def DumpGraphs (b : Bool) (idx : Int) (tag title : String) (graph : Graph) : List Event :=
  if b then [Event.dump idx tag title graph] else []

/-- Modelled from the spec: `DumpAllGraphs` is declared in `ngraph_utils.h` of
the bridge, which is not among the sources.  The comment above
`NGraphEncapsulationPass` gives the variable: `NGRAPH_TF_DUMP_GRAPHS`. -/
def DumpAllGraphs (env : Env) : Bool := (env.getenv "NGRAPH_TF_DUMP_GRAPHS").isSome

/-- Modelled from the spec: not among the sources; variable as in the comment
above `NGraphEncapsulationPass` (dump before phase 0). -/
def DumpUnmarkedGraphs (env : Env) : Bool :=
  DumpAllGraphs env || (env.getenv "NGRAPH_TF_DUMP_UNMARKED_GRAPHS").isSome

/-- Modelled from the spec: not among the sources; variable as in the comment
above `NGraphEncapsulationPass` (dump after phase 1). -/
def DumpMarkedGraphs (env : Env) : Bool :=
  DumpAllGraphs env || (env.getenv "NGRAPH_TF_DUMP_MARKED_GRAPHS").isSome

/-- Modelled from the spec: not among the sources; variable as in the comment
above `NGraphEncapsulationPass` (dump after phase 2). -/
def DumpClusteredGraphs (env : Env) : Bool :=
  DumpAllGraphs env || (env.getenv "NGRAPH_TF_DUMP_CLUSTERED_GRAPHS").isSome

/-- Modelled from the spec: not among the sources; variable as in the comment
above `NGraphEncapsulationPass` (dump after phase 3). -/
def DumpDeclusteredGraphs (env : Env) : Bool :=
  DumpAllGraphs env || (env.getenv "NGRAPH_TF_DUMP_DECLUSTERED_GRAPHS").isSome

/-- Modelled from the spec: not among the sources; variable as in the comment
above `NGraphEncapsulationPass` (dump after phase 4). -/
def DumpEncapsulatedGraphs (env : Env) : Bool :=
  DumpAllGraphs env || (env.getenv "NGRAPH_TF_DUMP_ENCAPSULATED_GRAPHS").isSome

/-- The method `NGraphVariableCapturePass::DumpPrecaptureGraphs`. -/
def DumpPrecaptureGraphs (env : Env) : Bool :=
  DumpAllGraphs env || (env.getenv "NGRAPH_TF_DUMP_PRE_CAPTURED_GRAPHS").isSome

/-- The method `NGraphVariableCapturePass::DumpCapturedGraphs`. -/
def DumpCapturedGraphs (env : Env) : Bool :=
  DumpAllGraphs env || (env.getenv "NGRAPH_TF_DUMP_CAPTURED_GRAPHS").isSome

/-- The method `NGraphEncapsulationPass::DumpReplacedModifiersGraphs`. -/
def DumpReplacedModifiersGraphs (env : Env) : Bool :=
  DumpAllGraphs env || (env.getenv "NGRAPH_TF_DUMP_REPLACEDMODIFIERS_GRAPHS").isSome

/-- The method `NGraphEncapsulationPass::DumpRemoveNGraphAssignsGraphs`. -/
def DumpRemoveNGraphAssignsGraphs (env : Env) : Bool :=
  DumpAllGraphs env || (env.getenv "NGRAPH_TF_DUMP_REMOVENGASSIGNS_GRAPHS").isSome

/-- The method `NGraphEncapsulationPass::DumpVarSyncedGraphs`. -/
def DumpVarSyncedGraphs (env : Env) : Bool :=
  DumpAllGraphs env || (env.getenv "NGRAPH_TF_DUMP_REWRITEVARSYNC_GRAPHS").isSome

/-- The summary event of a `DeassignClusters` call, when one is printed. -/
def summaryEvents (log : Option PlacementSummary) : List Event :=
  match log with
  | some s => [Event.summary s]
  | none => []

/-- The method `NGraphVariableCapturePass::Run`. -/
def NGraphVariableCapturePass.Run (env : Env) (ext : Collaborators)
    (options : GraphOptimizationPassOptions) (p : Process) : RunResult :=
  match options.graph with
  | none => { outcome := Outcome.returned Status.OK, graph := none, proc := p, trace := [] }
  | some g =>
    let idx := (FreshIndex p).1
    let p1 := (FreshIndex p).2
    let t1 := DumpGraphs (DumpPrecaptureGraphs env) idx "precapture" "Pre-Capture Graph" g
    let ngraph_not_enabled := !env.IsEnabled || (env.getenv "NGRAPH_TF_DISABLE").isSome
    let already_processed := ext.IsProcessedByNgraphPass g
    if ngraph_not_enabled || already_processed then
      { outcome := Outcome.returned Status.OK, graph := some g
        proc := { p1 with registry := EvictAllClusters p1.registry }
        trace := t1 ++ [Event.evictAll] }
    else
      let skip_these_nodes : List String := []
      let r := ext.CaptureVariables g skip_these_nodes p1.registry
      let t2 := t1 ++ [Event.stage (StageCall.CaptureVariables skip_these_nodes) g r.status]
      if r.status ≠ Status.OK then
        { outcome := Outcome.returned r.status, graph := some r.graph
          proc := { p1 with registry := r.registry }, trace := t2 }
      else
        { outcome := Outcome.returned Status.OK, graph := some r.graph
          proc := { p1 with registry := r.registry }
          trace := t2 ++ DumpGraphs (DumpCapturedGraphs env) idx "captured"
            "Graph With Variables Captured" r.graph }

/-- The method `NGraphEncapsulationPass::Run`.  The arguments `fdeflib_new` (a
fresh, empty library) and `{0, {}}` of `EncapsulateClusters` are constants and
are left out. -/
def NGraphEncapsulationPass.Run (env : Env) (ext : Collaborators)
    (options : GraphOptimizationPassOptions) (p : Process) : RunResult :=
  match options.graph with
  | none => { outcome := Outcome.returned Status.OK, graph := none, proc := p, trace := [] }
  | some g =>
    let idx := (FreshIndex p).1
    let p1 := (FreshIndex p).2
    let t1 := DumpGraphs (DumpUnmarkedGraphs env) idx "unmarked" "Unmarked Graph" g
    let ngraph_not_enabled := !env.IsEnabled || (env.getenv "NGRAPH_TF_DISABLE").isSome
    let already_processed := ext.IsProcessedByNgraphPass g
    if ngraph_not_enabled || already_processed then
      { outcome := Outcome.returned Status.OK, graph := some g
        proc := { p1 with registry := EvictAllClusters p1.registry }
        trace := t1 ++ [Event.evictAll] }
    else if ext.GetCurrentlySetBackendName.1 ≠ Status.OK then
      { outcome := Outcome.returned ext.GetCurrentlySetBackendName.1, graph := some g
        proc := p1, trace := t1 }
    else
      match (ext.GetBackendAttributeValues ext.GetCurrentlySetBackendName.2).lookup
          "ngraph_backend" with
      | none =>
        { outcome := Outcome.threw "std::out_of_range", graph := some g, proc := p1, trace := t1 }
      | some backend_name =>
        let config_map :=
          (ext.GetBackendAttributeValues ext.GetCurrentlySetBackendName.2).erase "ngraph_backend"
        -- 0. Replace optimizers
        let r0 := ext.ReplaceModifiers g idx p1.registry
        let t2 := t1 ++ [Event.stage (StageCall.ReplaceModifiers idx) g r0.status]
        if r0.status ≠ Status.OK then
          { outcome := Outcome.returned r0.status, graph := some r0.graph
            proc := { p1 with registry := r0.registry }, trace := t2 }
        else
        let t3 := t2 ++ DumpGraphs (DumpReplacedModifiersGraphs env) idx "replaced_modifier"
          "Graph with Modifiers replaced" r0.graph
        -- 1. Mark for clustering
        let skip_these_nodes : List String := []
        let r1 := ext.MarkForClustering r0.graph skip_these_nodes backend_name r0.registry
        let t4 := t3 ++
          [Event.stage (StageCall.MarkForClustering skip_these_nodes backend_name) r0.graph
            r1.status]
        if r1.status ≠ Status.OK then
          { outcome := Outcome.returned r1.status, graph := some r1.graph
            proc := { p1 with registry := r1.registry }, trace := t4 }
        else
        let t5 := t4 ++ DumpGraphs (DumpMarkedGraphs env) idx "marked"
          "Graph Marked for Clustering" r1.graph
        -- 2. Assign clusters
        let r2 := ext.AssignClusters r1.graph r1.registry
        let t6 := t5 ++ [Event.stage StageCall.AssignClusters r1.graph r2.status]
        if r2.status ≠ Status.OK then
          { outcome := Outcome.returned r2.status, graph := some r2.graph
            proc := { p1 with registry := r2.registry }, trace := t6 }
        else
        let t7 := t6 ++ DumpGraphs (DumpClusteredGraphs env) idx "clustered"
          "Graph with Clusters Assigned" r2.graph
        -- 3. Deassign trivial clusters
        let r3 := DeassignClusters env r2.graph p1.globals
        let t8 := t7 ++ summaryEvents r3.log ++
          [Event.stage StageCall.DeassignClusters r2.graph r3.status]
        if r3.status ≠ Status.OK then
          { outcome := Outcome.returned r3.status, graph := some r3.graph
            proc := { p1 with registry := r2.registry, globals := r3.globals }, trace := t8 }
        else
        let t9 := t8 ++ DumpGraphs (DumpDeclusteredGraphs env) idx "declustered"
          "Graph with Trivial Clusters De-Assigned" r3.graph
        -- 4. Encapsulate clusters
        let r4 := ext.EncapsulateClusters r3.graph idx config_map r2.registry
        let t10 := t9 ++
          [Event.stage (StageCall.EncapsulateClusters idx config_map) r3.graph r4.status]
        if r4.status ≠ Status.OK then
          { outcome := Outcome.returned r4.status, graph := some r4.graph
            proc := { p1 with registry := r4.registry, globals := r3.globals }, trace := t10 }
        else
        let t11 := t10 ++ DumpGraphs (DumpEncapsulatedGraphs env) idx "encapsulated"
          "Graph with Clusters Encapsulated" r4.graph
        -- 5. Rewrite for synchronization of variables
        let r5 := ext.RewriteForVariableSync r4.graph idx r4.registry
        let t12 := t11 ++ [Event.stage (StageCall.RewriteForVariableSync idx) r4.graph r5.status]
        if r5.status ≠ Status.OK then
          { outcome := Outcome.returned r5.status, graph := some r5.graph
            proc := { p1 with registry := r5.registry, globals := r3.globals }, trace := t12 }
        else
        let t13 := t12 ++ DumpGraphs (DumpVarSyncedGraphs env) idx "rewrite_var_synced"
          "Graph with Variables Rewritten for Tracking" r5.graph
        -- 6. Enter in catalog
        let r6 := ext.EnterInCatalog r5.graph idx r5.registry
        let t14 := t13 ++ [Event.stage (StageCall.EnterInCatalog idx) r5.graph r6.status]
        if r6.status ≠ Status.OK then
          { outcome := Outcome.returned r6.status, graph := some r6.graph
            proc := { p1 with registry := r6.registry, globals := r3.globals }, trace := t14 }
        else
        -- 7. Remove certain NGraphAssigns
        let r7 := ext.RemoveNGraphAssigns r6.graph r6.registry
        let t15 := t14 ++ [Event.stage StageCall.RemoveNGraphAssigns r6.graph r7.status]
        if r7.status ≠ Status.OK then
          { outcome := Outcome.returned r7.status, graph := some r7.graph
            proc := { p1 with registry := r7.registry, globals := r3.globals }, trace := t15 }
        else
          { outcome := Outcome.returned Status.OK, graph := some r7.graph
            proc := { p1 with registry := r7.registry, globals := r3.globals }
            trace := t15 ++ DumpGraphs (DumpRemoveNGraphAssignsGraphs env) idx
              "ngraphassigns_optimized" "Graph with NGraphAssigns Optimized/Removed" r7.graph }

/-- The stage calls among the events, each with the status it returned. -/
def stageEvents (t : List Event) : List (StageCall × Status) :=
  t.filterMap (fun e =>
    match e with
    | Event.stage call _ result => some (call, result)
    | _ => none)

/-- Whether the event is a graph dump. -/
def Event.isDump : Event → Bool
  | Event.dump _ _ _ _ => true
  | _ => false

/-- The order in which `NGraphEncapsulationPass::Run` goes through its phases. -/
def pipelineOrder : List String :=
  ["ReplaceModifiers", "MarkForClustering", "AssignClusters", "DeassignClusters",
   "EncapsulateClusters", "RewriteForVariableSync", "EnterInCatalog", "RemoveNGraphAssigns"]

/-- The five stages of the spec's pipeline, in its order. -/
def specStages : List String :=
  ["MarkForClustering", "AssignClusters", "DeassignClusters", "EncapsulateClusters",
   "RewriteForVariableSync"]

/-- The environment variables that toggle a graph dump. -/
def dumpToggleVars : List String :=
  ["NGRAPH_TF_DUMP_GRAPHS", "NGRAPH_TF_DUMP_UNMARKED_GRAPHS", "NGRAPH_TF_DUMP_MARKED_GRAPHS",
   "NGRAPH_TF_DUMP_CLUSTERED_GRAPHS", "NGRAPH_TF_DUMP_DECLUSTERED_GRAPHS",
   "NGRAPH_TF_DUMP_ENCAPSULATED_GRAPHS", "NGRAPH_TF_DUMP_PRE_CAPTURED_GRAPHS",
   "NGRAPH_TF_DUMP_CAPTURED_GRAPHS", "NGRAPH_TF_DUMP_REPLACEDMODIFIERS_GRAPHS",
   "NGRAPH_TF_DUMP_REMOVENGASSIGNS_GRAPHS", "NGRAPH_TF_DUMP_REWRITEVARSYNC_GRAPHS",
   "NGRAPH_TF_DUMP_TRACKED_GRAPHS"]

/-! ### The phases of `NGraphEncapsulationPass::Run`, one at a time

The functions below cut the body of `NGraphEncapsulationPass.Run` after each
phase; `encapsulationRun_eq_phases` shows that the pass is their chain.  Each
takes the graph, registry and events left by the phases before it. -/

/-- What the phases share: the environment, the collaborators, the serial
number of the run, the backend name and configuration, and the process state
after `FreshIndex`. -/
structure PhaseCtx where
  env : Env
  ext : Collaborators
  idx : Int
  backend_name : String
  config_map : ConfigMap
  p1 : Process

/-- Phase 7 (source lines 266-273). -/
def phase7 (c : PhaseCtx) (gl : Globals) (g : Graph) (reg : Registry) (t : List Event) :
    RunResult :=
  if (c.ext.RemoveNGraphAssigns g reg).status ≠ Status.OK then
    { outcome := Outcome.returned (c.ext.RemoveNGraphAssigns g reg).status
      graph := some (c.ext.RemoveNGraphAssigns g reg).graph
      proc := { c.p1 with registry := (c.ext.RemoveNGraphAssigns g reg).registry, globals := gl }
      trace := t ++ [Event.stage StageCall.RemoveNGraphAssigns g
        (c.ext.RemoveNGraphAssigns g reg).status] }
  else
    { outcome := Outcome.returned Status.OK
      graph := some (c.ext.RemoveNGraphAssigns g reg).graph
      proc := { c.p1 with registry := (c.ext.RemoveNGraphAssigns g reg).registry, globals := gl }
      trace := t ++ [Event.stage StageCall.RemoveNGraphAssigns g
          (c.ext.RemoveNGraphAssigns g reg).status] ++
        DumpGraphs (DumpRemoveNGraphAssignsGraphs c.env) c.idx "ngraphassigns_optimized"
          "Graph with NGraphAssigns Optimized/Removed" (c.ext.RemoveNGraphAssigns g reg).graph }

/-- Phase 6 (source lines 261-264), then phase 7. -/
def phase6 (c : PhaseCtx) (gl : Globals) (g : Graph) (reg : Registry) (t : List Event) :
    RunResult :=
  if (c.ext.EnterInCatalog g c.idx reg).status ≠ Status.OK then
    { outcome := Outcome.returned (c.ext.EnterInCatalog g c.idx reg).status
      graph := some (c.ext.EnterInCatalog g c.idx reg).graph
      proc := { c.p1 with registry := (c.ext.EnterInCatalog g c.idx reg).registry, globals := gl }
      trace := t ++ [Event.stage (StageCall.EnterInCatalog c.idx) g
        (c.ext.EnterInCatalog g c.idx reg).status] }
  else
    phase7 c gl (c.ext.EnterInCatalog g c.idx reg).graph (c.ext.EnterInCatalog g c.idx reg).registry
      (t ++ [Event.stage (StageCall.EnterInCatalog c.idx) g
        (c.ext.EnterInCatalog g c.idx reg).status])

/-- Phase 5 (source lines 250-259), then phase 6. -/
def phase5 (c : PhaseCtx) (gl : Globals) (g : Graph) (reg : Registry) (t : List Event) :
    RunResult :=
  if (c.ext.RewriteForVariableSync g c.idx reg).status ≠ Status.OK then
    { outcome := Outcome.returned (c.ext.RewriteForVariableSync g c.idx reg).status
      graph := some (c.ext.RewriteForVariableSync g c.idx reg).graph
      proc := { c.p1 with
        registry := (c.ext.RewriteForVariableSync g c.idx reg).registry, globals := gl }
      trace := t ++ [Event.stage (StageCall.RewriteForVariableSync c.idx) g
        (c.ext.RewriteForVariableSync g c.idx reg).status] }
  else
    phase6 c gl (c.ext.RewriteForVariableSync g c.idx reg).graph
      (c.ext.RewriteForVariableSync g c.idx reg).registry
      (t ++ [Event.stage (StageCall.RewriteForVariableSync c.idx) g
          (c.ext.RewriteForVariableSync g c.idx reg).status] ++
        DumpGraphs (DumpVarSyncedGraphs c.env) c.idx "rewrite_var_synced"
          "Graph with Variables Rewritten for Tracking"
          (c.ext.RewriteForVariableSync g c.idx reg).graph)

/-- Phase 4 (source lines 235-248), then phase 5. -/
def phase4 (c : PhaseCtx) (gl : Globals) (g : Graph) (reg : Registry) (t : List Event) :
    RunResult :=
  if (c.ext.EncapsulateClusters g c.idx c.config_map reg).status ≠ Status.OK then
    { outcome := Outcome.returned (c.ext.EncapsulateClusters g c.idx c.config_map reg).status
      graph := some (c.ext.EncapsulateClusters g c.idx c.config_map reg).graph
      proc := { c.p1 with
        registry := (c.ext.EncapsulateClusters g c.idx c.config_map reg).registry, globals := gl }
      trace := t ++ [Event.stage (StageCall.EncapsulateClusters c.idx c.config_map) g
        (c.ext.EncapsulateClusters g c.idx c.config_map reg).status] }
  else
    phase5 c gl (c.ext.EncapsulateClusters g c.idx c.config_map reg).graph
      (c.ext.EncapsulateClusters g c.idx c.config_map reg).registry
      (t ++ [Event.stage (StageCall.EncapsulateClusters c.idx c.config_map) g
          (c.ext.EncapsulateClusters g c.idx c.config_map reg).status] ++
        DumpGraphs (DumpEncapsulatedGraphs c.env) c.idx "encapsulated"
          "Graph with Clusters Encapsulated"
          (c.ext.EncapsulateClusters g c.idx c.config_map reg).graph)

/-- Phase 3 (source lines 228-233), then phase 4. -/
def phase3 (c : PhaseCtx) (g : Graph) (reg : Registry) (t : List Event) : RunResult :=
  if (DeassignClusters c.env g c.p1.globals).status ≠ Status.OK then
    { outcome := Outcome.returned (DeassignClusters c.env g c.p1.globals).status
      graph := some (DeassignClusters c.env g c.p1.globals).graph
      proc := { c.p1 with
        registry := reg, globals := (DeassignClusters c.env g c.p1.globals).globals }
      trace := t ++ summaryEvents (DeassignClusters c.env g c.p1.globals).log ++
        [Event.stage StageCall.DeassignClusters g (DeassignClusters c.env g c.p1.globals).status] }
  else
    phase4 c (DeassignClusters c.env g c.p1.globals).globals
      (DeassignClusters c.env g c.p1.globals).graph reg
      (t ++ summaryEvents (DeassignClusters c.env g c.p1.globals).log ++
          [Event.stage StageCall.DeassignClusters g
            (DeassignClusters c.env g c.p1.globals).status] ++
        DumpGraphs (DumpDeclusteredGraphs c.env) c.idx "declustered"
          "Graph with Trivial Clusters De-Assigned" (DeassignClusters c.env g c.p1.globals).graph)

/-- Phase 2 (source lines 222-226), then phase 3. -/
def phase2 (c : PhaseCtx) (g : Graph) (reg : Registry) (t : List Event) : RunResult :=
  if (c.ext.AssignClusters g reg).status ≠ Status.OK then
    { outcome := Outcome.returned (c.ext.AssignClusters g reg).status
      graph := some (c.ext.AssignClusters g reg).graph
      proc := { c.p1 with registry := (c.ext.AssignClusters g reg).registry }
      trace := t ++ [Event.stage StageCall.AssignClusters g (c.ext.AssignClusters g reg).status] }
  else
    phase3 c (c.ext.AssignClusters g reg).graph (c.ext.AssignClusters g reg).registry
      (t ++ [Event.stage StageCall.AssignClusters g (c.ext.AssignClusters g reg).status] ++
        DumpGraphs (DumpClusteredGraphs c.env) c.idx "clustered" "Graph with Clusters Assigned"
          (c.ext.AssignClusters g reg).graph)

/-- Phase 1 (source lines 214-220), then phase 2. -/
def phase1 (c : PhaseCtx) (g : Graph) (reg : Registry) (t : List Event) : RunResult :=
  if (c.ext.MarkForClustering g [] c.backend_name reg).status ≠ Status.OK then
    { outcome := Outcome.returned (c.ext.MarkForClustering g [] c.backend_name reg).status
      graph := some (c.ext.MarkForClustering g [] c.backend_name reg).graph
      proc := { c.p1 with registry := (c.ext.MarkForClustering g [] c.backend_name reg).registry }
      trace := t ++ [Event.stage (StageCall.MarkForClustering [] c.backend_name) g
        (c.ext.MarkForClustering g [] c.backend_name reg).status] }
  else
    phase2 c (c.ext.MarkForClustering g [] c.backend_name reg).graph
      (c.ext.MarkForClustering g [] c.backend_name reg).registry
      (t ++ [Event.stage (StageCall.MarkForClustering [] c.backend_name) g
          (c.ext.MarkForClustering g [] c.backend_name reg).status] ++
        DumpGraphs (DumpMarkedGraphs c.env) c.idx "marked" "Graph Marked for Clustering"
          (c.ext.MarkForClustering g [] c.backend_name reg).graph)

/-- Phase 0 (source lines 207-212), then phase 1. -/
def phase0 (c : PhaseCtx) (g : Graph) (reg : Registry) (t : List Event) : RunResult :=
  if (c.ext.ReplaceModifiers g c.idx reg).status ≠ Status.OK then
    { outcome := Outcome.returned (c.ext.ReplaceModifiers g c.idx reg).status
      graph := some (c.ext.ReplaceModifiers g c.idx reg).graph
      proc := { c.p1 with registry := (c.ext.ReplaceModifiers g c.idx reg).registry }
      trace := t ++ [Event.stage (StageCall.ReplaceModifiers c.idx) g
        (c.ext.ReplaceModifiers g c.idx reg).status] }
  else
    phase1 c (c.ext.ReplaceModifiers g c.idx reg).graph (c.ext.ReplaceModifiers g c.idx reg).registry
      (t ++ [Event.stage (StageCall.ReplaceModifiers c.idx) g
          (c.ext.ReplaceModifiers g c.idx reg).status] ++
        DumpGraphs (DumpReplacedModifiersGraphs c.env) c.idx "replaced_modifier"
          "Graph with Modifiers replaced" (c.ext.ReplaceModifiers g c.idx reg).graph)

/-- The context of the phases for a run on process state `p`. -/
def phaseCtx (env : Env) (ext : Collaborators) (p : Process) (backend_name : String) : PhaseCtx :=
  { env := env, ext := ext, idx := (FreshIndex p).1, backend_name := backend_name
    config_map :=
      (ext.GetBackendAttributeValues ext.GetCurrentlySetBackendName.2).erase "ngraph_backend"
    p1 := (FreshIndex p).2 }

/-! ## Specification vocabulary -/

/-- Whether the node carries a cluster assignment. -/
def hasCluster (n : Node) : Bool := (GetNodeCluster n).isSome

/-- Keys of the cluster map are strictly increasing. -/
def ClusterMap.Sorted (m : ClusterMap) : Prop := m.Pairwise (fun a b => a.1 < b.1)

/-- The node positions stored under key `c` (empty when the key is absent). -/
def ClusterMap.get (m : ClusterMap) (c : Int) : List Nat := (m.lookup c).getD []

/-- Positions (counted from `pos`) of the nodes that sit in cluster `c`. -/
def clusterPositions : List Node → Nat → Int → List Nat
  | [], _, _ => []
  | n :: rest, pos, c =>
    if GetNodeCluster n = some c then pos :: clusterPositions rest (pos + 1) c
    else clusterPositions rest (pos + 1) c

/-- The cluster map `DeassignClusters` builds for the node list. -/
def clusterMapOf (nodes : List Node) : ClusterMap := (collectClusters nodes 0 [] 0).1

/-- What the busting loop does to one node: both attributes are cleared. -/
def clearBoth (n : Node) : Node :=
  (n.ClearAttr "_ngraph_cluster").ClearAttr "_ngraph_marked_for_clustering"

/-- The op kind found at a position of the node list. -/
def kindAt (ns : List Node) (p : Nat) : Option String := (ns[p]?).map (fun n => n.type_string)

/-- Whether the loop over `es` busts the cluster that holds position `i`. -/
def bustedAt (ns : List Node) (es : ClusterMap) (i : Nat) : Bool :=
  es.any (fun e => decide (countNonTrivial ns e.2 0 < MIN_NONTRIVIAL_NODES) && decide (i ∈ e.2))

/-- Kinds of the nodes that the loop over `es` busts, in busting order. -/
def bustedKinds (ns : List Node) (es : ClusterMap) : List String :=
  (es.filter (fun e => decide (countNonTrivial ns e.2 0 < MIN_NONTRIVIAL_NODES))).flatMap
    (fun e => e.2.filterMap (kindAt ns))

/-- Whether the node is a member of cluster `c`. -/
def inCluster (c : Int) (n : Node) : Bool := decide (GetNodeCluster n = some c)

/-- Whether the node's op kind is in the pass's trivial set. -/
def isTrivial (n : Node) : Bool := trivial_ops.contains n.type_string

/-- Number of members of cluster `c` whose op kind is outside the trivial set. -/
def nonTrivialCount (g : Graph) (c : Int) : Nat :=
  (g.nodes.filter (fun n => inCluster c n && !isTrivial n)).length

/-- Whether the node belongs to a cluster that is below the threshold. -/
def discards (g : Graph) (n : Node) : Bool :=
  match GetNodeCluster n with
  | some c => decide ((nonTrivialCount g c : Int) < MIN_NONTRIVIAL_NODES)
  | none => false

/-- Number of nodes of op kind `k` that sit in a cluster below the threshold. -/
def discardedOfKind (g : Graph) (k : String) : Nat :=
  (g.nodes.filter (fun n => decide (n.type_string = k) && discards g n)).length

/-- The clusters of the graph that the pass busts. -/
def bustedEntries (g : Graph) : ClusterMap :=
  (clusterMapOf g.nodes).filter
    (fun e => decide (countNonTrivial g.nodes e.2 0 < MIN_NONTRIVIAL_NODES))

/-- The node carries neither the cluster nor the marked-for-clustering attribute. -/
def Node.deassigned (n : Node) : Prop :=
  n.attrs.lookup "_ngraph_cluster" = none ∧
    n.attrs.lookup "_ngraph_marked_for_clustering" = none


/-- The names of the stages called in a trace, in call order. -/
def stageNames (t : List Event) : List String := (stageEvents t).map (fun e => e.1.name)

/-- The events so far are the first `k` phases of the pass, all of them OK. -/
def PhasesOkUpTo (k : Nat) (t : List Event) : Prop :=
  stageNames t = pipelineOrder.take k ∧ ∀ e ∈ stageEvents t, e.2 = Status.OK

/-- The stage discipline of a run: calls form an initial segment of the phase
order, only the last call may have failed, a failure is what the run returns,
and a run that returns OK went through every phase. -/
def StageDiscipline (R : RunResult) : Prop :=
  (stageNames R.trace <+: pipelineOrder) ∧
  ((stageNames R.trace).filter (fun s => decide (s ∈ specStages)) <+: specStages) ∧
  (∀ e ∈ (stageEvents R.trace).dropLast, e.2 = Status.OK) ∧
  (∀ e : StageCall × Status, (stageEvents R.trace).getLast? = some e → e.2 ≠ Status.OK →
    R.outcome = Outcome.returned e.2) ∧
  (R.outcome = Outcome.returned Status.OK →
    (∀ e ∈ stageEvents R.trace, e.2 = Status.OK) ∧ stageNames R.trace = pipelineOrder)

/-- The backend arguments of a stage call are those derived from the attribute
map `attrs`: the marking stage gets the value stored under `ngraph_backend`,
the encapsulation stage gets the map without that key. -/
def BackendArgsOk (attrs : ConfigMap) : Event → Prop
  | Event.stage (StageCall.MarkForClustering _ b) _ _ => attrs.lookup "ngraph_backend" = some b
  | Event.stage (StageCall.EncapsulateClusters _ cfg) _ _ => cfg = attrs.erase "ngraph_backend"
  | _ => True

/-- The events of a trace that are not graph dumps. -/
def nonDump (t : List Event) : List Event := t.filter (fun e => !e.isDump)

/-- Two runs agree on everything but their graph dumps. -/
def SameButDumps (R1 R2 : RunResult) : Prop :=
  R1.outcome = R2.outcome ∧ R1.graph = R2.graph ∧ R1.proc = R2.proc ∧
    nonDump R1.trace = nonDump R2.trace

/-- Two environments differ at most in the graph-dump toggles. -/
def EnvAgree (e1 e2 : Env) : Prop :=
  e1.IsEnabled = e2.IsEnabled ∧ e1.IsLoggingPlacement = e2.IsLoggingPlacement ∧
    ∀ v : String, v ∉ dumpToggleVars → e1.getenv v = e2.getenv v

/-! ## Test data -/

/-- A node of the given kind placed in cluster `c` (test data). -/
def mkNode (name kind : String) (c : Option Int) : Node :=
  { name := name, type_string := kind, assigned_device_name := "/device:CPU:0"
    attrs :=
      match c with
      | some v => [("_ngraph_marked_for_clustering", AttrValue.b true),
                   ("_ngraph_cluster", AttrValue.i v), ("T", AttrValue.s "DT_FLOAT")]
      | none => [("T", AttrValue.s "DT_FLOAT")] }

/-- An environment without any variable set (test data). -/
def envPlain : Env := { getenv := fun _ => none, IsEnabled := true, IsLoggingPlacement := true }

/-- Globals left over from an earlier graph (test data). -/
def glStale : Globals :=
  { deassigned_histogram := [("Add", 3), ("Relu", 1)], num_nodes_marked_before_deassign := 7 }

/-- One cluster with five non-trivial nodes and two constants (test data). -/
def graphFive : Graph :=
  { nodes := [mkNode "a" "Add" (some 1), mkNode "b" "Mul" (some 1), mkNode "c" "Const" (some 1),
              mkNode "d" "Relu" (some 1), mkNode "e" "Add" (some 1), mkNode "f" "Const" (some 1),
              mkNode "g" "Sub" (some 1), mkNode "h" "Shape" none]
    edges := [⟨0, 0, 1, 0⟩, ⟨2, 0, 1, 1⟩] }

/-- One cluster with six non-trivial nodes and one constant (test data). -/
def graphSix : Graph :=
  { nodes := [mkNode "a" "Add" (some 1), mkNode "b" "Mul" (some 1), mkNode "c" "Const" (some 1),
              mkNode "d" "Relu" (some 1), mkNode "e" "Add" (some 1), mkNode "f" "Neg" (some 1),
              mkNode "g" "Sub" (some 1), mkNode "h" "Shape" none]
    edges := [⟨0, 0, 1, 0⟩, ⟨2, 0, 1, 1⟩] }

/-- One cluster made of six pass-through `Identity` nodes (test data). -/
def graphIdentity : Graph :=
  { nodes := [mkNode "i0" "Identity" (some 4), mkNode "i1" "Identity" (some 4),
              mkNode "i2" "Identity" (some 4), mkNode "i3" "Identity" (some 4),
              mkNode "i4" "Identity" (some 4), mkNode "i5" "Identity" (some 4)]
    edges := [⟨0, 0, 1, 0⟩, ⟨1, 0, 2, 0⟩, ⟨2, 0, 3, 0⟩, ⟨3, 0, 4, 0⟩, ⟨4, 0, 5, 0⟩] }

/-- An environment with the pruning bypass set (test data). -/
def envBypass : Env :=
  { getenv := fun v => if v = "NGRAPH_TF_DISABLE_DEASSIGN_CLUSTERS" then some "1" else none
    IsEnabled := true, IsLoggingPlacement := false }

/-- Collaborators whose stages all succeed and leave the graph alone (test data). -/
def extPlain : Collaborators :=
  { IsProcessedByNgraphPass := fun g => g.nodes.any (fun n => n.type_string == "NGraphEncapsulate")
    GetCurrentlySetBackendName := (Status.OK, "CPU:0")
    GetBackendAttributeValues := fun _ =>
      [("ngraph_backend", "CPU"), ("_ngraph_device_config", "0")]
    CaptureVariables := fun g _ r => ⟨Status.OK, g, r⟩
    ReplaceModifiers := fun g _ r => ⟨Status.OK, g, r⟩
    MarkForClustering := fun g _ _ r => ⟨Status.OK, g, r⟩
    AssignClusters := fun g r => ⟨Status.OK, g, r⟩
    EncapsulateClusters := fun g _ _ r => ⟨Status.OK, g, r⟩
    RewriteForVariableSync := fun g _ r => ⟨Status.OK, g, r⟩
    EnterInCatalog := fun g _ r => ⟨Status.OK, g, r⟩
    RemoveNGraphAssigns := fun g r => ⟨Status.OK, g, r⟩ }

/-- A process at its start, with one stale registered unit (test data). -/
def procStart : Process :=
  { s_serial_counter := 0, globals := glStale, registry := [("ngraph_cluster_0", graphSix)] }

/-- An environment with offload disabled through `NGRAPH_TF_DISABLE` (test data). -/
def envDisabled : Env :=
  { getenv := fun v => if v = "NGRAPH_TF_DISABLE" then some "1" else none
    IsEnabled := true, IsLoggingPlacement := false }

/-- An environment with every graph dump requested (test data). -/
def envDumpAll : Env :=
  { getenv := fun v => if v = "NGRAPH_TF_DUMP_GRAPHS" then some "1" else none
    IsEnabled := true, IsLoggingPlacement := true }

/-- Collaborators whose cluster assignment fails (test data). -/
def extFailing : Collaborators :=
  { extPlain with AssignClusters := fun g r => ⟨Status.Error "INTERNAL" "cycle", g, r⟩ }
/-! ## Sequences of calls on the serial counter -/

/-- The values `n` calls of `FreshIndex` in a row return, and the state after them. -/
def freshIndexCalls : Nat → Process → List Int × Process
  | 0, p => ([], p)
  | n + 1, p =>
    ((FreshIndex p).1 :: (freshIndexCalls n (FreshIndex p).2).1,
      (freshIndexCalls n (FreshIndex p).2).2)

/-- A run of one of the two passes on a non-null graph. -/
inductive PassCall where
  | capture (env : Env) (ext : Collaborators) (g : Graph) : PassCall
  | encapsulation (env : Env) (ext : Collaborators) (g : Graph) : PassCall

/-- The run a pass call stands for. -/
def PassCall.run : PassCall → Process → RunResult
  | PassCall.capture env ext g, p => NGraphVariableCapturePass.Run env ext ⟨some g⟩ p
  | PassCall.encapsulation env ext g, p => NGraphEncapsulationPass.Run env ext ⟨some g⟩ p

/-- Runs of the passes one after the other on the shared process state: the
results of the runs, in order. -/
def runPasses : List PassCall → Process → List RunResult
  | [], _ => []
  | c :: cs, p => c.run p :: runPasses cs (c.run p).proc

/-- The serial number an event carries, when it carries one. -/
def Event.idx? : Event → Option Int
  | Event.dump idx _ _ _ => some idx
  | Event.stage (StageCall.ReplaceModifiers idx) _ _ => some idx
  | Event.stage (StageCall.EncapsulateClusters idx _) _ _ => some idx
  | Event.stage (StageCall.RewriteForVariableSync idx) _ _ => some idx
  | Event.stage (StageCall.EnterInCatalog idx) _ _ => some idx
  | _ => none

/-- Every serial number in the trace is `idx`. -/
def TraceUsesIdx (idx : Int) (t : List Event) : Prop :=
  ∀ e ∈ t, ∀ i : Int, e.idx? = some i → i = idx

/-! ## `ValuesFromConstNode` (`ngraph_utils.h`) -/

/-- The element types of `tensorflow::DataType` the helper can meet. -/
inductive DataType where
  | DT_INVALID : DataType
  | DT_FLOAT : DataType
  | DT_DOUBLE : DataType
  | DT_INT32 : DataType
  | DT_INT64 : DataType
  | DT_BOOL : DataType
deriving DecidableEq, Repr

/-- The number of the enumerator, as it is streamed into the error message. -/
def DataType.code : DataType → Nat
  | DataType.DT_INVALID => 0
  | DataType.DT_FLOAT => 1
  | DataType.DT_DOUBLE => 2
  | DataType.DT_INT32 => 3
  | DataType.DT_INT64 => 9
  | DataType.DT_BOOL => 10

/-- A `TensorShapeProto`: the sizes of its dimensions. -/
structure TensorShapeProto where
  dim : List Int
  unknown_rank : Bool
deriving DecidableEq, Repr

/-- A `TensorProto`: element type, optional shape, packed content (bytes) and
the typed value fields; a `float` is kept as its bit pattern. -/
structure TensorProto where
  dtype : DataType
  tensor_shape : Option TensorShapeProto
  tensor_content : List Nat
  int_val : List Int
  float_val : List Nat
  int64_val : List Int
  bool_val : List Bool
deriving DecidableEq, Repr

/-- The default (empty) `TensorShapeProto`. -/
def TensorShapeProto.empty : TensorShapeProto := { dim := [], unknown_rank := false }

/-- The default (empty) `TensorProto`. -/
def TensorProto.empty : TensorProto :=
  { dtype := DataType.DT_INVALID, tensor_shape := none, tensor_content := [], int_val := []
    float_val := [], int64_val := [], bool_val := [] }

/-- The value of an attribute of a `NodeDef`. -/
inductive NodeDefAttr where
  | type (t : DataType) : NodeDefAttr
  | tensor (t : TensorProto) : NodeDefAttr
  | other (text : String) : NodeDefAttr
deriving DecidableEq, Repr

/-- The accessor `type()`: the default `DT_INVALID` when the attribute holds
no type. -/
def NodeDefAttr.getType : NodeDefAttr → DataType
  | NodeDefAttr.type t => t
  | _ => DataType.DT_INVALID

/-- The accessor `tensor()`: the default tensor when the attribute holds none. -/
def NodeDefAttr.getTensor : NodeDefAttr → TensorProto
  | NodeDefAttr.tensor t => t
  | _ => TensorProto.empty

/-- A `tf::NodeDef`: op kind and attribute map. -/
structure NodeDef where
  name : String
  op : String
  attr : List (String × NodeDefAttr)
deriving DecidableEq, Repr

/-- What the template parameter `T` of `ValuesFromConstNode` brings along:
`DataTypeToEnum<T>::value`, `sizeof(T)`, the field of the tensor that
`MutableTensorProtoData<T>` picks, the conversions to `T` of an `int_val` and
of a `float_val` element, the value `T()` that `resize` pads with, and the
value of type `T` that `sizeof(T)` copied bytes make up. -/
structure ElemType (α : Type) where
  dtype : DataType
  sizeof : Nat
  protoData : TensorProto → List α
  ofInt : Int → α
  ofFloat : Nat → α
  zero : α
  ofBytes : List Nat → α

/-- How a call of `ValuesFromConstNode` ends: it returns a status, a `CHECK`
aborts the process, an exception leaves it, or it reads a repeated field out
of range (undefined). -/
inductive CallEnd where
  | returned (s : Status) : CallEnd
  | aborted (what : String) : CallEnd
  | threw (what : String) : CallEnd
  | undefined (what : String) : CallEnd
deriving DecidableEq, Repr

/-- The state of the two output arguments after a call, and how it ended. -/
structure ConstValues (α : Type) where
  outcome : CallEnd
  const_tensor_shape : TensorShapeProto
  values : List α

/-- Wrap of an integer into the range of `tf::int64`. -/
def wrapInt64 (x : Int) : Int :=
  (x + 9223372036854775808) % 18446744073709551616 - 9223372036854775808

/-- The loop of source lines 84-90: `none` when a dimension is negative, else
the product of the sizes. -/
def countElements : List Int → Int → Option Int
  | [], n => some n
  | d :: rest, n => if d < 0 then none else countElements rest (wrapInt64 (n * d))

/-- The method `resize(n)` of `std::vector<T>`. -/
def vectorResize {α : Type} (zero : α) (values : List α) (n : Nat) : List α :=
  values.take n ++ List.replicate (n - values.length) zero

/-- The loop of source lines 92-110, from index `i` with `remaining` rounds to
go: `none` when the loop runs to its end, else how the call ends early. -/
def fillValues {α : Type} (T : ElemType α) (dtype : DataType) (tensor : TensorProto) :
    Nat → Nat → List α → Option CallEnd × List α
  | 0, _, values => (none, values)
  | remaining + 1, i, values =>
    match dtype with
    | DataType.DT_INT32 =>
      match tensor.int_val[i]? with
      | some v => fillValues T dtype tensor remaining (i + 1) (values.set i (T.ofInt v))
      | none => (some (CallEnd.undefined "int_val index out of range"), values)
    | DataType.DT_FLOAT =>
      match tensor.float_val[i]? with
      | some v => fillValues T dtype tensor remaining (i + 1) (values.set i (T.ofFloat v))
      | none => (some (CallEnd.undefined "float_val index out of range"), values)
    | _ =>
      (some (CallEnd.returned
        (Status.Error "UNIMPLEMENTED" "Encountered unknown element type on an empty tensor")),
        values)

/-- The call `CopyToArray(tensor_content, values->data())` on a vector of
`n` elements: element `i` is made of bytes `i * sizeof(T)` onwards. -/
def copyToArray {α : Type} (T : ElemType α) (content : List Nat) (n : Nat) : List α :=
  (List.range n).map (fun i => T.ofBytes ((content.drop (i * T.sizeof)).take T.sizeof))

/-- The function template `ValuesFromConstNode<T>`.  The method `at` of the
attribute map fails a `CHECK` on a missing key.  A `resize` to any
non-negative size is taken to succeed. -/
def ValuesFromConstNode {α : Type} (T : ElemType α) (node : NodeDef)
    (const_tensor_shape : TensorShapeProto) (values : List α) : ConstValues α :=
  if node.op ≠ "Const" then
    { outcome := CallEnd.returned (Status.Error "INVALID_ARGUMENT" "Node not a Const")
      const_tensor_shape := const_tensor_shape, values := values }
  else
    match node.attr.lookup "dtype" with
    | none =>
      { outcome := CallEnd.aborted "key not found: dtype"
        const_tensor_shape := const_tensor_shape, values := values }
    | some dtypeAttr =>
      if dtypeAttr.getType ≠ T.dtype then
        { outcome := CallEnd.returned (Status.Error "INVALID_ARGUMENT"
            ("Invalid data type defined for Const. Defined: " ++ toString dtypeAttr.getType.code))
          const_tensor_shape := const_tensor_shape, values := values }
      else
        match node.attr.lookup "value" with
        | none =>
          { outcome := CallEnd.aborted "key not found: value"
            const_tensor_shape := const_tensor_shape, values := values }
        | some valueAttr =>
          let tensor := valueAttr.getTensor
          let tensor_values := T.protoData tensor
          let shape := tensor.tensor_shape.getD TensorShapeProto.empty
          -- from here on `*const_tensor_shape = shape` has been executed
          if !tensor_values.isEmpty && tensor.tensor_shape.isSome &&
              (shape.dim.length == 1 && shape.dim[0]? == some (tensor_values.length : Int)) then
            { outcome := CallEnd.returned Status.OK, const_tensor_shape := shape
              values := values ++ tensor_values }
          else if tensor.tensor_content.length % T.sizeof ≠ 0 then
            { outcome := CallEnd.aborted "tensor_content_size is not a multiple of sizeof(T)"
              const_tensor_shape := shape, values := values }
          else if tensor.tensor_content.length = 0 then
            match countElements shape.dim 1 with
            | none =>
              { outcome := CallEnd.returned (Status.Error "INVALID_ARGUMENT"
                  "Const node has empty tensor and an unknown dimension size")
                const_tensor_shape := shape, values := values }
            | some n_elements =>
              if n_elements < 0 then
                { outcome := CallEnd.threw "std::length_error"
                  const_tensor_shape := shape, values := values }
              else
                match fillValues T dtypeAttr.getType tensor n_elements.toNat 0
                    (vectorResize T.zero values n_elements.toNat) with
                | (some early, values1) =>
                  { outcome := early, const_tensor_shape := shape, values := values1 }
                | (none, values1) =>
                  { outcome := CallEnd.returned Status.OK, const_tensor_shape := shape
                    values := values1 }
          else
            { outcome := CallEnd.returned Status.OK, const_tensor_shape := shape
              values :=
                copyToArray T tensor.tensor_content (tensor.tensor_content.length / T.sizeof) }

/-! ## More test data -/

/-- A cluster of two non-trivial nodes and a node outside it (test data). -/
def graphTwo : Graph :=
  { nodes := [mkNode "a" "Add" (some 1), mkNode "b" "Mul" (some 1), mkNode "h" "Shape" none]
    edges := [⟨0, 0, 1, 0⟩] }

/-- The element type `int32`: values are kept as integers, four bytes each,
little endian (test data); `ofFloat` is not reached for this type. -/
def int32Elem : ElemType Int :=
  { dtype := DataType.DT_INT32, sizeof := 4, protoData := fun t => t.int_val
    ofInt := fun v => v, ofFloat := fun _ => 0, zero := 0
    ofBytes := fun bs =>
      wrapInt32 ((bs.getD 0 0 + 256 * bs.getD 1 0 + 65536 * bs.getD 2 0 +
        16777216 * bs.getD 3 0 : Nat) : Int) }

/-- A `Const` node of type `int32` with shape `[2]` and values `7, 8` (test data). -/
def constVec : NodeDef :=
  { name := "c", op := "Const"
    attr := [("dtype", NodeDefAttr.type DataType.DT_INT32),
             ("value", NodeDefAttr.tensor
               { dtype := DataType.DT_INT32
                 tensor_shape := some { dim := [2], unknown_rank := false }
                 tensor_content := [], int_val := [7, 8], float_val := [], int64_val := []
                 bool_val := [] })] }

/-- A `Const` node of type `float` (test data). -/
def constFloat : NodeDef :=
  { name := "f", op := "Const"
    attr := [("dtype", NodeDefAttr.type DataType.DT_FLOAT),
             ("value", NodeDefAttr.tensor
               { dtype := DataType.DT_FLOAT
                 tensor_shape := some { dim := [1], unknown_rank := false }
                 tensor_content := [], int_val := [], float_val := [1065353216], int64_val := []
                 bool_val := [] })] }

/-- A node that is not a `Const` (test data). -/
def addNode : NodeDef :=
  { name := "s", op := "Add", attr := [("T", NodeDefAttr.type DataType.DT_INT32)] }

/-! ## Auxiliary lemmas: counters -/

theorem wrapInt32_of_range {x : Int} (h1 : -2147483648 ≤ x) (h2 : x < 2147483648) :
    wrapInt32 x = x := by
  unfold wrapInt32; omega

theorem countMarked_eq (nodes : List Node) (cnt : Int) (h0 : 0 ≤ cnt)
    (hb : cnt + nodes.length < 2147483648) :
    countMarked nodes cnt = cnt + ((nodes.filter hasCluster).length : Int) := by
  induction nodes generalizing cnt with
  | nil => simp [countMarked]
  | cons n rest ih =>
    simp only [List.length_cons, Nat.cast_add, Nat.cast_one] at hb
    unfold countMarked
    cases hc : GetNodeCluster n with
    | none =>
      have : hasCluster n = false := by simp [hasCluster, hc]
      simp only [List.filter_cons, this]
      exact ih cnt h0 (by omega)
    | some c =>
      have : hasCluster n = true := by simp [hasCluster, hc]
      simp only [List.filter_cons, this, if_true, List.length_cons, Nat.cast_add, Nat.cast_one]
      rw [wrapInt32_of_range (by omega) (by omega), ih (cnt + 1) (by omega) (by omega)]
      omega

theorem collectClusters_snd (nodes : List Node) (pos : Nat) (m : ClusterMap) (cnt : Int) :
    (collectClusters nodes pos m cnt).2 = countMarked nodes cnt := by
  induction nodes generalizing pos m cnt with
  | nil => simp [collectClusters, countMarked]
  | cons n rest ih =>
    unfold collectClusters countMarked
    cases hc : GetNodeCluster n with
    | none => exact ih _ _ _
    | some c => exact ih _ _ _

/-! ## Auxiliary lemmas: the cluster map -/

theorem ClusterMap.mem_insertNode {m : ClusterMap} {c : Int} {p : Nat} {e : Int × List Nat}
    (h : e ∈ m.insertNode c p) : e.1 = c ∨ e ∈ m := by
  induction m with
  | nil =>
    simp only [ClusterMap.insertNode, List.mem_singleton] at h
    left; rw [h]
  | cons hd t ih =>
    obtain ⟨c', ps⟩ := hd
    unfold ClusterMap.insertNode at h
    split_ifs at h with h1 h2
    · rcases List.mem_cons.1 h with h | h
      · left; rw [h]
      · right; exact h
    · rcases List.mem_cons.1 h with h | h
      · left; rw [h]; exact h2.symm
      · right; exact List.mem_cons_of_mem _ h
    · rcases List.mem_cons.1 h with h | h
      · right; rw [h]; exact List.mem_cons_self _ _
      · rcases ih h with h | h
        · left; exact h
        · right; exact List.mem_cons_of_mem _ h

theorem ClusterMap.sorted_insertNode {m : ClusterMap} (hs : m.Sorted) (c : Int) (p : Nat) :
    (m.insertNode c p).Sorted := by
  induction m with
  | nil => simp [ClusterMap.insertNode, ClusterMap.Sorted]
  | cons hd t ih =>
    obtain ⟨c', ps⟩ := hd
    unfold ClusterMap.Sorted at hs ih ⊢
    rw [List.pairwise_cons] at hs
    unfold ClusterMap.insertNode
    split_ifs with h1 h2
    · rw [List.pairwise_cons, List.pairwise_cons]
      refine ⟨?_, hs⟩
      intro e he
      rcases List.mem_cons.1 he with he | he
      · rw [he]; exact h1
      · exact lt_trans h1 (hs.1 e he)
    · rw [List.pairwise_cons]
      exact ⟨hs.1, hs.2⟩
    · rw [List.pairwise_cons]
      refine ⟨?_, ih hs.2⟩
      intro e he
      rcases ClusterMap.mem_insertNode he with he | he
      · rw [he]; show c' < c; omega
      · exact hs.1 e he

theorem ClusterMap.lookup_eq_none_of_lt {m : ClusterMap} {c : Int}
    (h : ∀ e ∈ m, c < e.1) : m.lookup c = none := by
  induction m with
  | nil => rfl
  | cons hd t ih =>
    obtain ⟨c', ps⟩ := hd
    have h1 : c < c' := h (c', ps) (List.mem_cons_self _ _)
    have h2 : (c == c') = false := by
      rw [beq_eq_false_iff_ne]; omega
    rw [List.lookup_cons, h2]
    exact ih (fun e he => h e (List.mem_cons_of_mem _ he))

theorem ClusterMap.lookup_insertNode {m : ClusterMap} (hs : m.Sorted) (c : Int) (p : Nat)
    (c' : Int) :
    (m.insertNode c p).lookup c' =
      if c' = c then some (setInsert (m.get c) p) else m.lookup c' := by
  induction m with
  | nil =>
    by_cases h : c' = c
    · subst h; simp [ClusterMap.insertNode, ClusterMap.get, setInsert, List.lookup]
    · have : (c' == c) = false := by rw [beq_eq_false_iff_ne]; exact h
      simp [ClusterMap.insertNode, List.lookup, this, h]
  | cons hd t ih =>
    obtain ⟨k, ps⟩ := hd
    unfold ClusterMap.Sorted at hs ih
    rw [List.pairwise_cons] at hs
    unfold ClusterMap.insertNode
    by_cases h1 : c < k
    · rw [if_pos h1]
      by_cases h3 : c' = c
      · subst h3
        have hn : List.lookup c' ((k, ps) :: t) = none :=
          ClusterMap.lookup_eq_none_of_lt (by
            intro e he
            rcases List.mem_cons.1 he with he | he
            · rw [he]; exact h1
            · exact lt_trans h1 (hs.1 e he))
        rw [if_pos rfl]
        unfold ClusterMap.get
        rw [hn]
        simp [setInsert, List.lookup]
      · have : (c' == c) = false := by rw [beq_eq_false_iff_ne]; exact h3
        rw [List.lookup_cons, this, if_neg h3]
    · rw [if_neg h1]
      by_cases h2 : c = k
      · rw [if_pos h2]
        subst h2
        by_cases h4 : c' = c
        · subst h4
          simp [ClusterMap.get, List.lookup]
        · have : (c' == c) = false := by rw [beq_eq_false_iff_ne]; exact h4
          rw [List.lookup_cons, this, List.lookup_cons, this, if_neg h4]
      · rw [if_neg h2]
        by_cases h5 : c' = c
        · subst h5
          have : (c' == k) = false := by rw [beq_eq_false_iff_ne]; exact h2
          rw [List.lookup_cons, this, ih hs.2, if_pos rfl, if_pos rfl]
          simp [ClusterMap.get, List.lookup, this]
        · by_cases hk : c' = k
          · subst hk
            simp [List.lookup, h5]
          · have : (c' == k) = false := by rw [beq_eq_false_iff_ne]; exact hk
            rw [List.lookup_cons, this, ih hs.2, if_neg h5, if_neg h5, List.lookup_cons, this]

theorem ClusterMap.lookup_of_mem {m : ClusterMap} (hs : m.Sorted) {e : Int × List Nat}
    (he : e ∈ m) : m.lookup e.1 = some e.2 := by
  induction m with
  | nil => cases he
  | cons hd t ih =>
    unfold ClusterMap.Sorted at hs ih
    rw [List.pairwise_cons] at hs
    rcases List.mem_cons.1 he with h | h
    · subst h
      obtain ⟨k, ps⟩ := e
      simp [List.lookup]
    · obtain ⟨k, ps⟩ := hd
      have hlt : k < e.1 := hs.1 e h
      have : (e.1 == k) = false := by rw [beq_eq_false_iff_ne]; omega
      rw [List.lookup_cons, this]
      exact ih hs.2 h

theorem ClusterMap.mem_of_lookup {m : ClusterMap} {c : Int} {ps : List Nat}
    (h : m.lookup c = some ps) : (c, ps) ∈ m := by
  induction m with
  | nil => cases h
  | cons hd t ih =>
    obtain ⟨k, qs⟩ := hd
    rw [List.lookup_cons] at h
    by_cases hk : c = k
    · subst hk
      simp at h
      subst h
      exact List.mem_cons_self _ _
    · have : (c == k) = false := by rw [beq_eq_false_iff_ne]; exact hk
      rw [this] at h
      exact List.mem_cons_of_mem _ (ih h)

theorem clusterPositions_ge (nodes : List Node) (pos : Nat) (c : Int) :
    ∀ p ∈ clusterPositions nodes pos c, pos ≤ p := by
  induction nodes generalizing pos with
  | nil => intro p hp; cases hp
  | cons n rest ih =>
    intro p hp
    unfold clusterPositions at hp
    split_ifs at hp
    · rcases List.mem_cons.1 hp with h | h
      · omega
      · have := ih (pos + 1) p h; omega
    · have := ih (pos + 1) p hp; omega

theorem ClusterMap.get_insertNode {m : ClusterMap} (hs : m.Sorted) (c : Int) (p : Nat)
    (c' : Int) :
    (m.insertNode c p).get c' = if c' = c then setInsert (m.get c) p else m.get c' := by
  unfold ClusterMap.get
  rw [ClusterMap.lookup_insertNode hs]
  split_ifs <;> rfl

theorem collectClusters_inv (nodes : List Node) (pos : Nat) (m : ClusterMap) (cnt : Int)
    (hs : m.Sorted) (hlt : ∀ c, ∀ p ∈ m.get c, p < pos) :
    (collectClusters nodes pos m cnt).1.Sorted ∧
    (∀ c, (collectClusters nodes pos m cnt).1.get c = m.get c ++ clusterPositions nodes pos c) ∧
    (∀ c, ((collectClusters nodes pos m cnt).1.lookup c).isSome ↔
      ((m.lookup c).isSome ∨ clusterPositions nodes pos c ≠ [])) := by
  induction nodes generalizing pos m cnt with
  | nil =>
    refine ⟨hs, ?_, ?_⟩
    · intro c; simp [collectClusters, clusterPositions]
    · intro c; simp [collectClusters, clusterPositions]
  | cons n rest ih =>
    unfold collectClusters
    cases hc : GetNodeCluster n with
    | none =>
      have h' := ih (pos + 1) m cnt hs (fun c p hp => Nat.lt_succ_of_lt (hlt c p hp))
      refine ⟨h'.1, ?_, ?_⟩
      · intro c
        rw [h'.2.1 c]
        simp [clusterPositions, hc]
      · intro c
        rw [h'.2.2 c]
        simp [clusterPositions, hc]
    | some c0 =>
      have hfresh : pos ∉ m.get c0 := fun hmem => Nat.lt_irrefl _ (hlt c0 pos hmem)
      have hset : setInsert (m.get c0) pos = m.get c0 ++ [pos] := by
        unfold setInsert; rw [if_neg hfresh]
      have hs' := ClusterMap.sorted_insertNode hs c0 pos
      have hlt' : ∀ c, ∀ p ∈ (m.insertNode c0 pos).get c, p < pos + 1 := by
        intro c p hp
        rw [ClusterMap.get_insertNode hs] at hp
        split_ifs at hp with hcc
        · rw [hset] at hp
          rcases List.mem_append.1 hp with h | h
          · exact Nat.lt_succ_of_lt (hlt c0 p h)
          · simp at h; omega
        · exact Nat.lt_succ_of_lt (hlt c p hp)
      have h' := ih (pos + 1) (m.insertNode c0 pos) (wrapInt32 (cnt + 1)) hs' hlt'
      refine ⟨h'.1, ?_, ?_⟩
      · intro c
        rw [h'.2.1 c, ClusterMap.get_insertNode hs]
        by_cases hcc : c = c0
        · subst hcc
          simp [clusterPositions, hc, hset]
        · have : some c0 ≠ some c := fun h => hcc (Option.some.inj h).symm
          simp [clusterPositions, hc, hcc, this]
      · intro c
        rw [h'.2.2 c, ClusterMap.lookup_insertNode hs]
        by_cases hcc : c = c0
        · subst hcc
          simp [clusterPositions, hc]
        · have : some c0 ≠ some c := fun h => hcc (Option.some.inj h).symm
          simp [clusterPositions, hc, hcc, this]

theorem clusterMapOf_sorted (nodes : List Node) : (clusterMapOf nodes).Sorted :=
  (collectClusters_inv nodes 0 [] 0 List.Pairwise.nil (by intro c p hp; cases hp)).1

theorem clusterMapOf_mem {nodes : List Node} {e : Int × List Nat} (he : e ∈ clusterMapOf nodes) :
    e.2 = clusterPositions nodes 0 e.1 ∧ e.2 ≠ [] := by
  have hinv := collectClusters_inv nodes 0 [] 0 List.Pairwise.nil (by intro c p hp; cases hp)
  have hl := ClusterMap.lookup_of_mem (clusterMapOf_sorted nodes) he
  have hg : (clusterMapOf nodes).get e.1 = e.2 := by
    unfold ClusterMap.get; rw [hl]; rfl
  have h1 : e.2 = clusterPositions nodes 0 e.1 := by
    rw [← hg]
    have := hinv.2.1 e.1
    simpa [ClusterMap.get] using this
  refine ⟨h1, ?_⟩
  have h2 := (hinv.2.2 e.1).1 (by
    show ((clusterMapOf nodes).lookup e.1).isSome = true
    rw [hl]; rfl)
  rcases h2 with h2 | h2
  · simp at h2
  · rw [h1]; exact h2

theorem clusterMapOf_complete {nodes : List Node} {c : Int}
    (h : clusterPositions nodes 0 c ≠ []) :
    (c, clusterPositions nodes 0 c) ∈ clusterMapOf nodes := by
  have hinv := collectClusters_inv nodes 0 [] 0 List.Pairwise.nil (by intro c p hp; cases hp)
  have h2 := (hinv.2.2 c).2 (Or.inr h)
  obtain ⟨ps, hps⟩ := Option.isSome_iff_exists.1 h2
  have hmem := ClusterMap.mem_of_lookup hps
  have := (clusterMapOf_mem hmem).1
  simp only at this
  rw [← this]
  exact hmem

/-! ## Auxiliary lemmas: the busting loops -/

theorem clearBoth_type_string (n : Node) : (clearBoth n).type_string = n.type_string := rfl

theorem clearBoth_idem (n : Node) : clearBoth (clearBoth n) = clearBoth n := by
  simp only [clearBoth, Node.ClearAttr, List.filter_filter]
  congr 1
  apply List.filter_congr
  intro x _
  cases (x.1 == "_ngraph_marked_for_clustering") <;> cases (x.1 == "_ngraph_cluster") <;> rfl

theorem countNonTrivial_congr {ns ns' : List Node} (h : ∀ p, kindAt ns' p = kindAt ns p)
    (ps : List Nat) (cnt : Int) : countNonTrivial ns' ps cnt = countNonTrivial ns ps cnt := by
  induction ps generalizing cnt with
  | nil => rfl
  | cons p ps ih =>
    have hp := h p
    unfold kindAt at hp
    unfold countNonTrivial
    cases h1 : ns'[p]? with
    | none =>
      cases h2 : ns[p]? with
      | none => exact ih cnt
      | some n => rw [h1, h2] at hp; cases hp
    | some n' =>
      cases h2 : ns[p]? with
      | none => rw [h1, h2] at hp; cases hp
      | some n =>
        rw [h1, h2] at hp
        simp only [Option.map_some', Option.some.injEq] at hp
        simp only [hp]
        split_ifs
        · exact ih cnt
        · exact ih _

theorem kindAt_set_clear {ns : List Node} {p : Nat} {n : Node} (h : ns[p]? = some n) (q : Nat) :
    kindAt (ns.set p (clearBoth n)) q = kindAt ns q := by
  unfold kindAt
  rw [List.getElem?_set]
  split_ifs with h1 h2
  · subst h1; rw [h]; rfl
  · subst h1
    have := List.getElem?_eq_some.1 h
    obtain ⟨hlt, _⟩ := this
    exact absurd hlt h2
  · rfl

theorem bustNodes_spec (ps : List Nat) (ns : List Node) (h : Histogram) :
    (∀ i, (bustNodes ps (ns, h)).1[i]? =
      if i ∈ ps then (ns[i]?).map clearBoth else ns[i]?) ∧
    (bustNodes ps (ns, h)).2 = (ps.filterMap (kindAt ns)).foldl Histogram.increment h := by
  induction ps generalizing ns h with
  | nil => simp [bustNodes]
  | cons p ps ih =>
    unfold bustNodes
    cases hp : ns[p]? with
    | none =>
      simp only []
      obtain ⟨ih1, ih2⟩ := ih ns h
      refine ⟨?_, ?_⟩
      · intro i
        rw [ih1 i]
        by_cases hi : i = p
        · subst hi; simp [hp]
        · simp [hi]
      · rw [ih2]
        simp [List.filterMap_cons, kindAt, hp]
    | some n =>
      simp only []
      have hcb : (n.ClearAttr "_ngraph_cluster").ClearAttr "_ngraph_marked_for_clustering" =
          clearBoth n := rfl
      rw [hcb]
      obtain ⟨ih1, ih2⟩ := ih (ns.set p (clearBoth n)) (h.increment n.type_string)
      have hlt : p < ns.length := (List.getElem?_eq_some.1 hp).1
      refine ⟨?_, ?_⟩
      · intro i
        rw [ih1 i, List.getElem?_set]
        by_cases hi : p = i
        · subst hi
          simp [hlt, hp, clearBoth_idem]
        · have hi' : ¬ i = p := fun h => hi h.symm
          simp [hi, hi']
      · rw [ih2]
        have hk : ∀ q, kindAt (ns.set p (clearBoth n)) q = kindAt ns q := kindAt_set_clear hp
        have hfm : List.filterMap (kindAt (ns.set p (clearBoth n))) ps =
            List.filterMap (kindAt ns) ps := by
          congr 1; funext q; exact hk q
        rw [hfm]
        simp [List.filterMap_cons, kindAt, hp]

theorem bustNodes_kindAt (ps : List Nat) (ns : List Node) (h : Histogram) (q : Nat) :
    kindAt (bustNodes ps (ns, h)).1 q = kindAt ns q := by
  unfold kindAt
  rw [(bustNodes_spec ps ns h).1 q]
  split_ifs
  · cases ns[q]? <;> rfl
  · rfl

theorem bustedAt_congr {ns ns' : List Node} (h : ∀ p, kindAt ns' p = kindAt ns p)
    (es : ClusterMap) (i : Nat) : bustedAt ns' es i = bustedAt ns es i := by
  unfold bustedAt
  congr 1; funext e
  rw [countNonTrivial_congr h]

theorem bustedKinds_congr {ns ns' : List Node} (h : ∀ p, kindAt ns' p = kindAt ns p)
    (es : ClusterMap) : bustedKinds ns' es = bustedKinds ns es := by
  unfold bustedKinds
  have h1 : (fun e : Int × List Nat => decide (countNonTrivial ns' e.2 0 < MIN_NONTRIVIAL_NODES)) =
      (fun e : Int × List Nat => decide (countNonTrivial ns e.2 0 < MIN_NONTRIVIAL_NODES)) := by
    funext e; rw [countNonTrivial_congr h]
  have h2 : kindAt ns' = kindAt ns := funext h
  rw [h1, h2]

theorem bustClusters_spec (es : ClusterMap) (ns : List Node) (h : Histogram) :
    (∀ i, (bustClusters es (ns, h)).1[i]? =
      if bustedAt ns es i then (ns[i]?).map clearBoth else ns[i]?) ∧
    (bustClusters es (ns, h)).2 = (bustedKinds ns es).foldl Histogram.increment h := by
  induction es generalizing ns h with
  | nil => simp [bustClusters, bustedAt, bustedKinds]
  | cons e es ih =>
    obtain ⟨c, ps⟩ := e
    unfold bustClusters
    by_cases hb : countNonTrivial ns ps 0 < MIN_NONTRIVIAL_NODES
    · rw [if_pos hb]
      have hk := bustNodes_kindAt ps ns h
      obtain ⟨b1, b2⟩ := bustNodes_spec ps ns h
      have e0 : bustNodes ps (ns, h) = ((bustNodes ps (ns, h)).1, (bustNodes ps (ns, h)).2) := rfl
      rw [e0]
      obtain ⟨ih1, ih2⟩ := ih (bustNodes ps (ns, h)).1 (bustNodes ps (ns, h)).2
      refine ⟨?_, ?_⟩
      · intro i
        rw [ih1 i, bustedAt_congr hk, b1 i]
        by_cases hi : i ∈ ps
        · have : bustedAt ns ((c, ps) :: es) i = true := by
            simp [bustedAt, hb, hi]
          rw [this, if_pos hi, if_pos rfl]
          cases bustedAt ns es i
          · rfl
          · cases ns[i]? with
            | none => rfl
            | some n => simp [clearBoth_idem]
        · have : bustedAt ns ((c, ps) :: es) i = bustedAt ns es i := by
            simp [bustedAt, hi]
          rw [this, if_neg hi]
      · rw [ih2, bustedKinds_congr hk, b2, ← List.foldl_append]
        congr 1
        simp [bustedKinds, hb, List.filter_cons]
    · rw [if_neg hb]
      obtain ⟨ih1, ih2⟩ := ih ns h
      refine ⟨?_, ?_⟩
      · intro i
        rw [ih1 i]
        have : bustedAt ns ((c, ps) :: es) i = bustedAt ns es i := by
          simp [bustedAt, hb]
        rw [this]
      · rw [ih2]
        congr 1
        simp [bustedKinds, hb, List.filter_cons]

/-! ## Auxiliary lemmas: positions and members -/

theorem clusterPositions_length_le (nodes : List Node) (pos : Nat) (c : Int) :
    (clusterPositions nodes pos c).length ≤ nodes.length := by
  induction nodes generalizing pos with
  | nil => simp [clusterPositions]
  | cons n rest ih =>
    unfold clusterPositions
    split_ifs
    · simp only [List.length_cons]; have := ih (pos + 1); omega
    · simp only [List.length_cons]; have := ih (pos + 1); omega

theorem getElem?_append_cons_self (pre : List Node) (n : Node) (rest : List Node) :
    (pre ++ n :: rest)[pre.length]? = some n := by
  rw [List.getElem?_append_right (le_refl _)]
  simp

theorem clusterPositions_filterMap (pre rest : List Node) (c : Int) :
    (clusterPositions rest pre.length c).filterMap (fun p => (pre ++ rest)[p]?) =
      rest.filter (inCluster c) := by
  induction rest generalizing pre with
  | nil => simp [clusterPositions]
  | cons n rest ih =>
    have hih := ih (pre ++ [n])
    simp only [List.length_append, List.length_singleton, List.append_assoc,
      List.singleton_append] at hih
    unfold clusterPositions
    by_cases hc : GetNodeCluster n = some c
    · have h1 : inCluster c n = true := by simp [inCluster, hc]
      rw [if_pos hc, List.filter_cons, h1, if_pos rfl, List.filterMap_cons]
      have h2 : (pre ++ n :: rest)[pre.length]? = some n := getElem?_append_cons_self pre n rest
      rw [h2]
      simp only []
      rw [hih]
    · have h1 : inCluster c n = false := by simp [inCluster, hc]
      rw [if_neg hc, List.filter_cons, h1]
      simp only [Bool.false_eq_true, if_false]
      exact hih

theorem clusterPositions_nodes (nodes : List Node) (c : Int) :
    (clusterPositions nodes 0 c).filterMap (fun p => nodes[p]?) = nodes.filter (inCluster c) := by
  have := clusterPositions_filterMap [] nodes c
  simpa using this

theorem mem_clusterPositions (pre rest : List Node) (c : Int) (i : Nat) :
    i ∈ clusterPositions rest pre.length c ↔
      pre.length ≤ i ∧ ∃ n, (pre ++ rest)[i]? = some n ∧ GetNodeCluster n = some c := by
  induction rest generalizing pre with
  | nil =>
    simp only [clusterPositions, List.not_mem_nil, List.append_nil, false_iff, not_and,
      not_exists]
    intro hle n hn
    have := (List.getElem?_eq_some.1 hn).1
    omega
  | cons n rest ih =>
    have hih := ih (pre ++ [n])
    simp only [List.length_append, List.length_singleton, List.append_assoc,
      List.singleton_append] at hih
    have h2 : (pre ++ n :: rest)[pre.length]? = some n := getElem?_append_cons_self pre n rest
    unfold clusterPositions
    by_cases hc : GetNodeCluster n = some c
    · rw [if_pos hc, List.mem_cons, hih]
      constructor
      · rintro (h | ⟨h1, h2'⟩)
        · subst h; exact ⟨le_refl _, n, h2, hc⟩
        · exact ⟨by omega, h2'⟩
      · rintro ⟨h1, h2'⟩
        by_cases hi : i = pre.length
        · left; exact hi
        · right; exact ⟨by omega, h2'⟩
    · rw [if_neg hc, hih]
      constructor
      · rintro ⟨h1, h2'⟩
        exact ⟨by omega, h2'⟩
      · rintro ⟨h1, m, hm, hmc⟩
        by_cases hi : i = pre.length
        · subst hi
          rw [h2] at hm
          cases hm
          exact absurd hmc hc
        · exact ⟨by omega, m, hm, hmc⟩

theorem mem_clusterPositions_zero (nodes : List Node) (c : Int) (i : Nat) :
    i ∈ clusterPositions nodes 0 c ↔ ∃ n, nodes[i]? = some n ∧ GetNodeCluster n = some c := by
  have := mem_clusterPositions [] nodes c i
  simpa using this

theorem countNonTrivial_eq (ns : List Node) (ps : List Nat) (cnt : Int) (h0 : 0 ≤ cnt)
    (hb : cnt + ps.length < 2147483648) :
    countNonTrivial ns ps cnt =
      cnt + (((ps.filterMap (fun p => ns[p]?)).filter (fun n => !isTrivial n)).length : Int) := by
  induction ps generalizing cnt with
  | nil => simp [countNonTrivial]
  | cons p ps ih =>
    simp only [List.length_cons, Nat.cast_add, Nat.cast_one] at hb
    unfold countNonTrivial
    cases hp : ns[p]? with
    | none =>
      simp only []
      rw [ih cnt h0 (by omega), List.filterMap_cons, hp]
    | some n =>
      simp only []
      rw [List.filterMap_cons, hp]
      simp only []
      by_cases ht : trivial_ops.contains n.type_string = true
      · rw [if_pos ht, ih cnt h0 (by omega), List.filter_cons]
        have : (!isTrivial n) = false := by unfold isTrivial; rw [ht]; rfl
        rw [this]
        simp
      · rw [if_neg ht, wrapInt32_of_range (by omega) (by omega),
          ih (cnt + 1) (by omega) (by omega), List.filter_cons]
        have : (!isTrivial n) = true := by
          unfold isTrivial; rw [Bool.eq_false_iff.2 ht]; rfl
        rw [this]
        simp only [if_true, List.length_cons, Nat.cast_add, Nat.cast_one]
        omega

theorem countNonTrivial_cluster (g : Graph) (c : Int) (hb : g.nodes.length < 2147483648) :
    countNonTrivial g.nodes (clusterPositions g.nodes 0 c) 0 = (nonTrivialCount g c : Int) := by
  have hlen := clusterPositions_length_le g.nodes 0 c
  rw [countNonTrivial_eq g.nodes _ 0 (le_refl _) (by omega), clusterPositions_nodes,
    List.filter_filter]
  simp only [zero_add, nonTrivialCount]
  congr 2
  apply List.filter_congr
  intro n _
  exact Bool.and_comm _ _

theorem bustedAt_clusterMapOf (g : Graph) (hb : g.nodes.length < 2147483648) (i : Nat) (n : Node)
    (hn : g.nodes[i]? = some n) :
    bustedAt g.nodes (clusterMapOf g.nodes) i = discards g n := by
  cases hd : discards g n with
  | false =>
    rw [Bool.eq_false_iff]
    intro hbust
    unfold bustedAt at hbust
    rw [List.any_eq_true] at hbust
    obtain ⟨e, he, hcond⟩ := hbust
    rw [Bool.and_eq_true, decide_eq_true_eq, decide_eq_true_eq] at hcond
    obtain ⟨hcnt, hi⟩ := hcond
    have hps := (clusterMapOf_mem he).1
    rw [hps] at hcnt hi
    rw [countNonTrivial_cluster g e.1 hb] at hcnt
    obtain ⟨m, hm, hmc⟩ := (mem_clusterPositions_zero g.nodes e.1 i).1 hi
    rw [hn] at hm
    cases hm
    unfold discards at hd
    rw [hmc] at hd
    simp only [decide_eq_false_iff_not] at hd
    exact hd hcnt
  | true =>
    unfold discards at hd
    cases hc : GetNodeCluster n with
    | none => rw [hc] at hd; cases hd
    | some c =>
      rw [hc] at hd
      simp only [decide_eq_true_eq] at hd
      have hi : i ∈ clusterPositions g.nodes 0 c :=
        (mem_clusterPositions_zero g.nodes c i).2 ⟨n, hn, hc⟩
      have hne : clusterPositions g.nodes 0 c ≠ [] := List.ne_nil_of_mem hi
      have hmem := clusterMapOf_complete hne
      unfold bustedAt
      rw [List.any_eq_true]
      refine ⟨_, hmem, ?_⟩
      rw [Bool.and_eq_true, decide_eq_true_eq, decide_eq_true_eq]
      exact ⟨by rw [countNonTrivial_cluster g c hb]; exact hd, hi⟩

/-- Nodes after the main path of `DeassignClusters`: the members of the
clusters below the threshold have both attributes cleared, the rest is as
before. -/
theorem bustClusters_nodes (g : Graph) (hb : g.nodes.length < 2147483648) (h : Histogram) :
    (bustClusters (clusterMapOf g.nodes) (g.nodes, h)).1 =
      g.nodes.map (fun n => if discards g n then clearBoth n else n) := by
  apply List.ext_getElem?
  intro i
  rw [(bustClusters_spec _ _ _).1 i, List.getElem?_map]
  cases hn : g.nodes[i]? with
  | none => simp
  | some n =>
    rw [bustedAt_clusterMapOf g hb i n hn]
    by_cases hd : discards g n = true
    · simp [hd]
    · simp [hd]

/-! ## Auxiliary lemmas: the histogram -/

theorem Histogram.find_increment (h : Histogram) (k k' : String) :
    (h.increment k).find k' =
      if k' = k then some (wrapInt32 ((h.find k).getD 0 + 1)) else h.find k' := by
  induction h with
  | nil =>
    by_cases hk : k' = k
    · subst hk; simp [Histogram.increment, Histogram.find, List.lookup]
    · have : (k' == k) = false := by rw [beq_eq_false_iff_ne]; exact hk
      simp [Histogram.increment, Histogram.find, List.lookup, this, hk]
  | cons hd t ih =>
    obtain ⟨a, v⟩ := hd
    unfold Histogram.find at ih ⊢
    unfold Histogram.increment
    by_cases ha : a = k
    · subst ha
      have e1 : (a == a) = true := by simp
      rw [if_pos e1]
      by_cases hk : k' = a
      · subst hk
        simp [List.lookup]
      · have : (k' == a) = false := by rw [beq_eq_false_iff_ne]; exact hk
        rw [if_neg hk, List.lookup_cons, this, List.lookup_cons, this]
    · have e1 : ¬ ((a == k) = true) := by
        rw [beq_iff_eq]; exact ha
      rw [if_neg e1]
      by_cases hk : k' = a
      · subst hk
        have e2 : ¬ k' = k := ha
        rw [if_neg e2]
        simp [List.lookup]
      · have : (k' == a) = false := by rw [beq_eq_false_iff_ne]; exact hk
        have hka : (k == a) = false := by
          rw [beq_eq_false_iff_ne]; exact fun h => ha h.symm
        simp only [List.lookup_cons, this, hka, ih]

theorem Histogram.find_foldl_increment (ks : List String) (h : Histogram) (k : String)
    (h0 : 0 ≤ (h.find k).getD 0) (hb : (h.find k).getD 0 + ks.length < 2147483648) :
    (ks.foldl Histogram.increment h).find k =
      if ks.count k = 0 then h.find k else some ((h.find k).getD 0 + (ks.count k : Int)) := by
  induction ks generalizing h with
  | nil => simp
  | cons a ks ih =>
    simp only [List.length_cons, Nat.cast_add, Nat.cast_one] at hb
    rw [List.foldl_cons]
    have hf := Histogram.find_increment h a k
    by_cases hak : k = a
    · subst hak
      rw [if_pos rfl, wrapInt32_of_range (by omega) (by omega)] at hf
      have hih := ih (h.increment k) (by rw [hf]; simp only [Option.getD_some]; omega)
        (by rw [hf]; simp only [Option.getD_some]; omega)
      rw [hih, hf, List.count_cons_self]
      simp only [Option.getD_some, Nat.add_one_ne_zero, if_false, Nat.cast_add, Nat.cast_one]
      split_ifs with hz
      · rw [hz]; simp
      · congr 1; omega
    · rw [if_neg hak] at hf
      have hih := ih (h.increment a) (by rw [hf]; exact h0) (by rw [hf]; omega)
      rw [hih, hf, List.count_cons_of_ne hak]

theorem countP_or_of_disjoint {α : Type} (p q : α → Bool) (l : List α)
    (hd : ∀ x ∈ l, ¬ (p x = true ∧ q x = true)) :
    l.countP (fun x => p x || q x) = l.countP p + l.countP q := by
  induction l with
  | nil => simp
  | cons a l ih =>
    have h1 := ih (fun x hx => hd x (List.mem_cons_of_mem _ hx))
    have h2 := hd a (List.mem_cons_self _ _)
    rw [List.countP_cons, List.countP_cons, List.countP_cons, h1]
    cases hp : p a <;> cases hq : q a
    · simp
    · simp; omega
    · simp; omega
    · exact absurd ⟨hp, hq⟩ h2

theorem flatMap_congr_mem {α β : Type} (l : List α) (f g : α → List β)
    (h : ∀ x ∈ l, f x = g x) : l.flatMap f = l.flatMap g := by
  induction l with
  | nil => rfl
  | cons a l ih =>
    rw [List.flatMap_cons, List.flatMap_cons, h a (List.mem_cons_self _ _),
      ih (fun x hx => h x (List.mem_cons_of_mem _ hx))]

theorem countP_flatMap_clusters (nodes : List Node) (es : ClusterMap)
    (hk : es.Pairwise (fun a b => a.1 ≠ b.1)) (P : Node → Bool) :
    (es.flatMap (fun e => nodes.filter (inCluster e.1))).countP P =
      nodes.countP (fun n => P n && es.any (fun e => inCluster e.1 n)) := by
  induction es with
  | nil => simp
  | cons e es ih =>
    rw [List.pairwise_cons] at hk
    rw [List.flatMap_cons, List.countP_append, ih hk.2, List.countP_filter]
    have hdis : ∀ n ∈ nodes, ¬ ((P n && inCluster e.1 n) = true ∧
        (P n && es.any (fun e' => inCluster e'.1 n)) = true) := by
      rintro n _ ⟨h1, h2⟩
      rw [Bool.and_eq_true] at h1 h2
      obtain ⟨e', he', hin⟩ := List.any_eq_true.1 h2.2
      have a1 : GetNodeCluster n = some e.1 := by simpa [inCluster] using h1.2
      have a2 : GetNodeCluster n = some e'.1 := by simpa [inCluster] using hin
      rw [a1] at a2
      exact hk.1 e' he' (Option.some.inj a2)
    rw [← countP_or_of_disjoint _ _ nodes hdis]
    apply List.countP_congr
    intro n _
    simp only [List.any_cons, Bool.and_or_distrib_left]

theorem ClusterMap.Sorted.keys_ne {m : ClusterMap} (hs : m.Sorted) :
    m.Pairwise (fun a b => a.1 ≠ b.1) :=
  List.Pairwise.imp (fun h => ne_of_lt h) hs

theorem bustedKinds_clusterMapOf (g : Graph) :
    bustedKinds g.nodes (clusterMapOf g.nodes) =
      ((bustedEntries g).flatMap (fun e => g.nodes.filter (inCluster e.1))).map
        (fun n => n.type_string) := by
  unfold bustedKinds
  rw [List.map_flatMap]
  apply flatMap_congr_mem
  intro e he
  have hmem : e ∈ clusterMapOf g.nodes := (List.mem_filter.1 he).1
  have h1 := (clusterMapOf_mem hmem).1
  have h2 : kindAt g.nodes = fun p => (g.nodes[p]?).map (fun n => n.type_string) := by
    funext p; rfl
  rw [h2, ← List.map_filterMap, h1, clusterPositions_nodes]

theorem bustedEntries_any (g : Graph) (hb : g.nodes.length < 2147483648) (n : Node)
    (hn : n ∈ g.nodes) :
    (bustedEntries g).any (fun e => inCluster e.1 n) = discards g n := by
  cases hd : discards g n with
  | false =>
    rw [Bool.eq_false_iff]
    intro hany
    obtain ⟨e, he, hin⟩ := List.any_eq_true.1 hany
    obtain ⟨hmem, hcnt⟩ := List.mem_filter.1 he
    rw [decide_eq_true_eq, (clusterMapOf_mem hmem).1, countNonTrivial_cluster g e.1 hb] at hcnt
    have a1 : GetNodeCluster n = some e.1 := by simpa [inCluster] using hin
    unfold discards at hd
    rw [a1] at hd
    simp only [decide_eq_false_iff_not] at hd
    exact hd hcnt
  | true =>
    unfold discards at hd
    cases hc : GetNodeCluster n with
    | none => rw [hc] at hd; cases hd
    | some c =>
      rw [hc] at hd
      simp only [decide_eq_true_eq] at hd
      obtain ⟨i, hi⟩ := List.getElem?_of_mem hn
      have hpos : i ∈ clusterPositions g.nodes 0 c :=
        (mem_clusterPositions_zero g.nodes c i).2 ⟨n, hi, hc⟩
      have hmem := clusterMapOf_complete (List.ne_nil_of_mem hpos)
      rw [List.any_eq_true]
      refine ⟨(c, clusterPositions g.nodes 0 c), ?_, ?_⟩
      · unfold bustedEntries
        rw [List.mem_filter]
        refine ⟨hmem, ?_⟩
        rw [decide_eq_true_eq, countNonTrivial_cluster g c hb]
        exact hd
      · simp [inCluster, hc]

theorem bustedEntries_countP (g : Graph) (hb : g.nodes.length < 2147483648) (P : Node → Bool) :
    ((bustedEntries g).flatMap (fun e => g.nodes.filter (inCluster e.1))).countP P =
      g.nodes.countP (fun n => P n && discards g n) := by
  rw [countP_flatMap_clusters g.nodes (bustedEntries g)
    (List.Pairwise.filter _ (clusterMapOf_sorted g.nodes).keys_ne) P]
  apply List.countP_congr
  intro n hn
  rw [bustedEntries_any g hb n hn]

theorem bustedKinds_length (g : Graph) (hb : g.nodes.length < 2147483648) :
    (bustedKinds g.nodes (clusterMapOf g.nodes)).length ≤ g.nodes.length := by
  rw [bustedKinds_clusterMapOf, List.length_map]
  have h := bustedEntries_countP g hb (fun _ => true)
  rw [List.countP_true] at h
  rw [h]
  exact List.countP_le_length _

theorem bustedKinds_count (g : Graph) (hb : g.nodes.length < 2147483648) (k : String) :
    (bustedKinds g.nodes (clusterMapOf g.nodes)).count k = discardedOfKind g k := by
  rw [bustedKinds_clusterMapOf, List.count_eq_countP, List.countP_map,
    bustedEntries_countP g hb, discardedOfKind, List.countP_eq_length_filter]
  congr 1

/-! ## The two paths of `DeassignClusters` -/

theorem DeassignClusters_bypass (env : Env) (g : Graph) (gl : Globals)
    (h : (env.getenv "NGRAPH_TF_DISABLE_DEASSIGN_CLUSTERS").isSome = true) :
    (DeassignClusters env g gl).status = Status.OK ∧
    (DeassignClusters env g gl).graph = g ∧
    (DeassignClusters env g gl).globals.deassigned_histogram = [] ∧
    (DeassignClusters env g gl).globals.num_nodes_marked_before_deassign =
      countMarked g.nodes 0 := by
  unfold DeassignClusters
  simp only [h, if_true, and_self]

theorem DeassignClusters_main (env : Env) (g : Graph) (gl : Globals)
    (h : (env.getenv "NGRAPH_TF_DISABLE_DEASSIGN_CLUSTERS").isSome = false) :
    (DeassignClusters env g gl).status = Status.OK ∧
    (DeassignClusters env g gl).graph.nodes =
      (bustClusters (clusterMapOf g.nodes) (g.nodes, [])).1 ∧
    (DeassignClusters env g gl).graph.edges = g.edges ∧
    (DeassignClusters env g gl).globals.deassigned_histogram =
      (bustClusters (clusterMapOf g.nodes) (g.nodes, [])).2 ∧
    (DeassignClusters env g gl).globals.num_nodes_marked_before_deassign =
      countMarked g.nodes 0 := by
  unfold DeassignClusters
  simp only [h, Bool.false_eq_true, if_false]
  refine ⟨trivial, rfl, trivial, rfl, ?_⟩
  exact collectClusters_snd g.nodes 0 [] 0

theorem DeassignClusters_nodes (env : Env) (g : Graph) (gl : Globals)
    (h : (env.getenv "NGRAPH_TF_DISABLE_DEASSIGN_CLUSTERS").isSome = false)
    (hb : g.nodes.length < 2147483648) :
    (DeassignClusters env g gl).graph.nodes =
      g.nodes.map (fun n => if discards g n then clearBoth n else n) := by
  rw [(DeassignClusters_main env g gl h).2.1, bustClusters_nodes g hb]

theorem DeassignClusters_histogram (env : Env) (g : Graph) (gl : Globals)
    (h : (env.getenv "NGRAPH_TF_DISABLE_DEASSIGN_CLUSTERS").isSome = false)
    (hb : g.nodes.length < 2147483648) (k : String) :
    (DeassignClusters env g gl).globals.deassigned_histogram.find k =
      if discardedOfKind g k = 0 then none else some (discardedOfKind g k : Int) := by
  rw [(DeassignClusters_main env g gl h).2.2.2.1, (bustClusters_spec _ _ _).2]
  have hlen := bustedKinds_length g hb
  rw [Histogram.find_foldl_increment _ [] k (by simp [Histogram.find])
    (by simp only [Histogram.find, List.lookup, Option.getD_none]; omega),
    bustedKinds_count g hb]
  simp [Histogram.find]

/-! ## Auxiliary lemmas: attributes -/

theorem lookup_filter_key (l : List (String × AttrValue)) (k k' : String) :
    (l.filter (fun kv => !(kv.1 == k'))).lookup k = if k = k' then none else l.lookup k := by
  induction l with
  | nil => simp
  | cons hd t ih =>
    obtain ⟨a, v⟩ := hd
    rw [List.filter_cons]
    by_cases ha : a = k'
    · subst ha
      have e1 : (!((a, v).1 == a)) = false := by simp
      rw [e1]
      simp only [Bool.false_eq_true, if_false]
      rw [ih]
      by_cases hk : k = a
      · rw [if_pos hk, if_pos hk]
      · have : (k == a) = false := by rw [beq_eq_false_iff_ne]; exact hk
        rw [if_neg hk, if_neg hk, List.lookup_cons, this]
    · have e1 : (!((a, v).1 == k')) = true := by
        have : (a == k') = false := by rw [beq_eq_false_iff_ne]; exact ha
        simp [this]
      rw [e1, if_pos rfl, List.lookup_cons, List.lookup_cons, ih]
      by_cases hk : k = a
      · subst hk
        simp [ha]
      · have : (k == a) = false := by rw [beq_eq_false_iff_ne]; exact hk
        rw [this]

theorem clearBoth_lookup (n : Node) (a : String) :
    (clearBoth n).attrs.lookup a =
      if a = "_ngraph_marked_for_clustering" then none
      else if a = "_ngraph_cluster" then none else n.attrs.lookup a := by
  simp only [clearBoth, Node.ClearAttr]
  rw [lookup_filter_key, lookup_filter_key]

theorem clearBoth_deassigned (n : Node) : (clearBoth n).deassigned := by
  unfold Node.deassigned
  rw [clearBoth_lookup, clearBoth_lookup]
  simp

theorem not_deassigned_of_cluster {n : Node} {c : Int} (h : GetNodeCluster n = some c) :
    ¬ n.deassigned := by
  intro hd
  unfold GetNodeCluster at h
  rw [hd.1] at h
  cases h

theorem discards_of_cluster (g : Graph) {n : Node} {c : Int} (h : GetNodeCluster n = some c) :
    discards g n = decide ((nonTrivialCount g c : Int) < MIN_NONTRIVIAL_NODES) := by
  unfold discards; rw [h]

theorem discards_of_no_cluster (g : Graph) {n : Node} (h : GetNodeCluster n = none) :
    discards g n = false := by
  unfold discards; rw [h]

theorem DeassignClusters_getElem? (env : Env) (g : Graph) (gl : Globals)
    (h : (env.getenv "NGRAPH_TF_DISABLE_DEASSIGN_CLUSTERS").isSome = false)
    (hb : g.nodes.length < 2147483648) (i : Nat) (n : Node) (hn : g.nodes[i]? = some n) :
    (DeassignClusters env g gl).graph.nodes[i]? =
      some (if discards g n then clearBoth n else n) := by
  rw [DeassignClusters_nodes env g gl h hb, List.getElem?_map, hn]
  rfl

/-! ## The pruner: claims -/

/-- C1: on the main path a cluster with a member is deassigned (every member
ends without the cluster and the marked-for-clustering attribute) if and only
if its count of members outside the trivial set is below
`MIN_NONTRIVIAL_NODES = 6`; a kept cluster has all members untouched.  With
exactly five such members every member is cleared, with exactly six every
member is kept, whatever the number of trivial members. -/
theorem deassign_threshold (env : Env) (g : Graph) (gl : Globals) (c : Int)
    (hby : (env.getenv "NGRAPH_TF_DISABLE_DEASSIGN_CLUSTERS").isSome = false)
    (hb : g.nodes.length < 2147483648)
    (hne : ∃ n ∈ g.nodes, GetNodeCluster n = some c) :
    MIN_NONTRIVIAL_NODES = 6 ∧
    ((∀ (i : Nat) (n : Node), g.nodes[i]? = some n → GetNodeCluster n = some c →
        ∃ m : Node, (DeassignClusters env g gl).graph.nodes[i]? = some m ∧ m.deassigned) ↔
      (nonTrivialCount g c : Int) < MIN_NONTRIVIAL_NODES) ∧
    (¬ (nonTrivialCount g c : Int) < MIN_NONTRIVIAL_NODES →
      ∀ (i : Nat) (n : Node), g.nodes[i]? = some n → GetNodeCluster n = some c →
        (DeassignClusters env g gl).graph.nodes[i]? = some n) ∧
    (nonTrivialCount g c = 5 →
      ∀ (i : Nat) (n : Node), g.nodes[i]? = some n → GetNodeCluster n = some c →
        (DeassignClusters env g gl).graph.nodes[i]? =
          some ((n.ClearAttr "_ngraph_cluster").ClearAttr "_ngraph_marked_for_clustering")) ∧
    (nonTrivialCount g c = 6 →
      ∀ (i : Nat) (n : Node), g.nodes[i]? = some n → GetNodeCluster n = some c →
        (DeassignClusters env g gl).graph.nodes[i]? = some n) := by
  have hkeep : ¬ (nonTrivialCount g c : Int) < MIN_NONTRIVIAL_NODES →
      ∀ (i : Nat) (n : Node), g.nodes[i]? = some n → GetNodeCluster n = some c →
        (DeassignClusters env g gl).graph.nodes[i]? = some n := by
    intro hge i n hn hc
    rw [DeassignClusters_getElem? env g gl hby hb i n hn, discards_of_cluster g hc]
    simp [hge]
  have hbust : (nonTrivialCount g c : Int) < MIN_NONTRIVIAL_NODES →
      ∀ (i : Nat) (n : Node), g.nodes[i]? = some n → GetNodeCluster n = some c →
        (DeassignClusters env g gl).graph.nodes[i]? = some (clearBoth n) := by
    intro hlt i n hn hc
    rw [DeassignClusters_getElem? env g gl hby hb i n hn, discards_of_cluster g hc]
    simp [hlt]
  refine ⟨rfl, ⟨?_, ?_⟩, hkeep, ?_, ?_⟩
  · intro hall
    by_contra hge
    obtain ⟨n, hmem, hc⟩ := hne
    obtain ⟨i, hi⟩ := List.getElem?_of_mem hmem
    obtain ⟨n', hn', hd⟩ := hall i n hi hc
    rw [hkeep hge i n hi hc] at hn'
    cases hn'
    exact not_deassigned_of_cluster hc hd
  · intro hlt i n hn hc
    exact ⟨clearBoth n, hbust hlt i n hn hc, clearBoth_deassigned n⟩
  · intro h5
    exact hbust (by rw [h5]; decide)
  · intro h6
    exact hkeep (by rw [h6]; decide)

theorem deassign_threshold_witness :
    (envPlain.getenv "NGRAPH_TF_DISABLE_DEASSIGN_CLUSTERS").isSome = false ∧
    graphFive.nodes.length < 2147483648 ∧
    (∃ n ∈ graphFive.nodes, GetNodeCluster n = some 1) ∧
    nonTrivialCount graphFive 1 = 5 ∧
    (DeassignClusters envPlain graphFive glStale).graph.nodes[0]? =
      some (((mkNode "a" "Add" (some 1)).ClearAttr "_ngraph_cluster").ClearAttr
        "_ngraph_marked_for_clustering") :=
  ⟨by decide, by decide, by decide, by decide,
    (deassign_threshold envPlain graphFive glStale 1 (by decide) (by decide) (by decide)).2.2.2.1
      (by decide) 0 (mkNode "a" "Add" (some 1)) (by decide) (by decide)⟩

/-- C2 (the code departs from it): the header comment of the pass calls
`Const` and `Identity` trivial, but the set in the code is spelled
`"Identitiy"`, so `Identity` nodes are counted.  A cluster of six `Identity`
nodes has no node that is neither `Const` nor `Identity`, yet the loop counts
six non-trivial nodes and the pass keeps the cluster: the graph is unchanged
and nothing is recorded in the histogram. -/
theorem identity_counted_as_nontrivial :
    (graphIdentity.nodes.filter (fun n =>
      inCluster 4 n && !(n.type_string == "Const") && !(n.type_string == "Identity"))).length = 0 ∧
    countNonTrivial graphIdentity.nodes [0, 1, 2, 3, 4, 5] 0 = 6 ∧
    (DeassignClusters envPlain graphIdentity glStale).graph = graphIdentity ∧
    (DeassignClusters envPlain graphIdentity glStale).globals.deassigned_histogram = [] := by
  decide

theorem nonTrivialCount_insert_const (pre post : List Node) (edges edges' : List Edge)
    (k : Node) (hk : k.type_string = "Const") (c : Int) :
    nonTrivialCount { nodes := pre ++ k :: post, edges := edges' } c =
      nonTrivialCount { nodes := pre ++ post, edges := edges } c := by
  have ht : isTrivial k = true := by
    unfold isTrivial; rw [hk]; decide
  simp only [nonTrivialCount, List.filter_append, List.filter_cons, ht, Bool.not_true,
    Bool.and_false, Bool.false_eq_true, if_false]

theorem discards_insert_const (pre post : List Node) (edges edges' : List Edge)
    (k : Node) (hk : k.type_string = "Const") (n : Node) :
    discards { nodes := pre ++ k :: post, edges := edges' } n =
      discards { nodes := pre ++ post, edges := edges } n := by
  unfold discards
  cases GetNodeCluster n with
  | none => rfl
  | some c => simp only [nonTrivialCount_insert_const pre post edges edges' k hk c]

/-- C3: a `Const` node is not counted.  Inserting a `Const` member of cluster
`c` anywhere in the node list leaves the non-trivial count of every cluster as
it was, the pass treats every other node exactly as it did without the
insertion, and the inserted node shares the fate cluster `c` had before: so
adding the node (or, read from right to left, removing it) never changes
whether a cluster is discarded. -/
theorem const_not_counted (env : Env) (gl gl' : Globals) (pre post : List Node)
    (edges edges' : List Edge) (k : Node) (c : Int)
    (hby : (env.getenv "NGRAPH_TF_DISABLE_DEASSIGN_CLUSTERS").isSome = false)
    (hk : k.type_string = "Const") (hc : GetNodeCluster k = some c)
    (hb : (pre ++ k :: post).length < 2147483648) :
    (∀ c' : Int, nonTrivialCount { nodes := pre ++ k :: post, edges := edges' } c' =
      nonTrivialCount { nodes := pre ++ post, edges := edges } c') ∧
    (DeassignClusters env { nodes := pre ++ k :: post, edges := edges' } gl').graph.nodes =
      (DeassignClusters env { nodes := pre ++ post, edges := edges } gl).graph.nodes.take pre.length ++
        (if (nonTrivialCount { nodes := pre ++ post, edges := edges } c : Int) < MIN_NONTRIVIAL_NODES
          then (k.ClearAttr "_ngraph_cluster").ClearAttr "_ngraph_marked_for_clustering" else k) ::
        (DeassignClusters env { nodes := pre ++ post, edges := edges } gl).graph.nodes.drop
          pre.length := by
  refine ⟨nonTrivialCount_insert_const pre post edges edges' k hk, ?_⟩
  have hb' : (pre ++ post).length < 2147483648 := by
    simp only [List.length_append, List.length_cons] at hb ⊢; omega
  rw [DeassignClusters_nodes env _ gl' hby hb, DeassignClusters_nodes env _ gl hby hb']
  simp only [discards_insert_const pre post edges edges' k hk]
  simp only [List.map_append, List.map_cons]
  rw [List.take_left' (by simp), List.drop_left' (by simp),
    discards_of_cluster _ hc]
  by_cases hlt : (nonTrivialCount { nodes := pre ++ post, edges := edges } c : Int) <
      MIN_NONTRIVIAL_NODES
  · simp [hlt, clearBoth]
  · simp [hlt]

theorem const_not_counted_witness :
    (envPlain.getenv "NGRAPH_TF_DISABLE_DEASSIGN_CLUSTERS").isSome = false ∧
    (mkNode "k" "Const" (some 1)).type_string = "Const" ∧
    GetNodeCluster (mkNode "k" "Const" (some 1)) = some 1 ∧
    (graphSix.nodes.take 2 ++ mkNode "k" "Const" (some 1) :: graphSix.nodes.drop 2).length <
      2147483648 ∧
    (DeassignClusters envPlain
      { nodes := graphSix.nodes.take 2 ++ mkNode "k" "Const" (some 1) :: graphSix.nodes.drop 2
        edges := [] } glStale).graph.nodes =
      (DeassignClusters envPlain
        { nodes := graphSix.nodes.take 2 ++ graphSix.nodes.drop 2, edges := graphSix.edges }
        glStale).graph.nodes.take (graphSix.nodes.take 2).length ++
        (if (nonTrivialCount
            { nodes := graphSix.nodes.take 2 ++ graphSix.nodes.drop 2, edges := graphSix.edges }
            1 : Int) < MIN_NONTRIVIAL_NODES
          then ((mkNode "k" "Const" (some 1)).ClearAttr "_ngraph_cluster").ClearAttr
            "_ngraph_marked_for_clustering"
          else mkNode "k" "Const" (some 1)) ::
        (DeassignClusters envPlain
          { nodes := graphSix.nodes.take 2 ++ graphSix.nodes.drop 2, edges := graphSix.edges }
          glStale).graph.nodes.drop (graphSix.nodes.take 2).length :=
  ⟨by decide, by decide, by decide, by decide,
    (const_not_counted envPlain glStale glStale (graphSix.nodes.take 2) (graphSix.nodes.drop 2)
      graphSix.edges [] (mkNode "k" "Const" (some 1)) 1 (by decide) (by decide) (by decide)
      (by decide)).2⟩

theorem GetNodeCluster_clearBoth (n : Node) : GetNodeCluster (clearBoth n) = none := by
  unfold GetNodeCluster
  rw [clearBoth_lookup]
  simp

theorem zip_map_self {α β : Type} (l : List α) (f : α → β) :
    l.zip (l.map f) = l.map (fun x => (x, f x)) := by
  induction l with
  | nil => rfl
  | cons a l ih => simp only [List.map_cons, List.zip_cons_cons, ih]

theorem discards_eq_lost_cluster (g : Graph) (n : Node) :
    (hasCluster n && !hasCluster (if discards g n then clearBoth n else n)) = discards g n := by
  cases hd : discards g n with
  | true =>
    have h1 : hasCluster n = true := by
      unfold discards at hd
      unfold hasCluster
      cases hc : GetNodeCluster n with
      | none => rw [hc] at hd; cases hd
      | some c => rfl
    rw [if_pos rfl, h1]
    simp [hasCluster, GetNodeCluster_clearBoth]
  | false => simp

/-- C4: after a run on the main path, whatever the globals held before, the
histogram maps an op kind `k` to the number of nodes of kind `k` that had a
cluster before the run and have none after it, and has no entry for `k` when
there is no such node. -/
theorem histogram_counts_discarded (env : Env) (g : Graph) (gl : Globals) (k : String)
    (hby : (env.getenv "NGRAPH_TF_DISABLE_DEASSIGN_CLUSTERS").isSome = false)
    (hb : g.nodes.length < 2147483648) :
    (DeassignClusters env g gl).globals.deassigned_histogram.find k =
      if ((g.nodes.zip (DeassignClusters env g gl).graph.nodes).filter (fun p =>
          decide (p.1.type_string = k) && (hasCluster p.1 && !hasCluster p.2))).length = 0
      then none
      else some (((g.nodes.zip (DeassignClusters env g gl).graph.nodes).filter (fun p =>
          decide (p.1.type_string = k) && (hasCluster p.1 && !hasCluster p.2))).length : Int) := by
  have hlen : ((g.nodes.zip (DeassignClusters env g gl).graph.nodes).filter (fun p =>
      decide (p.1.type_string = k) && (hasCluster p.1 && !hasCluster p.2))).length =
      discardedOfKind g k := by
    rw [DeassignClusters_nodes env g gl hby hb, zip_map_self, List.filter_map, List.length_map,
      discardedOfKind]
    congr 1
    apply List.filter_congr
    intro n _
    simp only [Function.comp]
    rw [discards_eq_lost_cluster]
  rw [hlen]
  exact DeassignClusters_histogram env g gl hby hb k

theorem histogram_counts_discarded_witness :
    (envPlain.getenv "NGRAPH_TF_DISABLE_DEASSIGN_CLUSTERS").isSome = false ∧
    graphFive.nodes.length < 2147483648 ∧
    (DeassignClusters envPlain graphFive glStale).globals.deassigned_histogram.find "Add" =
      if ((graphFive.nodes.zip (DeassignClusters envPlain graphFive glStale).graph.nodes).filter
          (fun p => decide (p.1.type_string = "Add") && (hasCluster p.1 && !hasCluster p.2))).length
          = 0
      then none
      else some (((graphFive.nodes.zip
          (DeassignClusters envPlain graphFive glStale).graph.nodes).filter (fun p =>
            decide (p.1.type_string = "Add") && (hasCluster p.1 && !hasCluster p.2))).length : Int) :=
  ⟨by decide, by decide,
    histogram_counts_discarded envPlain graphFive glStale "Add" (by decide) (by decide)⟩

/-- C5: with the bypass variable set the pass returns OK, leaves the graph as
it is, leaves the histogram empty, and sets the counter to the number of nodes
with a cluster assignment; a run on the main path sets the counter to the same
value for the same graph. -/
theorem bypass_keeps_graph (env env' : Env) (g : Graph) (gl gl' : Globals)
    (hby : (env.getenv "NGRAPH_TF_DISABLE_DEASSIGN_CLUSTERS").isSome = true)
    (hmain : (env'.getenv "NGRAPH_TF_DISABLE_DEASSIGN_CLUSTERS").isSome = false)
    (hb : g.nodes.length < 2147483648) :
    (DeassignClusters env g gl).status = Status.OK ∧
    (DeassignClusters env g gl).graph = g ∧
    (DeassignClusters env g gl).globals.deassigned_histogram = [] ∧
    (DeassignClusters env g gl).globals.num_nodes_marked_before_deassign =
      ((g.nodes.filter (fun n => (GetNodeCluster n).isSome)).length : Int) ∧
    (DeassignClusters env' g gl').globals.num_nodes_marked_before_deassign =
      (DeassignClusters env g gl).globals.num_nodes_marked_before_deassign := by
  obtain ⟨h1, h2, h3, h4⟩ := DeassignClusters_bypass env g gl hby
  refine ⟨h1, h2, h3, ?_, ?_⟩
  · rw [h4, countMarked_eq g.nodes 0 (le_refl _) (by omega)]
    simp only [zero_add]
    rfl
  · rw [h4, (DeassignClusters_main env' g gl' hmain).2.2.2.2]

theorem bypass_keeps_graph_witness :
    (envBypass.getenv "NGRAPH_TF_DISABLE_DEASSIGN_CLUSTERS").isSome = true ∧
    (envPlain.getenv "NGRAPH_TF_DISABLE_DEASSIGN_CLUSTERS").isSome = false ∧
    graphFive.nodes.length < 2147483648 ∧
    (DeassignClusters envBypass graphFive glStale).graph = graphFive ∧
    (DeassignClusters envBypass graphFive glStale).globals.num_nodes_marked_before_deassign = 7 ∧
    (DeassignClusters envPlain graphFive glStale).globals.num_nodes_marked_before_deassign = 7 :=
  ⟨by decide, by decide, by decide,
    (bypass_keeps_graph envBypass envPlain graphFive glStale glStale (by decide) (by decide)
      (by decide)).2.1,
    by decide, by decide⟩

/-- C6: the pass adds and removes no node and no edge.  A node without a
cluster and a node of a kept cluster (count not below the threshold) come out
identical; every node keeps its name, op kind and placement, and every
attribute other than `_ngraph_cluster` and `_ngraph_marked_for_clustering`;
a node that does change sits in a cluster below the threshold. -/
theorem deassign_frame (env : Env) (g : Graph) (gl : Globals)
    (hb : g.nodes.length < 2147483648) :
    (DeassignClusters env g gl).graph.edges = g.edges ∧
    (DeassignClusters env g gl).graph.nodes.length = g.nodes.length ∧
    ∀ (i : Nat) (n : Node), g.nodes[i]? = some n →
      ∃ m : Node, (DeassignClusters env g gl).graph.nodes[i]? = some m ∧
        m.name = n.name ∧ m.type_string = n.type_string ∧
        m.assigned_device_name = n.assigned_device_name ∧
        (∀ a : String, a ≠ "_ngraph_cluster" → a ≠ "_ngraph_marked_for_clustering" →
          m.attrs.lookup a = n.attrs.lookup a) ∧
        (GetNodeCluster n = none → m = n) ∧
        (∀ c : Int, GetNodeCluster n = some c →
          ¬ (nonTrivialCount g c : Int) < MIN_NONTRIVIAL_NODES → m = n) ∧
        (m ≠ n → ∃ c : Int, GetNodeCluster n = some c ∧
          (nonTrivialCount g c : Int) < MIN_NONTRIVIAL_NODES ∧
          m = (n.ClearAttr "_ngraph_cluster").ClearAttr "_ngraph_marked_for_clustering") := by
  cases hby : (env.getenv "NGRAPH_TF_DISABLE_DEASSIGN_CLUSTERS").isSome with
  | true =>
    obtain ⟨_, h2, _, _⟩ := DeassignClusters_bypass env g gl hby
    rw [h2]
    refine ⟨rfl, rfl, ?_⟩
    intro i n hn
    exact ⟨n, hn, rfl, rfl, rfl, fun _ _ _ => rfl, fun _ => rfl, fun _ _ _ => rfl,
      fun h => absurd rfl h⟩
  | false =>
    refine ⟨(DeassignClusters_main env g gl hby).2.2.1, ?_, ?_⟩
    · rw [DeassignClusters_nodes env g gl hby hb, List.length_map]
    · intro i n hn
      refine ⟨_, DeassignClusters_getElem? env g gl hby hb i n hn, ?_⟩
      cases hd : discards g n with
      | false =>
        rw [if_neg Bool.false_ne_true]
        exact ⟨rfl, rfl, rfl, fun _ _ _ => rfl, fun _ => rfl, fun _ _ _ => rfl,
          fun h => absurd rfl h⟩
      | true =>
        rw [if_pos rfl]
        refine ⟨rfl, rfl, rfl, ?_, ?_, ?_, ?_⟩
        · intro a h1 h2
          rw [clearBoth_lookup, if_neg h2, if_neg h1]
        · intro hc
          rw [discards_of_no_cluster g hc] at hd
          cases hd
        · intro c hc hge
          rw [discards_of_cluster g hc] at hd
          simp only [decide_eq_true_eq] at hd
          exact absurd hd hge
        · intro _
          unfold discards at hd
          cases hc : GetNodeCluster n with
          | none => rw [hc] at hd; cases hd
          | some c =>
            rw [hc] at hd
            simp only [decide_eq_true_eq] at hd
            exact ⟨c, rfl, hd, rfl⟩

theorem deassign_frame_witness :
    graphFive.nodes.length < 2147483648 ∧
    (DeassignClusters envPlain graphFive glStale).graph.edges = graphFive.edges ∧
    (DeassignClusters envPlain graphFive glStale).graph.nodes.length = graphFive.nodes.length :=
  ⟨by decide, (deassign_frame envPlain graphFive glStale (by decide)).1,
    (deassign_frame envPlain graphFive glStale (by decide)).2.1⟩

/-! ## Auxiliary lemmas: traces -/

theorem stageEvents_append (a b : List Event) :
    stageEvents (a ++ b) = stageEvents a ++ stageEvents b := by
  simp [stageEvents, List.filterMap_append]

theorem stageEvents_DumpGraphs (b : Bool) (idx : Int) (tag title : String) (g : Graph) :
    stageEvents (DumpGraphs b idx tag title g) = [] := by
  cases b <;> rfl

theorem stageEvents_summaryEvents (log : Option PlacementSummary) :
    stageEvents (summaryEvents log) = [] := by
  cases log <;> rfl

theorem stageEvents_stage (call : StageCall) (g : Graph) (st : Status) :
    stageEvents [Event.stage call g st] = [(call, st)] := rfl

theorem stageEvents_evictAll : stageEvents [Event.evictAll] = [] := rfl

theorem DeassignClusters_status (env : Env) (g : Graph) (gl : Globals) :
    (DeassignClusters env g gl).status = Status.OK := by
  unfold DeassignClusters
  split <;> rfl

/-! ## The rewrite passes: claims -/

/-- C7: when offload is disabled (API flag off or `NGRAPH_TF_DISABLE` set) or
the graph is already marked as processed, both passes return OK on a non-null
graph, call no pipeline stage, leave the graph and the pruner's globals as
they are, and evict the registry; running the encapsulation pass again on the
outcome is again such a no-op. -/
theorem disabled_or_processed_is_noop (env : Env) (ext : Collaborators) (g : Graph) (p : Process)
    (h : env.IsEnabled = false ∨ (env.getenv "NGRAPH_TF_DISABLE").isSome = true ∨
      ext.IsProcessedByNgraphPass g = true) :
    ((NGraphEncapsulationPass.Run env ext ⟨some g⟩ p).outcome = Outcome.returned Status.OK ∧
      stageEvents (NGraphEncapsulationPass.Run env ext ⟨some g⟩ p).trace = [] ∧
      (NGraphEncapsulationPass.Run env ext ⟨some g⟩ p).graph = some g ∧
      (NGraphEncapsulationPass.Run env ext ⟨some g⟩ p).proc.globals = p.globals ∧
      (NGraphEncapsulationPass.Run env ext ⟨some g⟩ p).proc.registry = [] ∧
      Event.evictAll ∈ (NGraphEncapsulationPass.Run env ext ⟨some g⟩ p).trace) ∧
    ((NGraphVariableCapturePass.Run env ext ⟨some g⟩ p).outcome = Outcome.returned Status.OK ∧
      stageEvents (NGraphVariableCapturePass.Run env ext ⟨some g⟩ p).trace = [] ∧
      (NGraphVariableCapturePass.Run env ext ⟨some g⟩ p).graph = some g ∧
      (NGraphVariableCapturePass.Run env ext ⟨some g⟩ p).proc.globals = p.globals ∧
      (NGraphVariableCapturePass.Run env ext ⟨some g⟩ p).proc.registry = [] ∧
      Event.evictAll ∈ (NGraphVariableCapturePass.Run env ext ⟨some g⟩ p).trace) ∧
    ((NGraphEncapsulationPass.Run env ext
        ⟨(NGraphEncapsulationPass.Run env ext ⟨some g⟩ p).graph⟩
        (NGraphEncapsulationPass.Run env ext ⟨some g⟩ p).proc).outcome =
          Outcome.returned Status.OK ∧
      stageEvents (NGraphEncapsulationPass.Run env ext
        ⟨(NGraphEncapsulationPass.Run env ext ⟨some g⟩ p).graph⟩
        (NGraphEncapsulationPass.Run env ext ⟨some g⟩ p).proc).trace = [] ∧
      (NGraphEncapsulationPass.Run env ext
        ⟨(NGraphEncapsulationPass.Run env ext ⟨some g⟩ p).graph⟩
        (NGraphEncapsulationPass.Run env ext ⟨some g⟩ p).proc).graph = some g) := by
  have hc : (!env.IsEnabled || (env.getenv "NGRAPH_TF_DISABLE").isSome ||
      ext.IsProcessedByNgraphPass g) = true := by
    rcases h with h | h | h <;> simp [h]
  have he : ∀ q : Process,
      NGraphEncapsulationPass.Run env ext ⟨some g⟩ q =
        { outcome := Outcome.returned Status.OK, graph := some g
          proc := { (FreshIndex q).2 with registry := [] }
          trace := DumpGraphs (DumpUnmarkedGraphs env) (FreshIndex q).1 "unmarked"
            "Unmarked Graph" g ++ [Event.evictAll] } := by
    intro q
    unfold NGraphEncapsulationPass.Run
    simp only [hc, if_true, EvictAllClusters]
  have hv : NGraphVariableCapturePass.Run env ext ⟨some g⟩ p =
        { outcome := Outcome.returned Status.OK, graph := some g
          proc := { (FreshIndex p).2 with registry := [] }
          trace := DumpGraphs (DumpPrecaptureGraphs env) (FreshIndex p).1 "precapture"
            "Pre-Capture Graph" g ++ [Event.evictAll] } := by
    unfold NGraphVariableCapturePass.Run
    simp only [hc, if_true, EvictAllClusters]
  refine ⟨?_, ?_, ?_⟩
  · rw [he p]
    refine ⟨rfl, ?_, rfl, rfl, rfl, ?_⟩
    · rw [stageEvents_append, stageEvents_DumpGraphs, stageEvents_evictAll]; rfl
    · exact List.mem_append_right _ (List.mem_singleton.2 rfl)
  · rw [hv]
    refine ⟨rfl, ?_, rfl, rfl, rfl, ?_⟩
    · rw [stageEvents_append, stageEvents_DumpGraphs, stageEvents_evictAll]; rfl
    · exact List.mem_append_right _ (List.mem_singleton.2 rfl)
  · rw [he p]
    simp only []
    rw [he _]
    refine ⟨rfl, ?_, rfl⟩
    rw [stageEvents_append, stageEvents_DumpGraphs, stageEvents_evictAll]; rfl

/-- The body of `NGraphEncapsulationPass.Run` past the backend lookup is the
chain of its phases. -/
theorem encapsulationRun_eq_phases (env : Env) (ext : Collaborators) (g : Graph) (p : Process)
    (backend_name : String)
    (hc : (!env.IsEnabled || (env.getenv "NGRAPH_TF_DISABLE").isSome ||
      ext.IsProcessedByNgraphPass g) = false)
    (hb : ext.GetCurrentlySetBackendName.1 = Status.OK)
    (hk : (ext.GetBackendAttributeValues ext.GetCurrentlySetBackendName.2).lookup
      "ngraph_backend" = some backend_name) :
    NGraphEncapsulationPass.Run env ext ⟨some g⟩ p =
      phase0 (phaseCtx env ext p backend_name) g (FreshIndex p).2.registry
        (DumpGraphs (DumpUnmarkedGraphs env) (FreshIndex p).1 "unmarked" "Unmarked Graph" g) := by
  unfold NGraphEncapsulationPass.Run
  simp only [hc, Bool.false_eq_true, if_false, hb, ne_eq, not_true_eq_false, hk]
  rfl

theorem filter_specStages_prefix {l : List String} (h : l <+: pipelineOrder) :
    l.filter (fun s => decide (s ∈ specStages)) <+: specStages := by
  have := List.IsPrefix.filter (fun s => decide (s ∈ specStages)) h
  have e : pipelineOrder.filter (fun s => decide (s ∈ specStages)) = specStages := by decide
  rw [e] at this
  exact this

theorem stageDiscipline_of_last (R : RunResult) (pre : List (StageCall × Status))
    (last : StageCall × Status) (k : Nat)
    (hev : stageEvents R.trace = pre ++ [last])
    (hpre : ∀ e ∈ pre, e.2 = Status.OK)
    (hnames : (pre ++ [last]).map (fun e => e.1.name) = pipelineOrder.take k)
    (hout : R.outcome = Outcome.returned last.2)
    (hok : last.2 = Status.OK → k = 8) : StageDiscipline R := by
  have hn : stageNames R.trace = pipelineOrder.take k := by
    unfold stageNames; rw [hev]; exact hnames
  have hp : stageNames R.trace <+: pipelineOrder := by
    rw [hn]; exact List.take_prefix _ _
  refine ⟨hp, filter_specStages_prefix hp, ?_, ?_, ?_⟩
  · rw [hev, List.dropLast_concat]
    exact hpre
  · intro e he _
    rw [hev, List.getLast?_concat] at he
    cases he
    exact hout
  · intro ho
    rw [hout] at ho
    have hl : last.2 = Status.OK := by
      injection ho
    refine ⟨?_, ?_⟩
    · intro e he
      rw [hev] at he
      rcases List.mem_append.1 he with h | h
      · exact hpre e h
      · rw [List.mem_singleton.1 h]; exact hl
    · rw [hn, hok hl]
      rfl

theorem stageDiscipline_of_no_stage (R : RunResult) (hev : stageEvents R.trace = [])
    (hout : R.outcome ≠ Outcome.returned Status.OK) : StageDiscipline R := by
  have hn : stageNames R.trace = [] := by unfold stageNames; rw [hev]; rfl
  refine ⟨?_, ?_, ?_, ?_, ?_⟩
  · rw [hn]; exact List.nil_prefix
  · rw [hn]; exact List.nil_prefix
  · rw [hev]; intro e he; cases he
  · rw [hev]; intro e he; cases he
  · intro h; exact absurd h hout

theorem phasesOkUpTo_step {k : Nat} {t : List Event} (h : PhasesOkUpTo k t) (mid : List Event)
    (hmid : stageEvents mid = []) (call : StageCall) (g : Graph) (st : Status)
    (b : Bool) (idx : Int) (tag title : String) (g' : Graph)
    (hst : st = Status.OK)
    (hname : pipelineOrder.take k ++ [call.name] = pipelineOrder.take (k + 1)) :
    PhasesOkUpTo (k + 1) (t ++ mid ++ [Event.stage call g st] ++ DumpGraphs b idx tag title g') := by
  obtain ⟨h1, h2⟩ := h
  unfold stageNames at h1
  have hev : stageEvents (t ++ mid ++ [Event.stage call g st] ++ DumpGraphs b idx tag title g') =
      stageEvents t ++ [(call, st)] := by
    rw [stageEvents_append, stageEvents_append, stageEvents_append, stageEvents_DumpGraphs, hmid,
      stageEvents_stage, List.append_nil, List.append_nil]
  refine ⟨?_, ?_⟩
  · unfold stageNames
    rw [hev, List.map_append, h1, ← hname]
    rfl
  · intro e he
    rw [hev] at he
    rcases List.mem_append.1 he with h | h
    · exact h2 e h
    · rw [List.mem_singleton.1 h]; exact hst

theorem stageDiscipline_of_failed {k : Nat} {t : List Event} (h : PhasesOkUpTo k t)
    (R : RunResult) (mid : List Event) (hmid : stageEvents mid = [])
    (call : StageCall) (g : Graph) (st : Status)
    (htr : R.trace = t ++ mid ++ [Event.stage call g st])
    (hout : R.outcome = Outcome.returned st) (hst : st ≠ Status.OK)
    (hname : pipelineOrder.take k ++ [call.name] = pipelineOrder.take (k + 1)) :
    StageDiscipline R := by
  obtain ⟨h1, h2⟩ := h
  unfold stageNames at h1
  apply stageDiscipline_of_last R (stageEvents t) (call, st) (k + 1)
  · rw [htr, stageEvents_append, stageEvents_append, hmid, stageEvents_stage, List.append_nil]
  · exact h2
  · rw [List.map_append, h1, ← hname]; rfl
  · exact hout
  · intro h; exact absurd h hst

theorem phase7_discipline (c : PhaseCtx) (gl : Globals) (g : Graph) (reg : Registry)
    (t : List Event) (h : PhasesOkUpTo 7 t) : StageDiscipline (phase7 c gl g reg t) := by
  unfold phase7
  split_ifs with hs
  · exact stageDiscipline_of_failed h _ [] rfl StageCall.RemoveNGraphAssigns g _
      (by simp) rfl hs rfl
  · have hs' : (c.ext.RemoveNGraphAssigns g reg).status = Status.OK := not_not.1 hs
    obtain ⟨h1, h2⟩ := h
    unfold stageNames at h1
    apply stageDiscipline_of_last _ (stageEvents t)
      (StageCall.RemoveNGraphAssigns, (c.ext.RemoveNGraphAssigns g reg).status) 8
    · simp only [stageEvents_append, stageEvents_DumpGraphs, stageEvents_stage, List.append_nil]
    · exact h2
    · rw [List.map_append, h1]; rfl
    · simp only [hs']
    · intro _; rfl

theorem phase6_discipline (c : PhaseCtx) (gl : Globals) (g : Graph) (reg : Registry)
    (t : List Event) (h : PhasesOkUpTo 6 t) : StageDiscipline (phase6 c gl g reg t) := by
  unfold phase6
  split_ifs with hs
  · exact stageDiscipline_of_failed h _ [] rfl (StageCall.EnterInCatalog c.idx) g _
      (by simp) rfl hs rfl
  · apply phase7_discipline
    have := phasesOkUpTo_step h [] rfl (StageCall.EnterInCatalog c.idx) g _ false 0 "" "" g
      (not_not.1 hs) rfl
    simpa [DumpGraphs] using this

theorem phase5_discipline (c : PhaseCtx) (gl : Globals) (g : Graph) (reg : Registry)
    (t : List Event) (h : PhasesOkUpTo 5 t) : StageDiscipline (phase5 c gl g reg t) := by
  unfold phase5
  split_ifs with hs
  · exact stageDiscipline_of_failed h _ [] rfl (StageCall.RewriteForVariableSync c.idx) g _
      (by simp) rfl hs rfl
  · apply phase6_discipline
    have := phasesOkUpTo_step h [] rfl (StageCall.RewriteForVariableSync c.idx) g _
      (DumpVarSyncedGraphs c.env) c.idx "rewrite_var_synced"
      "Graph with Variables Rewritten for Tracking"
      (c.ext.RewriteForVariableSync g c.idx reg).graph (not_not.1 hs) rfl
    simpa using this

theorem phase4_discipline (c : PhaseCtx) (gl : Globals) (g : Graph) (reg : Registry)
    (t : List Event) (h : PhasesOkUpTo 4 t) : StageDiscipline (phase4 c gl g reg t) := by
  unfold phase4
  split_ifs with hs
  · exact stageDiscipline_of_failed h _ [] rfl (StageCall.EncapsulateClusters c.idx c.config_map)
      g _ (by simp) rfl hs rfl
  · apply phase5_discipline
    have := phasesOkUpTo_step h [] rfl (StageCall.EncapsulateClusters c.idx c.config_map) g _
      (DumpEncapsulatedGraphs c.env) c.idx "encapsulated" "Graph with Clusters Encapsulated"
      (c.ext.EncapsulateClusters g c.idx c.config_map reg).graph (not_not.1 hs) rfl
    simpa using this

theorem phase3_discipline (c : PhaseCtx) (g : Graph) (reg : Registry)
    (t : List Event) (h : PhasesOkUpTo 3 t) : StageDiscipline (phase3 c g reg t) := by
  unfold phase3
  split_ifs with hs
  · exact absurd (DeassignClusters_status c.env g c.p1.globals) hs
  · apply phase4_discipline
    exact phasesOkUpTo_step h _ (stageEvents_summaryEvents _) StageCall.DeassignClusters g _
      (DumpDeclusteredGraphs c.env) c.idx "declustered" "Graph with Trivial Clusters De-Assigned"
      (DeassignClusters c.env g c.p1.globals).graph (not_not.1 hs) rfl

theorem phase2_discipline (c : PhaseCtx) (g : Graph) (reg : Registry)
    (t : List Event) (h : PhasesOkUpTo 2 t) : StageDiscipline (phase2 c g reg t) := by
  unfold phase2
  split_ifs with hs
  · exact stageDiscipline_of_failed h _ [] rfl StageCall.AssignClusters g _ (by simp) rfl hs rfl
  · apply phase3_discipline
    have := phasesOkUpTo_step h [] rfl StageCall.AssignClusters g _
      (DumpClusteredGraphs c.env) c.idx "clustered" "Graph with Clusters Assigned"
      (c.ext.AssignClusters g reg).graph (not_not.1 hs) rfl
    simpa using this

theorem phase1_discipline (c : PhaseCtx) (g : Graph) (reg : Registry)
    (t : List Event) (h : PhasesOkUpTo 1 t) : StageDiscipline (phase1 c g reg t) := by
  unfold phase1
  split_ifs with hs
  · exact stageDiscipline_of_failed h _ [] rfl (StageCall.MarkForClustering [] c.backend_name) g _
      (by simp) rfl hs rfl
  · apply phase2_discipline
    have := phasesOkUpTo_step h [] rfl (StageCall.MarkForClustering [] c.backend_name) g _
      (DumpMarkedGraphs c.env) c.idx "marked" "Graph Marked for Clustering"
      (c.ext.MarkForClustering g [] c.backend_name reg).graph (not_not.1 hs) rfl
    simpa using this

theorem phase0_discipline (c : PhaseCtx) (g : Graph) (reg : Registry)
    (t : List Event) (h : PhasesOkUpTo 0 t) : StageDiscipline (phase0 c g reg t) := by
  unfold phase0
  split_ifs with hs
  · exact stageDiscipline_of_failed h _ [] rfl (StageCall.ReplaceModifiers c.idx) g _
      (by simp) rfl hs rfl
  · apply phase1_discipline
    have := phasesOkUpTo_step h [] rfl (StageCall.ReplaceModifiers c.idx) g _
      (DumpReplacedModifiersGraphs c.env) c.idx "replaced_modifier"
      "Graph with Modifiers replaced" (c.ext.ReplaceModifiers g c.idx reg).graph (not_not.1 hs) rfl
    simpa using this

theorem encapsulationRun_discipline (env : Env) (ext : Collaborators) (g : Graph) (p : Process)
    (hc : (!env.IsEnabled || (env.getenv "NGRAPH_TF_DISABLE").isSome ||
      ext.IsProcessedByNgraphPass g) = false) :
    StageDiscipline (NGraphEncapsulationPass.Run env ext ⟨some g⟩ p) := by
  by_cases hb : ext.GetCurrentlySetBackendName.1 = Status.OK
  · cases hk : (ext.GetBackendAttributeValues ext.GetCurrentlySetBackendName.2).lookup
        "ngraph_backend" with
    | none =>
      apply stageDiscipline_of_no_stage
      · unfold NGraphEncapsulationPass.Run
        simp only [hc, Bool.false_eq_true, if_false, hb, ne_eq, not_true_eq_false, hk]
        exact stageEvents_DumpGraphs _ _ _ _ _
      · unfold NGraphEncapsulationPass.Run
        simp only [hc, Bool.false_eq_true, if_false, hb, ne_eq, not_true_eq_false, hk]
        intro h; cases h
    | some backend_name =>
      rw [encapsulationRun_eq_phases env ext g p backend_name hc hb hk]
      apply phase0_discipline
      refine ⟨?_, ?_⟩
      · unfold stageNames; rw [stageEvents_DumpGraphs]; rfl
      · rw [stageEvents_DumpGraphs]; intro e he; cases he
  · apply stageDiscipline_of_no_stage
    · unfold NGraphEncapsulationPass.Run
      simp only [hc, Bool.false_eq_true, if_false, hb, ne_eq, not_false_eq_true, if_true]
      exact stageEvents_DumpGraphs _ _ _ _ _
    · unfold NGraphEncapsulationPass.Run
      simp only [hc, Bool.false_eq_true, if_false, hb, ne_eq, not_false_eq_true, if_true]
      intro h
      injection h with h
      exact hb h

theorem disabled_or_processed_is_noop_witness :
    (envDisabled.IsEnabled = false ∨ (envDisabled.getenv "NGRAPH_TF_DISABLE").isSome = true ∨
      extPlain.IsProcessedByNgraphPass graphSix = true) ∧
    (NGraphEncapsulationPass.Run envDisabled extPlain ⟨some graphSix⟩ procStart).graph =
      some graphSix ∧
    (NGraphEncapsulationPass.Run envDisabled extPlain ⟨some graphSix⟩ procStart).proc.registry =
      [] :=
  ⟨by decide,
    (disabled_or_processed_is_noop envDisabled extPlain graphSix procStart (by decide)).1.2.2.1,
    (disabled_or_processed_is_noop envDisabled extPlain graphSix procStart (by decide)).1.2.2.2.2.1⟩

/-- C8: on an enabled, unprocessed graph the stage calls of
`NGraphEncapsulationPass::Run` form an initial segment of the phase order of
the pass, so each stage is called at most once and the spec's five stages come
in the order marking, cluster assignment, cluster deassignment, encapsulation,
variable synchronization.  Every stage call but the last returned OK; when the
last one returned an error, `Run` returns exactly that error; and when `Run`
returns OK every phase was called and returned OK. -/
theorem stages_in_order_and_errors_abort (env : Env) (ext : Collaborators) (g : Graph)
    (p : Process) (hen : env.IsEnabled = true)
    (hdis : (env.getenv "NGRAPH_TF_DISABLE").isSome = false)
    (hproc : ext.IsProcessedByNgraphPass g = false) :
    ((stageEvents (NGraphEncapsulationPass.Run env ext ⟨some g⟩ p).trace).map
        (fun e => e.1.name) <+: pipelineOrder) ∧
    (((stageEvents (NGraphEncapsulationPass.Run env ext ⟨some g⟩ p).trace).map
        (fun e => e.1.name)).filter (fun s => decide (s ∈ specStages)) <+: specStages) ∧
    (∀ e ∈ (stageEvents (NGraphEncapsulationPass.Run env ext ⟨some g⟩ p).trace).dropLast,
        e.2 = Status.OK) ∧
    (∀ e : StageCall × Status,
        (stageEvents (NGraphEncapsulationPass.Run env ext ⟨some g⟩ p).trace).getLast? = some e →
        e.2 ≠ Status.OK →
        (NGraphEncapsulationPass.Run env ext ⟨some g⟩ p).outcome = Outcome.returned e.2) ∧
    ((NGraphEncapsulationPass.Run env ext ⟨some g⟩ p).outcome = Outcome.returned Status.OK →
        (∀ e ∈ stageEvents (NGraphEncapsulationPass.Run env ext ⟨some g⟩ p).trace,
          e.2 = Status.OK) ∧
        (stageEvents (NGraphEncapsulationPass.Run env ext ⟨some g⟩ p).trace).map
          (fun e => e.1.name) = pipelineOrder) := by
  have hc : (!env.IsEnabled || (env.getenv "NGRAPH_TF_DISABLE").isSome ||
      ext.IsProcessedByNgraphPass g) = false := by
    simp [hen, hdis, hproc]
  exact encapsulationRun_discipline env ext g p hc

theorem stages_in_order_and_errors_abort_witness :
    envPlain.IsEnabled = true ∧ (envPlain.getenv "NGRAPH_TF_DISABLE").isSome = false ∧
    extPlain.IsProcessedByNgraphPass graphSix = false ∧
    (stageEvents (NGraphEncapsulationPass.Run envPlain extPlain ⟨some graphSix⟩ procStart).trace).map
        (fun e => e.1.name) = pipelineOrder ∧
    ((stageEvents (NGraphEncapsulationPass.Run envPlain extFailing ⟨some graphSix⟩
        procStart).trace).map (fun e => e.1.name) <+: pipelineOrder) ∧
    (NGraphEncapsulationPass.Run envPlain extFailing ⟨some graphSix⟩ procStart).outcome =
      Outcome.returned (Status.Error "INTERNAL" "cycle") :=
  ⟨by decide, by decide, by decide,
    ((stages_in_order_and_errors_abort envPlain extPlain graphSix procStart (by decide)
      (by decide) (by decide)).2.2.2.2 (by decide)).2,
    (stages_in_order_and_errors_abort envPlain extFailing graphSix procStart (by decide)
      (by decide) (by decide)).1,
    by decide⟩

/-! ## Auxiliary lemmas: backend arguments -/

theorem lookup_erase (m : ConfigMap) (k k' : String) :
    (m.erase k').lookup k = if k = k' then none else m.lookup k := by
  unfold ConfigMap.erase
  induction m with
  | nil => simp
  | cons hd t ih =>
    obtain ⟨a, v⟩ := hd
    rw [List.filter_cons]
    by_cases ha : a = k'
    · subst ha
      have e1 : (!((a, v).1 == a)) = false := by simp
      rw [e1]
      simp only [Bool.false_eq_true, if_false]
      rw [ih]
      by_cases hk : k = a
      · rw [if_pos hk, if_pos hk]
      · have : (k == a) = false := by rw [beq_eq_false_iff_ne]; exact hk
        rw [if_neg hk, if_neg hk, List.lookup_cons, this]
    · have e1 : (!((a, v).1 == k')) = true := by
        have : (a == k') = false := by rw [beq_eq_false_iff_ne]; exact ha
        simp [this]
      rw [e1, if_pos rfl, List.lookup_cons, List.lookup_cons, ih]
      by_cases hk : k = a
      · subst hk
        simp [ha]
      · have : (k == a) = false := by rw [beq_eq_false_iff_ne]; exact hk
        rw [this]

theorem backendArgsOk_DumpGraphs (attrs : ConfigMap) (b : Bool) (idx : Int) (tag title : String)
    (g : Graph) : ∀ e ∈ DumpGraphs b idx tag title g, BackendArgsOk attrs e := by
  intro e he
  cases b with
  | false => cases he
  | true =>
    rw [DumpGraphs, if_pos rfl, List.mem_singleton] at he
    subst he
    trivial

theorem backendArgsOk_summaryEvents (attrs : ConfigMap) (log : Option PlacementSummary) :
    ∀ e ∈ summaryEvents log, BackendArgsOk attrs e := by
  intro e he
  cases log with
  | none => cases he
  | some s =>
    rw [summaryEvents, List.mem_singleton] at he
    subst he
    trivial

theorem backendArgsOk_append {attrs : ConfigMap} {a b : List Event}
    (ha : ∀ e ∈ a, BackendArgsOk attrs e) (hb : ∀ e ∈ b, BackendArgsOk attrs e) :
    ∀ e ∈ a ++ b, BackendArgsOk attrs e := by
  intro e he
  rcases List.mem_append.1 he with h | h
  · exact ha e h
  · exact hb e h

theorem backendArgsOk_singleton {attrs : ConfigMap} {ev : Event} (h : BackendArgsOk attrs ev) :
    ∀ e ∈ [ev], BackendArgsOk attrs e := by
  intro e he
  rw [List.mem_singleton.1 he]
  exact h

theorem phase7_backendArgs (attrs : ConfigMap) (c : PhaseCtx) (gl : Globals) (g : Graph)
    (reg : Registry) (t : List Event) (ht : ∀ e ∈ t, BackendArgsOk attrs e) :
    ∀ e ∈ (phase7 c gl g reg t).trace, BackendArgsOk attrs e := by
  unfold phase7
  split_ifs
  · exact backendArgsOk_append ht (backendArgsOk_singleton trivial)
  · exact backendArgsOk_append (backendArgsOk_append ht (backendArgsOk_singleton trivial))
      (backendArgsOk_DumpGraphs _ _ _ _ _ _)

theorem phase6_backendArgs (attrs : ConfigMap) (c : PhaseCtx) (gl : Globals) (g : Graph)
    (reg : Registry) (t : List Event) (ht : ∀ e ∈ t, BackendArgsOk attrs e) :
    ∀ e ∈ (phase6 c gl g reg t).trace, BackendArgsOk attrs e := by
  unfold phase6
  split_ifs
  · exact backendArgsOk_append ht (backendArgsOk_singleton trivial)
  · exact phase7_backendArgs attrs c gl _ _ _
      (backendArgsOk_append ht (backendArgsOk_singleton trivial))

theorem phase5_backendArgs (attrs : ConfigMap) (c : PhaseCtx) (gl : Globals) (g : Graph)
    (reg : Registry) (t : List Event) (ht : ∀ e ∈ t, BackendArgsOk attrs e) :
    ∀ e ∈ (phase5 c gl g reg t).trace, BackendArgsOk attrs e := by
  unfold phase5
  split_ifs
  · exact backendArgsOk_append ht (backendArgsOk_singleton trivial)
  · exact phase6_backendArgs attrs c gl _ _ _
      (backendArgsOk_append (backendArgsOk_append ht (backendArgsOk_singleton trivial))
        (backendArgsOk_DumpGraphs _ _ _ _ _ _))

theorem phase4_backendArgs (attrs : ConfigMap) (c : PhaseCtx) (gl : Globals) (g : Graph)
    (reg : Registry) (t : List Event) (ht : ∀ e ∈ t, BackendArgsOk attrs e)
    (hcfg : c.config_map = attrs.erase "ngraph_backend") :
    ∀ e ∈ (phase4 c gl g reg t).trace, BackendArgsOk attrs e := by
  unfold phase4
  split_ifs
  · exact backendArgsOk_append ht (backendArgsOk_singleton hcfg)
  · exact phase5_backendArgs attrs c gl _ _ _
      (backendArgsOk_append (backendArgsOk_append ht (backendArgsOk_singleton hcfg))
        (backendArgsOk_DumpGraphs _ _ _ _ _ _))

theorem phase3_backendArgs (attrs : ConfigMap) (c : PhaseCtx) (g : Graph)
    (reg : Registry) (t : List Event) (ht : ∀ e ∈ t, BackendArgsOk attrs e)
    (hcfg : c.config_map = attrs.erase "ngraph_backend") :
    ∀ e ∈ (phase3 c g reg t).trace, BackendArgsOk attrs e := by
  unfold phase3
  split_ifs
  · exact backendArgsOk_append (backendArgsOk_append ht (backendArgsOk_summaryEvents _ _))
      (backendArgsOk_singleton trivial)
  · exact phase4_backendArgs attrs c _ _ _ _
      (backendArgsOk_append
        (backendArgsOk_append (backendArgsOk_append ht (backendArgsOk_summaryEvents _ _))
          (backendArgsOk_singleton trivial))
        (backendArgsOk_DumpGraphs _ _ _ _ _ _)) hcfg

theorem phase2_backendArgs (attrs : ConfigMap) (c : PhaseCtx) (g : Graph)
    (reg : Registry) (t : List Event) (ht : ∀ e ∈ t, BackendArgsOk attrs e)
    (hcfg : c.config_map = attrs.erase "ngraph_backend") :
    ∀ e ∈ (phase2 c g reg t).trace, BackendArgsOk attrs e := by
  unfold phase2
  split_ifs
  · exact backendArgsOk_append ht (backendArgsOk_singleton trivial)
  · exact phase3_backendArgs attrs c _ _ _
      (backendArgsOk_append (backendArgsOk_append ht (backendArgsOk_singleton trivial))
        (backendArgsOk_DumpGraphs _ _ _ _ _ _)) hcfg

theorem phase1_backendArgs (attrs : ConfigMap) (c : PhaseCtx) (g : Graph)
    (reg : Registry) (t : List Event) (ht : ∀ e ∈ t, BackendArgsOk attrs e)
    (hcfg : c.config_map = attrs.erase "ngraph_backend")
    (hname : attrs.lookup "ngraph_backend" = some c.backend_name) :
    ∀ e ∈ (phase1 c g reg t).trace, BackendArgsOk attrs e := by
  unfold phase1
  split_ifs
  · exact backendArgsOk_append ht (backendArgsOk_singleton hname)
  · exact phase2_backendArgs attrs c _ _ _
      (backendArgsOk_append (backendArgsOk_append ht (backendArgsOk_singleton hname))
        (backendArgsOk_DumpGraphs _ _ _ _ _ _)) hcfg

theorem phase0_backendArgs (attrs : ConfigMap) (c : PhaseCtx) (g : Graph)
    (reg : Registry) (t : List Event) (ht : ∀ e ∈ t, BackendArgsOk attrs e)
    (hcfg : c.config_map = attrs.erase "ngraph_backend")
    (hname : attrs.lookup "ngraph_backend" = some c.backend_name) :
    ∀ e ∈ (phase0 c g reg t).trace, BackendArgsOk attrs e := by
  unfold phase0
  split_ifs
  · exact backendArgsOk_append ht (backendArgsOk_singleton trivial)
  · exact phase1_backendArgs attrs c _ _ _
      (backendArgsOk_append (backendArgsOk_append ht (backendArgsOk_singleton trivial))
        (backendArgsOk_DumpGraphs _ _ _ _ _ _)) hcfg hname

theorem encapsulationRun_backendArgs (env : Env) (ext : Collaborators)
    (options : GraphOptimizationPassOptions) (p : Process) :
    ∀ e ∈ (NGraphEncapsulationPass.Run env ext options p).trace,
      BackendArgsOk (ext.GetBackendAttributeValues ext.GetCurrentlySetBackendName.2) e := by
  obtain ⟨og⟩ := options
  cases og with
  | none => intro e he; cases he
  | some g =>
    cases hc : (!env.IsEnabled || (env.getenv "NGRAPH_TF_DISABLE").isSome ||
        ext.IsProcessedByNgraphPass g) with
    | true =>
      unfold NGraphEncapsulationPass.Run
      simp only [hc, if_true]
      exact backendArgsOk_append (backendArgsOk_DumpGraphs _ _ _ _ _ _)
        (backendArgsOk_singleton trivial)
    | false =>
      by_cases hb : ext.GetCurrentlySetBackendName.1 = Status.OK
      · cases hk : (ext.GetBackendAttributeValues ext.GetCurrentlySetBackendName.2).lookup
            "ngraph_backend" with
        | none =>
          unfold NGraphEncapsulationPass.Run
          simp only [hc, Bool.false_eq_true, if_false, hb, ne_eq, not_true_eq_false, hk]
          exact backendArgsOk_DumpGraphs _ _ _ _ _ _
        | some backend_name =>
          rw [encapsulationRun_eq_phases env ext g p backend_name hc hb hk]
          exact phase0_backendArgs _ _ _ _ _ (backendArgsOk_DumpGraphs _ _ _ _ _ _) rfl hk
      · unfold NGraphEncapsulationPass.Run
        simp only [hc, Bool.false_eq_true, if_false, hb, ne_eq, not_false_eq_true, if_true]
        exact backendArgsOk_DumpGraphs _ _ _ _ _ _

theorem exists_stage_of_mem_stageNames {t : List Event} {s : String} (h : s ∈ stageNames t) :
    ∃ call g st, Event.stage call g st ∈ t ∧ call.name = s := by
  unfold stageNames stageEvents at h
  rw [List.mem_map] at h
  obtain ⟨⟨call, st⟩, hmem, hname⟩ := h
  rw [List.mem_filterMap] at hmem
  obtain ⟨ev, hev, hsome⟩ := hmem
  cases ev with
  | stage call' g' st' =>
    simp only [Option.some.injEq, Prod.mk.injEq] at hsome
    obtain ⟨h1, h2⟩ := hsome
    subst h1; subst h2
    exact ⟨call', g', st', hev, hname⟩
  | dump _ _ _ _ => cases hsome
  | evictAll => cases hsome
  | summary _ => cases hsome

/-- C9: in every run of `NGraphEncapsulationPass::Run`, with `attrs` the
attribute map returned for the current backend, every call of
`EncapsulateClusters` gets a configuration map without the reserved key
`ngraph_backend` that agrees with `attrs` on every other key, and every call of
`MarkForClustering` gets the backend name `attrs` stores under the reserved
key.  On an enabled, unprocessed graph a run that returns OK has made both
calls. -/
theorem reserved_backend_key_stripped (env : Env) (ext : Collaborators)
    (options : GraphOptimizationPassOptions) (p : Process) :
    (∀ (idx : Int) (cfg : ConfigMap) (g' : Graph) (st : Status),
      Event.stage (StageCall.EncapsulateClusters idx cfg) g' st ∈
          (NGraphEncapsulationPass.Run env ext options p).trace →
        cfg.lookup "ngraph_backend" = none ∧
        ∀ k : String, k ≠ "ngraph_backend" →
          cfg.lookup k =
            (ext.GetBackendAttributeValues ext.GetCurrentlySetBackendName.2).lookup k) ∧
    (∀ (skip : List String) (b : String) (g' : Graph) (st : Status),
      Event.stage (StageCall.MarkForClustering skip b) g' st ∈
          (NGraphEncapsulationPass.Run env ext options p).trace →
        (ext.GetBackendAttributeValues ext.GetCurrentlySetBackendName.2).lookup
          "ngraph_backend" = some b) ∧
    (∀ g : Graph, options.graph = some g → env.IsEnabled = true →
      (env.getenv "NGRAPH_TF_DISABLE").isSome = false →
      ext.IsProcessedByNgraphPass g = false →
      (NGraphEncapsulationPass.Run env ext options p).outcome = Outcome.returned Status.OK →
        (∃ (skip : List String) (b : String) (g' : Graph) (st : Status),
          Event.stage (StageCall.MarkForClustering skip b) g' st ∈
            (NGraphEncapsulationPass.Run env ext options p).trace) ∧
        (∃ (idx : Int) (cfg : ConfigMap) (g' : Graph) (st : Status),
          Event.stage (StageCall.EncapsulateClusters idx cfg) g' st ∈
            (NGraphEncapsulationPass.Run env ext options p).trace)) := by
  refine ⟨?_, ?_, ?_⟩
  · intro idx cfg g' st hmem
    have h := encapsulationRun_backendArgs env ext options p _ hmem
    have h' : cfg = (ext.GetBackendAttributeValues ext.GetCurrentlySetBackendName.2).erase
        "ngraph_backend" := h
    subst h'
    refine ⟨?_, ?_⟩
    · rw [lookup_erase, if_pos rfl]
    · intro k hk
      rw [lookup_erase, if_neg hk]
  · intro skip b g' st hmem
    exact encapsulationRun_backendArgs env ext options p _ hmem
  · intro g hg hen hdis hproc hout
    obtain ⟨og⟩ := options
    simp only at hg
    subst hg
    have hc : (!env.IsEnabled || (env.getenv "NGRAPH_TF_DISABLE").isSome ||
        ext.IsProcessedByNgraphPass g) = false := by
      simp [hen, hdis, hproc]
    have hd := (encapsulationRun_discipline env ext g p hc).2.2.2.2 hout
    have hnames := hd.2
    refine ⟨?_, ?_⟩
    · have hm : "MarkForClustering" ∈
          stageNames (NGraphEncapsulationPass.Run env ext ⟨some g⟩ p).trace := by
        rw [hnames]; decide
      obtain ⟨call, g', st, hmem, hname⟩ := exists_stage_of_mem_stageNames hm
      cases call with
      | MarkForClustering skip b => exact ⟨skip, b, g', st, hmem⟩
      | _ => simp [StageCall.name] at hname
    · have hm : "EncapsulateClusters" ∈
          stageNames (NGraphEncapsulationPass.Run env ext ⟨some g⟩ p).trace := by
        rw [hnames]; decide
      obtain ⟨call, g', st, hmem, hname⟩ := exists_stage_of_mem_stageNames hm
      cases call with
      | EncapsulateClusters idx cfg => exact ⟨idx, cfg, g', st, hmem⟩
      | _ => simp [StageCall.name] at hname

theorem reserved_backend_key_stripped_witness :
    Event.stage (StageCall.EncapsulateClusters 0 [("_ngraph_device_config", "0")])
        graphSix Status.OK ∈
      (NGraphEncapsulationPass.Run envPlain extPlain ⟨some graphSix⟩ procStart).trace ∧
    List.lookup "ngraph_backend" ([("_ngraph_device_config", "0")] : ConfigMap) = none ∧
    (extPlain.GetBackendAttributeValues extPlain.GetCurrentlySetBackendName.2).lookup
      "ngraph_backend" = some "CPU" :=
  ⟨by decide,
    ((reserved_backend_key_stripped envPlain extPlain ⟨some graphSix⟩ procStart).1 0
      [("_ngraph_device_config", "0")] graphSix Status.OK (by decide)).1,
    by decide⟩

/-! ## Auxiliary lemmas: graph dumps -/

theorem nonDump_append (a b : List Event) : nonDump (a ++ b) = nonDump a ++ nonDump b := by
  simp [nonDump, List.filter_append]

theorem nonDump_DumpGraphs (b : Bool) (idx : Int) (tag title : String) (g : Graph) :
    nonDump (DumpGraphs b idx tag title g) = [] := by
  cases b <;> rfl

theorem nonDump_step {t1 t2 : List Event} (h : nonDump t1 = nonDump t2) (mid : List Event)
    (b1 b2 : Bool) (idx : Int) (tag title : String) (g : Graph) :
    nonDump (t1 ++ mid ++ DumpGraphs b1 idx tag title g) =
      nonDump (t2 ++ mid ++ DumpGraphs b2 idx tag title g) := by
  rw [nonDump_append, nonDump_append, nonDump_append, nonDump_append, nonDump_DumpGraphs,
    nonDump_DumpGraphs, h]

theorem nonDump_step' {t1 t2 : List Event} (h : nonDump t1 = nonDump t2) (mid : List Event) :
    nonDump (t1 ++ mid) = nonDump (t2 ++ mid) := by
  rw [nonDump_append, nonDump_append, h]

theorem not_dumpToggle_disable : "NGRAPH_TF_DISABLE" ∉ dumpToggleVars := by decide

theorem not_dumpToggle_disable_deassign :
    "NGRAPH_TF_DISABLE_DEASSIGN_CLUSTERS" ∉ dumpToggleVars := by decide

theorem MaybeLogPlacement_env_congr {e1 e2 : Env} (h : EnvAgree e1 e2) (g : Graph)
    (gl : Globals) : MaybeLogPlacement e1 g gl = MaybeLogPlacement e2 g gl := by
  unfold MaybeLogPlacement
  rw [h.2.1]

theorem DeassignClusters_env_congr {e1 e2 : Env} (h : EnvAgree e1 e2) (g : Graph)
    (gl : Globals) : DeassignClusters e1 g gl = DeassignClusters e2 g gl := by
  unfold DeassignClusters
  simp only [h.2.2 _ not_dumpToggle_disable_deassign, MaybeLogPlacement_env_congr h]

theorem phase7_dumps (c : PhaseCtx) (env2 : Env) (gl : Globals) (g : Graph) (reg : Registry)
    (t1 t2 : List Event) (ht : nonDump t1 = nonDump t2) :
    SameButDumps (phase7 c gl g reg t1) (phase7 { c with env := env2 } gl g reg t2) := by
  unfold phase7
  simp only []
  split_ifs
  · exact ⟨rfl, rfl, rfl, nonDump_step' ht _⟩
  · exact ⟨rfl, rfl, rfl, nonDump_step ht _ _ _ _ _ _ _⟩

theorem phase6_dumps (c : PhaseCtx) (env2 : Env) (gl : Globals) (g : Graph) (reg : Registry)
    (t1 t2 : List Event) (ht : nonDump t1 = nonDump t2) :
    SameButDumps (phase6 c gl g reg t1) (phase6 { c with env := env2 } gl g reg t2) := by
  unfold phase6
  simp only []
  split_ifs
  · exact ⟨rfl, rfl, rfl, nonDump_step' ht _⟩
  · exact phase7_dumps c env2 gl _ _ _ _ (nonDump_step' ht _)

theorem phase5_dumps (c : PhaseCtx) (env2 : Env) (gl : Globals) (g : Graph) (reg : Registry)
    (t1 t2 : List Event) (ht : nonDump t1 = nonDump t2) :
    SameButDumps (phase5 c gl g reg t1) (phase5 { c with env := env2 } gl g reg t2) := by
  unfold phase5
  simp only []
  split_ifs
  · exact ⟨rfl, rfl, rfl, nonDump_step' ht _⟩
  · exact phase6_dumps c env2 gl _ _ _ _ (nonDump_step ht _ _ _ _ _ _ _)

theorem phase4_dumps (c : PhaseCtx) (env2 : Env) (gl : Globals) (g : Graph) (reg : Registry)
    (t1 t2 : List Event) (ht : nonDump t1 = nonDump t2) :
    SameButDumps (phase4 c gl g reg t1) (phase4 { c with env := env2 } gl g reg t2) := by
  unfold phase4
  simp only []
  split_ifs
  · exact ⟨rfl, rfl, rfl, nonDump_step' ht _⟩
  · exact phase5_dumps c env2 gl _ _ _ _ (nonDump_step ht _ _ _ _ _ _ _)

theorem phase3_dumps (c : PhaseCtx) (env2 : Env) (h : EnvAgree c.env env2) (g : Graph)
    (reg : Registry) (t1 t2 : List Event) (ht : nonDump t1 = nonDump t2) :
    SameButDumps (phase3 c g reg t1) (phase3 { c with env := env2 } g reg t2) := by
  unfold phase3
  simp only []
  rw [DeassignClusters_env_congr h]
  split_ifs
  · refine ⟨rfl, rfl, rfl, ?_⟩
    rw [List.append_assoc, List.append_assoc]
    exact nonDump_step' ht _
  · apply phase4_dumps
    rw [List.append_assoc t1, List.append_assoc t2]
    exact nonDump_step ht _ _ _ _ _ _ _

theorem phase2_dumps (c : PhaseCtx) (env2 : Env) (h : EnvAgree c.env env2) (g : Graph)
    (reg : Registry) (t1 t2 : List Event) (ht : nonDump t1 = nonDump t2) :
    SameButDumps (phase2 c g reg t1) (phase2 { c with env := env2 } g reg t2) := by
  unfold phase2
  simp only []
  split_ifs
  · exact ⟨rfl, rfl, rfl, nonDump_step' ht _⟩
  · exact phase3_dumps c env2 h _ _ _ _ (nonDump_step ht _ _ _ _ _ _ _)

theorem phase1_dumps (c : PhaseCtx) (env2 : Env) (h : EnvAgree c.env env2) (g : Graph)
    (reg : Registry) (t1 t2 : List Event) (ht : nonDump t1 = nonDump t2) :
    SameButDumps (phase1 c g reg t1) (phase1 { c with env := env2 } g reg t2) := by
  unfold phase1
  simp only []
  split_ifs
  · exact ⟨rfl, rfl, rfl, nonDump_step' ht _⟩
  · exact phase2_dumps c env2 h _ _ _ _ (nonDump_step ht _ _ _ _ _ _ _)

theorem phase0_dumps (c : PhaseCtx) (env2 : Env) (h : EnvAgree c.env env2) (g : Graph)
    (reg : Registry) (t1 t2 : List Event) (ht : nonDump t1 = nonDump t2) :
    SameButDumps (phase0 c g reg t1) (phase0 { c with env := env2 } g reg t2) := by
  unfold phase0
  simp only []
  split_ifs
  · exact ⟨rfl, rfl, rfl, nonDump_step' ht _⟩
  · exact phase1_dumps c env2 h _ _ _ _ (nonDump_step ht _ _ _ _ _ _ _)

theorem enabled_cond_congr {e1 e2 : Env} (h : EnvAgree e1 e2) (ext : Collaborators) (g : Graph) :
    (!e1.IsEnabled || (e1.getenv "NGRAPH_TF_DISABLE").isSome || ext.IsProcessedByNgraphPass g) =
      (!e2.IsEnabled || (e2.getenv "NGRAPH_TF_DISABLE").isSome ||
        ext.IsProcessedByNgraphPass g) := by
  rw [h.1, h.2.2 _ not_dumpToggle_disable]

theorem encapsulationRun_dumps (e1 e2 : Env) (h : EnvAgree e1 e2) (ext : Collaborators)
    (options : GraphOptimizationPassOptions) (p : Process) :
    SameButDumps (NGraphEncapsulationPass.Run e1 ext options p)
      (NGraphEncapsulationPass.Run e2 ext options p) := by
  obtain ⟨og⟩ := options
  cases og with
  | none => exact ⟨rfl, rfl, rfl, rfl⟩
  | some g =>
    have hcc := enabled_cond_congr h ext g
    cases hc : (!e1.IsEnabled || (e1.getenv "NGRAPH_TF_DISABLE").isSome ||
        ext.IsProcessedByNgraphPass g) with
    | true =>
      have hc2 := hc
      rw [hcc] at hc2
      unfold NGraphEncapsulationPass.Run
      simp only [hc, hc2, if_true]
      refine ⟨rfl, rfl, rfl, ?_⟩
      rw [nonDump_append, nonDump_append, nonDump_DumpGraphs, nonDump_DumpGraphs]
    | false =>
      have hc2 := hc
      rw [hcc] at hc2
      by_cases hb : ext.GetCurrentlySetBackendName.1 = Status.OK
      · cases hk : (ext.GetBackendAttributeValues ext.GetCurrentlySetBackendName.2).lookup
            "ngraph_backend" with
        | none =>
          unfold NGraphEncapsulationPass.Run
          simp only [hc, hc2, Bool.false_eq_true, if_false, hb, ne_eq, not_true_eq_false, hk]
          refine ⟨rfl, rfl, rfl, ?_⟩
          rw [nonDump_DumpGraphs, nonDump_DumpGraphs]
        | some backend_name =>
          rw [encapsulationRun_eq_phases e1 ext g p backend_name hc hb hk,
            encapsulationRun_eq_phases e2 ext g p backend_name hc2 hb hk]
          exact phase0_dumps (phaseCtx e1 ext p backend_name) e2 h g _ _ _
            (by rw [nonDump_DumpGraphs, nonDump_DumpGraphs])
      · unfold NGraphEncapsulationPass.Run
        simp only [hc, hc2, Bool.false_eq_true, if_false, hb, ne_eq, not_false_eq_true, if_true]
        refine ⟨rfl, rfl, rfl, ?_⟩
        rw [nonDump_DumpGraphs, nonDump_DumpGraphs]

theorem captureRun_dumps (e1 e2 : Env) (h : EnvAgree e1 e2) (ext : Collaborators)
    (options : GraphOptimizationPassOptions) (p : Process) :
    SameButDumps (NGraphVariableCapturePass.Run e1 ext options p)
      (NGraphVariableCapturePass.Run e2 ext options p) := by
  obtain ⟨og⟩ := options
  cases og with
  | none => exact ⟨rfl, rfl, rfl, rfl⟩
  | some g =>
    have hcc := enabled_cond_congr h ext g
    unfold NGraphVariableCapturePass.Run
    simp only [hcc]
    split_ifs
    · refine ⟨rfl, rfl, rfl, ?_⟩
      rw [nonDump_append, nonDump_append, nonDump_DumpGraphs, nonDump_DumpGraphs]
    · refine ⟨rfl, rfl, rfl, ?_⟩
      rw [nonDump_append, nonDump_append, nonDump_DumpGraphs, nonDump_DumpGraphs]
    · refine ⟨rfl, rfl, rfl, ?_⟩
      rw [nonDump_append, nonDump_append, nonDump_append, nonDump_append, nonDump_DumpGraphs,
        nonDump_DumpGraphs, nonDump_DumpGraphs, nonDump_DumpGraphs]

/-- C10: graph dumps only observe.  Two runs of either pass whose environments
differ at most in the graph-dump variables return the same status, leave the
same graph and the same process state, and perform the same events other than
dumps: the same stage calls with the same arguments on the same graphs with
the same results. -/
theorem dump_toggles_are_observational (e1 e2 : Env) (ext : Collaborators)
    (options : GraphOptimizationPassOptions) (p : Process)
    (hen : e1.IsEnabled = e2.IsEnabled) (hlog : e1.IsLoggingPlacement = e2.IsLoggingPlacement)
    (hvars : ∀ v : String, v ∉ dumpToggleVars → e1.getenv v = e2.getenv v) :
    ((NGraphEncapsulationPass.Run e1 ext options p).outcome =
        (NGraphEncapsulationPass.Run e2 ext options p).outcome ∧
      (NGraphEncapsulationPass.Run e1 ext options p).graph =
        (NGraphEncapsulationPass.Run e2 ext options p).graph ∧
      (NGraphEncapsulationPass.Run e1 ext options p).proc =
        (NGraphEncapsulationPass.Run e2 ext options p).proc ∧
      (NGraphEncapsulationPass.Run e1 ext options p).trace.filter (fun e => !e.isDump) =
        (NGraphEncapsulationPass.Run e2 ext options p).trace.filter (fun e => !e.isDump)) ∧
    ((NGraphVariableCapturePass.Run e1 ext options p).outcome =
        (NGraphVariableCapturePass.Run e2 ext options p).outcome ∧
      (NGraphVariableCapturePass.Run e1 ext options p).graph =
        (NGraphVariableCapturePass.Run e2 ext options p).graph ∧
      (NGraphVariableCapturePass.Run e1 ext options p).proc =
        (NGraphVariableCapturePass.Run e2 ext options p).proc ∧
      (NGraphVariableCapturePass.Run e1 ext options p).trace.filter (fun e => !e.isDump) =
        (NGraphVariableCapturePass.Run e2 ext options p).trace.filter (fun e => !e.isDump)) :=
  ⟨encapsulationRun_dumps e1 e2 ⟨hen, hlog, hvars⟩ ext options p,
    captureRun_dumps e1 e2 ⟨hen, hlog, hvars⟩ ext options p⟩

theorem dump_toggles_are_observational_witness :
    envPlain.IsEnabled = envDumpAll.IsEnabled ∧
    envPlain.IsLoggingPlacement = envDumpAll.IsLoggingPlacement ∧
    (∀ v : String, v ∉ dumpToggleVars → envPlain.getenv v = envDumpAll.getenv v) ∧
    (NGraphEncapsulationPass.Run envPlain extPlain ⟨some graphFive⟩ procStart).graph =
      (NGraphEncapsulationPass.Run envDumpAll extPlain ⟨some graphFive⟩ procStart).graph ∧
    (NGraphEncapsulationPass.Run envPlain extPlain ⟨some graphFive⟩ procStart).trace ≠
      (NGraphEncapsulationPass.Run envDumpAll extPlain ⟨some graphFive⟩ procStart).trace :=
  have hv : ∀ v : String, v ∉ dumpToggleVars → envPlain.getenv v = envDumpAll.getenv v := by
    intro v hv
    have : v ≠ "NGRAPH_TF_DUMP_GRAPHS" := by
      intro h; apply hv; rw [h]; decide
    simp [envPlain, envDumpAll, this]
  ⟨rfl, rfl, hv,
    (dump_toggles_are_observational envPlain envDumpAll extPlain ⟨some graphFive⟩ procStart
      rfl rfl hv).1.2.1,
    by decide⟩


/-! ## Auxiliary lemmas: the serial counter -/

theorem freshIndexCalls_eq (n : Nat) (p : Process) (c : Nat)
    (hc : p.s_serial_counter = (c : Int)) (hn : c + n < 2147483648) :
    (freshIndexCalls n p).1 = (List.range n).map (fun k => ((c + k : Nat) : Int)) := by
  induction n generalizing p c with
  | zero => rfl
  | succ n ih =>
    unfold freshIndexCalls
    have h1 : (FreshIndex p).1 = (c : Int) := by
      unfold FreshIndex; exact hc
    have h2 : (FreshIndex p).2.s_serial_counter = ((c + 1 : Nat) : Int) := by
      show wrapInt32 (p.s_serial_counter + 1) = ((c + 1 : Nat) : Int)
      rw [hc, wrapInt32_of_range (by omega) (by omega)]
      push_cast; rfl
    simp only []
    rw [h1, ih (FreshIndex p).2 (c + 1) h2 (by omega), List.range_succ_eq_map, List.map_cons,
      List.map_map]
    congr 1
    apply List.map_congr_left
    intro k _
    simp only [Function.comp, Nat.succ_eq_add_one]
    congr 1
    omega

theorem phase7_counter (c : PhaseCtx) (gl : Globals) (g : Graph) (reg : Registry)
    (t : List Event) :
    (phase7 c gl g reg t).proc.s_serial_counter = c.p1.s_serial_counter := by
  unfold phase7; split_ifs <;> rfl

theorem phase6_counter (c : PhaseCtx) (gl : Globals) (g : Graph) (reg : Registry)
    (t : List Event) :
    (phase6 c gl g reg t).proc.s_serial_counter = c.p1.s_serial_counter := by
  unfold phase6; split_ifs
  · rfl
  · exact phase7_counter _ _ _ _ _

theorem phase5_counter (c : PhaseCtx) (gl : Globals) (g : Graph) (reg : Registry)
    (t : List Event) :
    (phase5 c gl g reg t).proc.s_serial_counter = c.p1.s_serial_counter := by
  unfold phase5; split_ifs
  · rfl
  · exact phase6_counter _ _ _ _ _

theorem phase4_counter (c : PhaseCtx) (gl : Globals) (g : Graph) (reg : Registry)
    (t : List Event) :
    (phase4 c gl g reg t).proc.s_serial_counter = c.p1.s_serial_counter := by
  unfold phase4; split_ifs
  · rfl
  · exact phase5_counter _ _ _ _ _

theorem phase3_counter (c : PhaseCtx) (g : Graph) (reg : Registry) (t : List Event) :
    (phase3 c g reg t).proc.s_serial_counter = c.p1.s_serial_counter := by
  unfold phase3; split_ifs
  · rfl
  · exact phase4_counter _ _ _ _ _

theorem phase2_counter (c : PhaseCtx) (g : Graph) (reg : Registry) (t : List Event) :
    (phase2 c g reg t).proc.s_serial_counter = c.p1.s_serial_counter := by
  unfold phase2; split_ifs
  · rfl
  · exact phase3_counter _ _ _ _

theorem phase1_counter (c : PhaseCtx) (g : Graph) (reg : Registry) (t : List Event) :
    (phase1 c g reg t).proc.s_serial_counter = c.p1.s_serial_counter := by
  unfold phase1; split_ifs
  · rfl
  · exact phase2_counter _ _ _ _

theorem phase0_counter (c : PhaseCtx) (g : Graph) (reg : Registry) (t : List Event) :
    (phase0 c g reg t).proc.s_serial_counter = c.p1.s_serial_counter := by
  unfold phase0; split_ifs
  · rfl
  · exact phase1_counter _ _ _ _

theorem encapsulationRun_counter (env : Env) (ext : Collaborators) (g : Graph) (p : Process) :
    (NGraphEncapsulationPass.Run env ext ⟨some g⟩ p).proc.s_serial_counter =
      (FreshIndex p).2.s_serial_counter := by
  cases hc : (!env.IsEnabled || (env.getenv "NGRAPH_TF_DISABLE").isSome ||
      ext.IsProcessedByNgraphPass g) with
  | true =>
    unfold NGraphEncapsulationPass.Run
    simp only [hc, if_true]
  | false =>
    by_cases hb : ext.GetCurrentlySetBackendName.1 = Status.OK
    · cases hk : (ext.GetBackendAttributeValues ext.GetCurrentlySetBackendName.2).lookup
          "ngraph_backend" with
      | none =>
        unfold NGraphEncapsulationPass.Run
        simp only [hc, Bool.false_eq_true, if_false, hb, ne_eq, not_true_eq_false, hk]
      | some backend_name =>
        rw [encapsulationRun_eq_phases env ext g p backend_name hc hb hk]
        exact phase0_counter _ _ _ _
    · unfold NGraphEncapsulationPass.Run
      simp only [hc, Bool.false_eq_true, if_false, hb, ne_eq, not_false_eq_true, if_true]

theorem captureRun_counter (env : Env) (ext : Collaborators) (g : Graph) (p : Process) :
    (NGraphVariableCapturePass.Run env ext ⟨some g⟩ p).proc.s_serial_counter =
      (FreshIndex p).2.s_serial_counter := by
  unfold NGraphVariableCapturePass.Run
  simp only []
  split_ifs <;> rfl

theorem passCall_counter (c : PassCall) (p : Process) :
    (c.run p).proc.s_serial_counter = (FreshIndex p).2.s_serial_counter := by
  cases c with
  | capture env ext g => exact captureRun_counter env ext g p
  | encapsulation env ext g => exact encapsulationRun_counter env ext g p

theorem traceUsesIdx_append {idx : Int} {a b : List Event} (ha : TraceUsesIdx idx a)
    (hb : TraceUsesIdx idx b) : TraceUsesIdx idx (a ++ b) := by
  intro e he
  rcases List.mem_append.1 he with h | h
  · exact ha e h
  · exact hb e h

theorem traceUsesIdx_DumpGraphs (b : Bool) (idx : Int) (tag title : String) (g : Graph) :
    TraceUsesIdx idx (DumpGraphs b idx tag title g) := by
  intro e he
  cases b with
  | false => cases he
  | true =>
    rw [DumpGraphs, if_pos rfl, List.mem_singleton] at he
    subst he
    intro i hi
    exact (Option.some.inj hi).symm

theorem traceUsesIdx_summaryEvents (idx : Int) (log : Option PlacementSummary) :
    TraceUsesIdx idx (summaryEvents log) := by
  intro e he
  cases log with
  | none => cases he
  | some s =>
    rw [summaryEvents, List.mem_singleton] at he
    subst he
    intro i hi
    cases hi

theorem traceUsesIdx_event {idx : Int} {ev : Event}
    (h : ev.idx? = none ∨ ev.idx? = some idx) : TraceUsesIdx idx [ev] := by
  intro e he i hi
  rw [List.mem_singleton.1 he] at hi
  rcases h with h | h
  · rw [h] at hi; cases hi
  · rw [h] at hi; exact (Option.some.inj hi).symm

theorem traceUsesIdx_step {idx : Int} {t : List Event} (ht : TraceUsesIdx idx t) (ev : Event)
    (h : ev.idx? = none ∨ ev.idx? = some idx) : TraceUsesIdx idx (t ++ [ev]) :=
  traceUsesIdx_append ht (traceUsesIdx_event h)

theorem traceUsesIdx_step_dump {idx : Int} {t : List Event} (ht : TraceUsesIdx idx t)
    (ev : Event) (h : ev.idx? = none ∨ ev.idx? = some idx) (b : Bool) (tag title : String)
    (g : Graph) : TraceUsesIdx idx (t ++ [ev] ++ DumpGraphs b idx tag title g) :=
  traceUsesIdx_append (traceUsesIdx_step ht ev h) (traceUsesIdx_DumpGraphs b idx tag title g)

theorem phase7_idx (c : PhaseCtx) (gl : Globals) (g : Graph) (reg : Registry) (t : List Event)
    (ht : TraceUsesIdx c.idx t) : TraceUsesIdx c.idx (phase7 c gl g reg t).trace := by
  unfold phase7
  split_ifs
  · exact traceUsesIdx_step ht _ (by exact Or.inl rfl)
  · exact traceUsesIdx_step_dump ht _ (by exact Or.inl rfl) _ _ _ _

theorem phase6_idx (c : PhaseCtx) (gl : Globals) (g : Graph) (reg : Registry) (t : List Event)
    (ht : TraceUsesIdx c.idx t) : TraceUsesIdx c.idx (phase6 c gl g reg t).trace := by
  unfold phase6
  split_ifs
  · exact traceUsesIdx_step ht _ (by exact Or.inr rfl)
  · exact phase7_idx c _ _ _ _
      (traceUsesIdx_step ht _ (by exact Or.inr rfl))

theorem phase5_idx (c : PhaseCtx) (gl : Globals) (g : Graph) (reg : Registry) (t : List Event)
    (ht : TraceUsesIdx c.idx t) : TraceUsesIdx c.idx (phase5 c gl g reg t).trace := by
  unfold phase5
  split_ifs
  · exact traceUsesIdx_step ht _ (by exact Or.inr rfl)
  · exact phase6_idx c _ _ _ _
      (traceUsesIdx_step_dump ht _ (by exact Or.inr rfl) _ _ _ _)

theorem phase4_idx (c : PhaseCtx) (gl : Globals) (g : Graph) (reg : Registry) (t : List Event)
    (ht : TraceUsesIdx c.idx t) : TraceUsesIdx c.idx (phase4 c gl g reg t).trace := by
  unfold phase4
  split_ifs
  · exact traceUsesIdx_step ht _ (by exact Or.inr rfl)
  · exact phase5_idx c _ _ _ _
      (traceUsesIdx_step_dump ht _ (by exact Or.inr rfl) _ _ _ _)

theorem phase3_idx (c : PhaseCtx) (g : Graph) (reg : Registry) (t : List Event)
    (ht : TraceUsesIdx c.idx t) : TraceUsesIdx c.idx (phase3 c g reg t).trace := by
  unfold phase3
  split_ifs
  · exact traceUsesIdx_step (traceUsesIdx_append ht (traceUsesIdx_summaryEvents _ _)) _
      (by exact Or.inl rfl)
  · exact phase4_idx c _ _ _ _
      (traceUsesIdx_step_dump (traceUsesIdx_append ht (traceUsesIdx_summaryEvents _ _)) _
        (by exact Or.inl rfl) _ _ _ _)

theorem phase2_idx (c : PhaseCtx) (g : Graph) (reg : Registry) (t : List Event)
    (ht : TraceUsesIdx c.idx t) : TraceUsesIdx c.idx (phase2 c g reg t).trace := by
  unfold phase2
  split_ifs
  · exact traceUsesIdx_step ht _ (by exact Or.inl rfl)
  · exact phase3_idx c _ _ _
      (traceUsesIdx_step_dump ht _ (by exact Or.inl rfl) _ _ _ _)

theorem phase1_idx (c : PhaseCtx) (g : Graph) (reg : Registry) (t : List Event)
    (ht : TraceUsesIdx c.idx t) : TraceUsesIdx c.idx (phase1 c g reg t).trace := by
  unfold phase1
  split_ifs
  · exact traceUsesIdx_step ht _ (by exact Or.inl rfl)
  · exact phase2_idx c _ _ _
      (traceUsesIdx_step_dump ht _ (by exact Or.inl rfl) _ _ _ _)

theorem phase0_idx (c : PhaseCtx) (g : Graph) (reg : Registry) (t : List Event)
    (ht : TraceUsesIdx c.idx t) : TraceUsesIdx c.idx (phase0 c g reg t).trace := by
  unfold phase0
  split_ifs
  · exact traceUsesIdx_step ht _ (by exact Or.inr rfl)
  · exact phase1_idx c _ _ _
      (traceUsesIdx_step_dump ht _ (by exact Or.inr rfl) _ _ _ _)

theorem encapsulationRun_idx (env : Env) (ext : Collaborators) (g : Graph) (p : Process) :
    TraceUsesIdx p.s_serial_counter (NGraphEncapsulationPass.Run env ext ⟨some g⟩ p).trace := by
  have hd : ∀ (b : Bool) (tag title : String) (g' : Graph),
      TraceUsesIdx p.s_serial_counter (DumpGraphs b (FreshIndex p).1 tag title g') :=
    fun b tag title g' => traceUsesIdx_DumpGraphs b _ tag title g'
  cases hc : (!env.IsEnabled || (env.getenv "NGRAPH_TF_DISABLE").isSome ||
      ext.IsProcessedByNgraphPass g) with
  | true =>
    unfold NGraphEncapsulationPass.Run
    simp only [hc, if_true]
    exact traceUsesIdx_append (hd _ _ _ _)
      (traceUsesIdx_event (Or.inl rfl))
  | false =>
    by_cases hb : ext.GetCurrentlySetBackendName.1 = Status.OK
    · cases hk : (ext.GetBackendAttributeValues ext.GetCurrentlySetBackendName.2).lookup
          "ngraph_backend" with
      | none =>
        unfold NGraphEncapsulationPass.Run
        simp only [hc, Bool.false_eq_true, if_false, hb, ne_eq, not_true_eq_false, hk]
        exact hd _ _ _ _
      | some backend_name =>
        rw [encapsulationRun_eq_phases env ext g p backend_name hc hb hk]
        exact phase0_idx (phaseCtx env ext p backend_name) g _ _ (hd _ _ _ _)
    · unfold NGraphEncapsulationPass.Run
      simp only [hc, Bool.false_eq_true, if_false, hb, ne_eq, not_false_eq_true, if_true]
      exact hd _ _ _ _

theorem captureRun_idx (env : Env) (ext : Collaborators) (g : Graph) (p : Process) :
    TraceUsesIdx p.s_serial_counter (NGraphVariableCapturePass.Run env ext ⟨some g⟩ p).trace := by
  have hd : ∀ (b : Bool) (tag title : String) (g' : Graph),
      TraceUsesIdx p.s_serial_counter (DumpGraphs b (FreshIndex p).1 tag title g') :=
    fun b tag title g' => traceUsesIdx_DumpGraphs b _ tag title g'
  unfold NGraphVariableCapturePass.Run
  simp only []
  split_ifs
  · exact traceUsesIdx_append (hd _ _ _ _) (traceUsesIdx_event (Or.inl rfl))
  · exact traceUsesIdx_append (hd _ _ _ _) (traceUsesIdx_event (Or.inl rfl))
  · exact traceUsesIdx_append
      (traceUsesIdx_append (hd _ _ _ _) (traceUsesIdx_event (Or.inl rfl))) (hd _ _ _ _)

theorem passCall_idx (c : PassCall) (p : Process) :
    TraceUsesIdx p.s_serial_counter (c.run p).trace := by
  cases c with
  | capture env ext g => exact captureRun_idx env ext g p
  | encapsulation env ext g => exact encapsulationRun_idx env ext g p

theorem runPasses_counters (cs : List PassCall) (p : Process) (c : Nat)
    (hc : p.s_serial_counter = (c : Int)) (hn : c + cs.length < 2147483648) :
    ∀ (j : Nat) (R : RunResult), (runPasses cs p)[j]? = some R →
      R.proc.s_serial_counter = ((c + j + 1 : Nat) : Int) ∧
        TraceUsesIdx ((c + j : Nat) : Int) R.trace := by
  induction cs generalizing p c with
  | nil => intro j R h; simp [runPasses] at h
  | cons a cs ih =>
    simp only [List.length_cons] at hn
    have h1 : (a.run p).proc.s_serial_counter = ((c + 1 : Nat) : Int) := by
      rw [passCall_counter]
      show wrapInt32 (p.s_serial_counter + 1) = ((c + 1 : Nat) : Int)
      rw [hc, wrapInt32_of_range (by omega) (by omega)]
      push_cast; rfl
    intro j R h
    unfold runPasses at h
    cases j with
    | zero =>
      simp only [List.getElem?_cons_zero, Option.some.injEq] at h
      subst h
      refine ⟨h1, ?_⟩
      have := passCall_idx a p
      rw [hc] at this
      exact this
    | succ j =>
      simp only [List.getElem?_cons_succ] at h
      have := ih (a.run p).proc (c + 1) h1 (by omega) j R h
      have e1 : c + 1 + j + 1 = c + (j + 1) + 1 := by omega
      have e2 : c + 1 + j = c + (j + 1) := by omega
      rw [e1, e2] at this
      exact this

/-! ## The serial counter: claim -/

/-- C11: from a counter at its initial value `0`, the `k`-th of fewer than
`2^31` calls of `FreshIndex` returns `k - 1`, so later calls return strictly
larger values and no value is returned twice.  A run of either pass on a
non-null graph moves the counter exactly as one `FreshIndex` call does, on
every path (no-op, error, exception or full pipeline), and every serial number
in its events is the value that call returned; so in a sequence of runs of
either pass the `j`-th run (counted from `0`) works with index `j` and leaves
the counter at `j + 1`. -/
theorem fresh_index_is_serial (p : Process) (n : Nat) (cs : List PassCall)
    (h0 : p.s_serial_counter = 0) (hn : n < 2147483648) (hcs : cs.length < 2147483648) :
    (freshIndexCalls n p).1 = (List.range n).map (fun k : Nat => (k : Int)) ∧
    (∀ (i j : Nat) (a b : Int), i < j → (freshIndexCalls n p).1[i]? = some a →
      (freshIndexCalls n p).1[j]? = some b → a < b) ∧
    (freshIndexCalls n p).1.Nodup ∧
    (∀ (env : Env) (ext : Collaborators) (g : Graph) (q : Process),
      (NGraphEncapsulationPass.Run env ext ⟨some g⟩ q).proc.s_serial_counter =
          (FreshIndex q).2.s_serial_counter ∧
        (NGraphVariableCapturePass.Run env ext ⟨some g⟩ q).proc.s_serial_counter =
          (FreshIndex q).2.s_serial_counter ∧
        (∀ e ∈ (NGraphEncapsulationPass.Run env ext ⟨some g⟩ q).trace, ∀ i : Int,
          e.idx? = some i → i = (FreshIndex q).1) ∧
        (∀ e ∈ (NGraphVariableCapturePass.Run env ext ⟨some g⟩ q).trace, ∀ i : Int,
          e.idx? = some i → i = (FreshIndex q).1)) ∧
    (∀ (j : Nat) (R : RunResult), (runPasses cs p)[j]? = some R →
      R.proc.s_serial_counter = (j : Int) + 1 ∧
        ∀ e ∈ R.trace, ∀ i : Int, e.idx? = some i → i = (j : Int)) := by
  have heq : (freshIndexCalls n p).1 = (List.range n).map (fun k : Nat => (k : Int)) := by
    rw [freshIndexCalls_eq n p 0 (by rw [h0]; rfl) (by omega)]
    apply List.map_congr_left
    intro k _
    simp
  refine ⟨heq, ?_, ?_, ?_, ?_⟩
  · intro i j a b hij ha hb
    rw [heq, List.getElem?_map] at ha hb
    cases hi : (List.range n)[i]? with
    | none => rw [hi] at ha; cases ha
    | some x =>
      cases hj : (List.range n)[j]? with
      | none => rw [hj] at hb; cases hb
      | some y =>
        rw [hi] at ha; rw [hj] at hb
        simp only [Option.map_some', Option.some.injEq] at ha hb
        have hx := (List.getElem?_eq_some.1 hi).2
        have hy := (List.getElem?_eq_some.1 hj).2
        rw [List.getElem_range] at hx hy
        omega
  · rw [heq]
    exact (List.nodup_range n).map Nat.cast_injective
  · intro env ext g q
    exact ⟨encapsulationRun_counter env ext g q, captureRun_counter env ext g q,
      encapsulationRun_idx env ext g q, captureRun_idx env ext g q⟩
  · intro j R hR
    have h := runPasses_counters cs p 0 (by rw [h0]; rfl) (by omega) j R hR
    simp only [Nat.zero_add] at h
    refine ⟨?_, h.2⟩
    rw [h.1]
    push_cast
    rfl

theorem fresh_index_is_serial_witness :
    procStart.s_serial_counter = 0 ∧ 3 < 2147483648 ∧
    [PassCall.capture envDisabled extPlain graphSix,
      PassCall.encapsulation envPlain extPlain graphSix].length < 2147483648 ∧
    (freshIndexCalls 3 procStart).1 = (List.range 3).map (fun k : Nat => (k : Int)) :=
  ⟨rfl, by decide, by decide,
    (fresh_index_is_serial procStart 3
      [PassCall.capture envDisabled extPlain graphSix,
        PassCall.encapsulation envPlain extPlain graphSix] rfl (by decide) (by decide)).1⟩

/-! ## The pruner: the threshold of the header comment -/

/-- C12 (the claim fails on the code): the threshold of the pass is
`MIN_NONTRIVIAL_NODES = 6`, not the two of the header comment.  The cluster of
`graphTwo` holds two nodes, `Add` and `Mul`, neither `Const` nor `Identity`,
and the pass deassigns it: no node carries a cluster afterwards. -/
theorem two_nontrivial_nodes_are_deassigned :
    (graphTwo.nodes.filter (fun n =>
      inCluster 1 n && !(n.type_string == "Const") && !(n.type_string == "Identity"))).length = 2 ∧
    (envPlain.getenv "NGRAPH_TF_DISABLE_DEASSIGN_CLUSTERS").isSome = false ∧
    (DeassignClusters envPlain graphTwo glStale).graph.nodes.all
      (fun n => (GetNodeCluster n).isNone) = true ∧
    (DeassignClusters envPlain graphTwo glStale).globals.deassigned_histogram =
      [("Add", 1), ("Mul", 1)] := by
  decide

theorem nonTrivialCount_eq_of_no_identity (g : Graph) (c : Int)
    (hid : ∀ n ∈ g.nodes, GetNodeCluster n = some c →
      n.type_string ≠ "Identity" ∧ n.type_string ≠ "Identitiy") :
    nonTrivialCount g c =
      (g.nodes.filter (fun n =>
        inCluster c n && !(n.type_string == "Const") && !(n.type_string == "Identity"))).length := by
  unfold nonTrivialCount
  congr 1
  apply List.filter_congr
  intro n hn
  by_cases hc : GetNodeCluster n = some c
  · obtain ⟨h1, h2⟩ := hid n hn hc
    have e1 : inCluster c n = true := by simp [inCluster, hc]
    have e2 : (n.type_string == "Identity") = false := by
      rw [beq_eq_false_iff_ne]; exact h1
    have e3 : (n.type_string == "Identitiy") = false := by
      rw [beq_eq_false_iff_ne]; exact h2
    rw [e1, e2]
    unfold isTrivial trivial_ops
    simp only [List.contains_cons, List.contains_nil, e3, Bool.or_false, Bool.true_and,
      Bool.not_false, Bool.and_true]
  · have e1 : inCluster c n = false := by simp [inCluster, hc]
    rw [e1]
    simp

/-- C12, amended: on the main path a cluster with a member and without a
member of kind `Identity` (or of the misspelt kind `Identitiy`) is deassigned
exactly when it does not contain at least `MIN_NONTRIVIAL_NODES = 6` non-trivial
ops, a trivial op being `Const` or `Identity`; with six or more such nodes
every member keeps its cluster assignment and all its attributes. -/
theorem deassigned_iff_fewer_than_six (env : Env) (g : Graph) (gl : Globals) (c : Int)
    (hby : (env.getenv "NGRAPH_TF_DISABLE_DEASSIGN_CLUSTERS").isSome = false)
    (hb : g.nodes.length < 2147483648)
    (hne : ∃ n ∈ g.nodes, GetNodeCluster n = some c)
    (hid : ∀ n ∈ g.nodes, GetNodeCluster n = some c →
      n.type_string ≠ "Identity" ∧ n.type_string ≠ "Identitiy") :
    ((∀ (i : Nat) (n : Node), g.nodes[i]? = some n → GetNodeCluster n = some c →
        ∃ m : Node, (DeassignClusters env g gl).graph.nodes[i]? = some m ∧ m.deassigned) ↔
      ¬ 6 ≤ (g.nodes.filter (fun n =>
        inCluster c n && !(n.type_string == "Const") && !(n.type_string == "Identity"))).length) ∧
    (6 ≤ (g.nodes.filter (fun n =>
        inCluster c n && !(n.type_string == "Const") && !(n.type_string == "Identity"))).length →
      ∀ (i : Nat) (n : Node), g.nodes[i]? = some n → GetNodeCluster n = some c →
        (DeassignClusters env g gl).graph.nodes[i]? = some n ∧
          ∃ m : Node, (DeassignClusters env g gl).graph.nodes[i]? = some m ∧
            GetNodeCluster m = some c) := by
  rw [← nonTrivialCount_eq_of_no_identity g c hid]
  have hlt_iff : ((nonTrivialCount g c : Int) < MIN_NONTRIVIAL_NODES) ↔
      ¬ 6 ≤ nonTrivialCount g c := by
    unfold MIN_NONTRIVIAL_NODES; omega
  have hkeep : 6 ≤ nonTrivialCount g c →
      ∀ (i : Nat) (n : Node), g.nodes[i]? = some n → GetNodeCluster n = some c →
        (DeassignClusters env g gl).graph.nodes[i]? = some n := by
    intro hge i n hn hc
    have hnot : ¬ (nonTrivialCount g c : Int) < MIN_NONTRIVIAL_NODES := fun h =>
      (hlt_iff.1 h) hge
    rw [DeassignClusters_getElem? env g gl hby hb i n hn, discards_of_cluster g hc]
    simp [hnot]
  refine ⟨⟨?_, ?_⟩, ?_⟩
  · intro hall hge
    obtain ⟨n, hmem, hc⟩ := hne
    obtain ⟨i, hi⟩ := List.getElem?_of_mem hmem
    obtain ⟨m, hm, hd⟩ := hall i n hi hc
    rw [hkeep hge i n hi hc] at hm
    cases hm
    exact not_deassigned_of_cluster hc hd
  · intro hlt i n hn hc
    refine ⟨clearBoth n, ?_, clearBoth_deassigned n⟩
    rw [DeassignClusters_getElem? env g gl hby hb i n hn, discards_of_cluster g hc]
    simp [hlt_iff.2 hlt]
  · intro hge i n hn hc
    exact ⟨hkeep hge i n hn hc, n, hkeep hge i n hn hc, hc⟩

theorem deassigned_iff_fewer_than_six_witness :
    (envPlain.getenv "NGRAPH_TF_DISABLE_DEASSIGN_CLUSTERS").isSome = false ∧
    graphSix.nodes.length < 2147483648 ∧
    (∃ n ∈ graphSix.nodes, GetNodeCluster n = some 1) ∧
    (∀ n ∈ graphSix.nodes, GetNodeCluster n = some 1 →
      n.type_string ≠ "Identity" ∧ n.type_string ≠ "Identitiy") ∧
    6 ≤ (graphSix.nodes.filter (fun n =>
      inCluster 1 n && !(n.type_string == "Const") && !(n.type_string == "Identity"))).length ∧
    (DeassignClusters envPlain graphSix glStale).graph.nodes[0]? =
      some (mkNode "a" "Add" (some 1)) :=
  ⟨by decide, by decide, by decide, by decide, by decide,
    ((deassigned_iff_fewer_than_six envPlain graphSix glStale 1 (by decide) (by decide)
      (by decide) (by decide)).2 (by decide) 0 (mkNode "a" "Add" (some 1)) (by decide)
      (by decide)).1⟩

/-! ## `ValuesFromConstNode`: claims -/

/-- C13: for a node whose op is not `Const`, and for a `Const` node whose
`dtype` attribute is present with a type other than the element type `T`,
`ValuesFromConstNode` returns `InvalidArgument` and leaves the output shape and
the output vector as they were. -/
theorem non_const_or_wrong_dtype_rejected {α : Type} (T : ElemType α) (node : NodeDef)
    (shape0 : TensorShapeProto) (values0 : List α)
    (h : node.op ≠ "Const" ∨
      ∃ a : NodeDefAttr, node.attr.lookup "dtype" = some a ∧ a.getType ≠ T.dtype) :
    (∃ msg : String, (ValuesFromConstNode T node shape0 values0).outcome =
      CallEnd.returned (Status.Error "INVALID_ARGUMENT" msg)) ∧
    (ValuesFromConstNode T node shape0 values0).const_tensor_shape = shape0 ∧
    (ValuesFromConstNode T node shape0 values0).values = values0 := by
  unfold ValuesFromConstNode
  by_cases hop : node.op = "Const"
  · rcases h with h | ⟨a, ha, hne⟩
    · exact absurd hop h
    · simp only [hop, ne_eq, not_true_eq_false, if_false, ha, hne, not_false_eq_true, if_true]
      exact ⟨⟨_, rfl⟩, trivial, trivial⟩
  · simp only [ne_eq, hop, not_false_eq_true, if_true]
    exact ⟨⟨_, rfl⟩, trivial, trivial⟩

theorem non_const_or_wrong_dtype_rejected_witness :
    (constFloat.op ≠ "Const" ∨
      ∃ a : NodeDefAttr, constFloat.attr.lookup "dtype" = some a ∧
        a.getType ≠ int32Elem.dtype) ∧
    (addNode.op ≠ "Const" ∨
      ∃ a : NodeDefAttr, addNode.attr.lookup "dtype" = some a ∧ a.getType ≠ int32Elem.dtype) ∧
    (ValuesFromConstNode int32Elem constFloat ⟨[5], false⟩ [3]).values = [3] ∧
    (ValuesFromConstNode int32Elem addNode ⟨[5], false⟩ [3]).const_tensor_shape = ⟨[5], false⟩ :=
  ⟨Or.inr ⟨NodeDefAttr.type DataType.DT_FLOAT, by decide, by decide⟩, Or.inl (by decide),
    (non_const_or_wrong_dtype_rejected int32Elem constFloat ⟨[5], false⟩ [3]
      (Or.inr ⟨NodeDefAttr.type DataType.DT_FLOAT, by decide, by decide⟩)).2.2,
    (non_const_or_wrong_dtype_rejected int32Elem addNode ⟨[5], false⟩ [3]
      (Or.inl (by decide))).2.1⟩

/-- C14 (the code departs from it): when the typed field of the tensor is not
empty and the shape is `[n]` with `n` values, the values are appended to the
output vector (source lines 64-72) instead of replacing its content, as the
two other paths do with `resize`.  On the `Const` node `constVec` with values
`7, 8` both calls return OK, but a vector that held `1` ends as `1, 7, 8` and
an empty one as `7, 8`. -/
theorem values_appended_on_fast_path :
    (ValuesFromConstNode int32Elem constVec TensorShapeProto.empty [1]).outcome =
      CallEnd.returned Status.OK ∧
    (ValuesFromConstNode int32Elem constVec TensorShapeProto.empty []).outcome =
      CallEnd.returned Status.OK ∧
    (ValuesFromConstNode int32Elem constVec TensorShapeProto.empty [1]).values = [1, 7, 8] ∧
    (ValuesFromConstNode int32Elem constVec TensorShapeProto.empty []).values = [7, 8] ∧
    (ValuesFromConstNode int32Elem constVec TensorShapeProto.empty [1]).values ≠
      (ValuesFromConstNode int32Elem constVec TensorShapeProto.empty []).values := by
  decide

/-! ## Auxiliary lemmas: the placement summary -/

theorem scanPlacement_counts (nodes : List Node) (pos : Nat) (total marked assigned : Int)
    (m : ClusterMap) (h0 : 0 ≤ total) (h1 : 0 ≤ assigned)
    (hb0 : total + nodes.length < 2147483648) (hb1 : assigned + nodes.length < 2147483648) :
    (scanPlacement nodes pos (total, marked, assigned, m)).1 = total + (nodes.length : Int) ∧
    (scanPlacement nodes pos (total, marked, assigned, m)).2.2.1 =
      assigned + ((nodes.filter hasCluster).length : Int) := by
  induction nodes generalizing pos total marked assigned m with
  | nil => simp [scanPlacement]
  | cons n rest ih =>
    simp only [List.length_cons, Nat.cast_add, Nat.cast_one] at hb0 hb1
    have hlen : ((rest.filter hasCluster).length : Int) ≤ (rest.length : Int) := by
      exact_mod_cast List.length_filter_le _ _
    unfold scanPlacement
    cases hc : GetNodeCluster n with
    | none =>
      have hh : hasCluster n = false := by simp [hasCluster, hc]
      simp only []
      rw [@wrapInt32_of_range (total + 1) (by omega) (by omega)]
      obtain ⟨a, b⟩ := ih (pos + 1) (total + 1)
        (if NodeIsMarkedForClustering n then wrapInt32 (marked + 1) else marked) assigned
        (m.insertNode (-1) pos) (by omega) h1 (by omega) (by omega)
      rw [a, b, List.filter_cons, hh]
      simp only [Bool.false_eq_true, if_false, List.length_cons, Nat.cast_add, Nat.cast_one]
      constructor <;> first | trivial | omega
    | some c =>
      have hh : hasCluster n = true := by simp [hasCluster, hc]
      simp only []
      rw [@wrapInt32_of_range (total + 1) (by omega) (by omega),
        @wrapInt32_of_range (assigned + 1) (by omega) (by omega)]
      obtain ⟨a, b⟩ := ih (pos + 1) (total + 1)
        (if NodeIsMarkedForClustering n then wrapInt32 (marked + 1) else marked) (assigned + 1)
        (m.insertNode c pos) (by omega) (by omega) (by omega) (by omega)
      rw [a, b, List.filter_cons, hh]
      simp only [if_true, List.length_cons, Nat.cast_add, Nat.cast_one]
      constructor <;> first | trivial | omega

theorem percentOf_bounds {a b : Int} (ha : 0 ≤ a) (hab : a ≤ b) (hb : 0 < b) :
    0 ≤ percentOf a b ∧ percentOf a b ≤ 100 := by
  unfold percentOf
  rw [Int.tdiv_eq_ediv (by positivity) (le_of_lt hb)]
  constructor
  · exact Int.ediv_nonneg (by positivity) (le_of_lt hb)
  · apply Int.ediv_le_of_le_mul hb
    nlinarith

theorem Histogram.sum_increment (h : Histogram) (k : String)
    (hnn : ∀ e ∈ h, 0 ≤ e.2) (hs : (h.map Prod.snd).sum + 1 < 2147483648) :
    ((h.increment k).map Prod.snd).sum = (h.map Prod.snd).sum + 1 ∧
      ∀ e ∈ h.increment k, 0 ≤ e.2 := by
  induction h with
  | nil =>
    simp only [Histogram.increment, List.map_cons, List.map_nil, List.sum_cons, List.sum_nil]
    rw [wrapInt32_of_range (by omega) (by omega)]
    refine ⟨by omega, ?_⟩
    intro e he
    rw [List.mem_singleton.1 he]
    show (0 : Int) ≤ 0 + 1
    omega
  | cons hd t ih =>
    obtain ⟨a, v⟩ := hd
    have hv : 0 ≤ v := hnn (a, v) (List.mem_cons_self _ _)
    have ht : ∀ e ∈ t, 0 ≤ e.2 := fun e he => hnn e (List.mem_cons_of_mem _ he)
    have hts : 0 ≤ (t.map Prod.snd).sum := by
      apply List.sum_nonneg
      intro x hx
      obtain ⟨e, he, rfl⟩ := List.mem_map.1 hx
      exact ht e he
    simp only [List.map_cons, List.sum_cons] at hs
    unfold Histogram.increment
    by_cases hk : (a == k) = true
    · rw [if_pos hk]
      simp only [List.map_cons, List.sum_cons]
      rw [wrapInt32_of_range (by omega) (by omega)]
      refine ⟨by omega, ?_⟩
      intro e he
      rcases List.mem_cons.1 he with h | h
      · rw [h]; show 0 ≤ v + 1; omega
      · exact ht e h
    · rw [if_neg hk]
      obtain ⟨i1, i2⟩ := ih ht (by omega)
      simp only [List.map_cons, List.sum_cons]
      refine ⟨by rw [i1]; omega, ?_⟩
      intro e he
      rcases List.mem_cons.1 he with h | h
      · rw [h]; exact hv
      · exact i2 e h

theorem Histogram.sum_foldl_increment (ks : List String) (h : Histogram)
    (hnn : ∀ e ∈ h, 0 ≤ e.2) (hs : (h.map Prod.snd).sum + ks.length < 2147483648) :
    ((ks.foldl Histogram.increment h).map Prod.snd).sum =
      (h.map Prod.snd).sum + (ks.length : Int) := by
  induction ks generalizing h with
  | nil => simp
  | cons a ks ih =>
    simp only [List.length_cons, Nat.cast_add, Nat.cast_one] at hs
    obtain ⟨s1, s2⟩ := Histogram.sum_increment h a hnn (by omega)
    rw [List.foldl_cons, ih (h.increment a) s2 (by rw [s1]; omega), s1]
    simp only [List.length_cons, Nat.cast_add, Nat.cast_one]
    omega

theorem bustedKinds_length_eq (g : Graph) (hb : g.nodes.length < 2147483648) :
    (bustedKinds g.nodes (clusterMapOf g.nodes)).length = (g.nodes.filter (discards g)).length := by
  rw [bustedKinds_clusterMapOf, List.length_map]
  have h := bustedEntries_countP g hb (fun _ => true)
  rw [List.countP_true] at h
  rw [h, List.countP_eq_length_filter]
  congr 1

theorem hasCluster_of_discards {g : Graph} {n : Node} (h : discards g n = true) :
    hasCluster n = true := by
  unfold discards at h
  unfold hasCluster
  cases hc : GetNodeCluster n with
  | none => rw [hc] at h; cases h
  | some c => rfl

theorem hasCluster_after (g : Graph) (n : Node) :
    hasCluster (if discards g n then clearBoth n else n) = (hasCluster n && !discards g n) := by
  cases hd : discards g n with
  | true =>
    rw [if_pos rfl]
    simp [hasCluster, GetNodeCluster_clearBoth]
  | false => simp

theorem filter_hasCluster_split (g : Graph) :
    (g.nodes.filter hasCluster).length =
      (g.nodes.filter (fun n => hasCluster n && !discards g n)).length +
        (g.nodes.filter (discards g)).length := by
  generalize g.nodes = l
  induction l with
  | nil => rfl
  | cons n rest ih =>
    simp only [List.filter_cons]
    cases hd : discards g n with
    | true =>
      rw [hasCluster_of_discards hd]
      simp only [if_true, Bool.not_true, Bool.and_false, Bool.false_eq_true, if_false,
        List.length_cons]
      omega
    | false =>
      cases hh : hasCluster n
      · simp only [Bool.false_eq_true, if_false, Bool.false_and]
        exact ih
      · simp only [if_true, Bool.not_false, Bool.and_true, Bool.false_eq_true, if_false,
          List.length_cons]
        omega

theorem DeassignClusters_still_assigned (env : Env) (g : Graph) (gl : Globals)
    (hby : (env.getenv "NGRAPH_TF_DISABLE_DEASSIGN_CLUSTERS").isSome = false)
    (hb : g.nodes.length < 2147483648) :
    ((DeassignClusters env g gl).graph.nodes.filter hasCluster).length =
      (g.nodes.filter (fun n => hasCluster n && !discards g n)).length := by
  rw [DeassignClusters_nodes env g gl hby hb, List.filter_map, List.length_map]
  congr 1
  apply List.filter_congr
  intro n _
  simp only [Function.comp]
  exact hasCluster_after g n

theorem DeassignClusters_histogram_sum (env : Env) (g : Graph) (gl : Globals)
    (hby : (env.getenv "NGRAPH_TF_DISABLE_DEASSIGN_CLUSTERS").isSome = false)
    (hb : g.nodes.length < 2147483648) :
    ((DeassignClusters env g gl).globals.deassigned_histogram.map Prod.snd).sum =
      ((g.nodes.filter (discards g)).length : Int) := by
  rw [(DeassignClusters_main env g gl hby).2.2.2.1, (bustClusters_spec _ _ _).2]
  have hlen := bustedKinds_length g hb
  rw [Histogram.sum_foldl_increment _ [] (by intro e he; cases he)
    (by simp only [List.map_nil, List.sum_nil]; omega), bustedKinds_length_eq g hb]
  simp

theorem DeassignClusters_log (env : Env) (g : Graph) (gl : Globals)
    (hby : (env.getenv "NGRAPH_TF_DISABLE_DEASSIGN_CLUSTERS").isSome = false) :
    (DeassignClusters env g gl).log =
      MaybeLogPlacement env (DeassignClusters env g gl).graph (DeassignClusters env g gl).globals := by
  unfold DeassignClusters
  simp only [hby, Bool.false_eq_true, if_false]

theorem MaybeLogPlacement_some (env : Env) (G : Graph) (gl : Globals) (s : PlacementSummary)
    (h : MaybeLogPlacement env G gl = some s) (hb : G.nodes.length < 2147483648) :
    s.number_of_nodes = (G.nodes.length : Int) ∧ s.number_of_nodes ≠ 0 ∧
    s.nodes_assigned_a_cluster = ((G.nodes.filter hasCluster).length : Int) ∧
    s.num_nodes_marked_before_deassign = gl.num_nodes_marked_before_deassign ∧
    s.perc_marked_for_clustering_of_total =
      percentOf s.num_nodes_marked_before_deassign s.number_of_nodes ∧
    s.perc_assigned_clusters_of_total =
      percentOf s.nodes_assigned_a_cluster s.number_of_nodes ∧
    s.perc_assigned_clusters_of_marked =
      (if s.num_nodes_marked_before_deassign > 0 then
        percentOf s.nodes_assigned_a_cluster s.num_nodes_marked_before_deassign
      else 0) := by
  unfold MaybeLogPlacement at h
  cases hl : env.IsLoggingPlacement with
  | false => rw [hl] at h; simp at h
  | true =>
    rw [hl] at h
    simp only [Bool.not_true, Bool.false_eq_true, if_false] at h
    have hc := scanPlacement_counts G.nodes 0 0 0 0 [] (le_refl _) (le_refl _) (by omega)
      (by omega)
    rcases hscan : scanPlacement G.nodes 0 (0, 0, 0, []) with ⟨number, marked, assigned, fcm⟩
    rw [hscan] at h hc
    simp only [zero_add] at hc
    obtain ⟨hc1, hc2⟩ := hc
    by_cases hz : number = 0
    · simp only [hz, if_true] at h
      cases h
    · simp only [hz, if_false, Option.some.injEq] at h
      subst h
      exact ⟨hc1, hz, hc2, rfl, rfl, rfl, rfl⟩

/-! ## The pruner: counters and idempotence -/

/-- C15: after a run on the main path the counter
`num_nodes_marked_before_deassign` is the number of nodes that still carry a
cluster plus the sum of the histogram counts; so the nodes still assigned are
at most the nodes marked, which are at most all nodes.  When a placement
summary is printed the graph has a node (the divisor of the two percentages of
the total is not zero), the percentage of the marked nodes is computed only for
a positive counter, and the three percentages lie between `0` and `100`. -/
theorem marked_is_assigned_plus_discarded (env : Env) (g : Graph) (gl : Globals)
    (hby : (env.getenv "NGRAPH_TF_DISABLE_DEASSIGN_CLUSTERS").isSome = false)
    (hb : g.nodes.length < 2147483648) :
    (DeassignClusters env g gl).globals.num_nodes_marked_before_deassign =
      (((DeassignClusters env g gl).graph.nodes.filter hasCluster).length : Int) +
        ((DeassignClusters env g gl).globals.deassigned_histogram.map Prod.snd).sum ∧
    (((DeassignClusters env g gl).graph.nodes.filter hasCluster).length : Int) ≤
      (DeassignClusters env g gl).globals.num_nodes_marked_before_deassign ∧
    (DeassignClusters env g gl).globals.num_nodes_marked_before_deassign ≤
      ((DeassignClusters env g gl).graph.nodes.length : Int) ∧
    (∀ s : PlacementSummary, (DeassignClusters env g gl).log = some s →
      s.number_of_nodes = ((DeassignClusters env g gl).graph.nodes.length : Int) ∧
      s.number_of_nodes ≠ 0 ∧
      s.nodes_assigned_a_cluster =
        (((DeassignClusters env g gl).graph.nodes.filter hasCluster).length : Int) ∧
      s.num_nodes_marked_before_deassign =
        (DeassignClusters env g gl).globals.num_nodes_marked_before_deassign ∧
      s.perc_marked_for_clustering_of_total =
        percentOf s.num_nodes_marked_before_deassign s.number_of_nodes ∧
      s.perc_assigned_clusters_of_total =
        percentOf s.nodes_assigned_a_cluster s.number_of_nodes ∧
      s.perc_assigned_clusters_of_marked =
        (if s.num_nodes_marked_before_deassign > 0 then
          percentOf s.nodes_assigned_a_cluster s.num_nodes_marked_before_deassign
        else 0) ∧
      (0 ≤ s.perc_marked_for_clustering_of_total ∧ s.perc_marked_for_clustering_of_total ≤ 100) ∧
      (0 ≤ s.perc_assigned_clusters_of_total ∧ s.perc_assigned_clusters_of_total ≤ 100) ∧
      (0 ≤ s.perc_assigned_clusters_of_marked ∧ s.perc_assigned_clusters_of_marked ≤ 100)) := by
  have hnum : (DeassignClusters env g gl).globals.num_nodes_marked_before_deassign =
      ((g.nodes.filter hasCluster).length : Int) := by
    rw [(DeassignClusters_main env g gl hby).2.2.2.2, countMarked_eq g.nodes 0 (le_refl _)
      (by omega)]
    simp
  have hstill := DeassignClusters_still_assigned env g gl hby hb
  have hsum := DeassignClusters_histogram_sum env g gl hby hb
  have hsplit := filter_hasCluster_split g
  have hlen : (DeassignClusters env g gl).graph.nodes.length = g.nodes.length := by
    rw [DeassignClusters_nodes env g gl hby hb, List.length_map]
  have hle : (g.nodes.filter hasCluster).length ≤ g.nodes.length := List.length_filter_le _ _
  have h1 : (DeassignClusters env g gl).globals.num_nodes_marked_before_deassign =
      (((DeassignClusters env g gl).graph.nodes.filter hasCluster).length : Int) +
        ((DeassignClusters env g gl).globals.deassigned_histogram.map Prod.snd).sum := by
    rw [hnum, hstill, hsum, hsplit]
    push_cast
    rfl
  have h2 : (((DeassignClusters env g gl).graph.nodes.filter hasCluster).length : Int) ≤
      (DeassignClusters env g gl).globals.num_nodes_marked_before_deassign := by
    rw [hnum, hstill, hsplit]
    push_cast
    omega
  have h3 : (DeassignClusters env g gl).globals.num_nodes_marked_before_deassign ≤
      ((DeassignClusters env g gl).graph.nodes.length : Int) := by
    rw [hnum, hlen]
    exact_mod_cast hle
  refine ⟨h1, h2, h3, ?_⟩
  intro s hs
  rw [DeassignClusters_log env g gl hby] at hs
  obtain ⟨a1, a2, a3, a4, a5, a6, a7⟩ :=
    MaybeLogPlacement_some env _ _ s hs (by rw [hlen]; exact hb)
  have hpos : 0 < s.number_of_nodes := by
    rw [a1] at a2 ⊢
    have : (0 : Int) ≤ ((DeassignClusters env g gl).graph.nodes.length : Int) :=
      Int.natCast_nonneg _
    omega
  have hassigned0 : 0 ≤ s.nodes_assigned_a_cluster := by
    rw [a3]; exact Int.natCast_nonneg _
  have hmarked0 : 0 ≤ s.num_nodes_marked_before_deassign := by
    rw [a4, hnum]; exact Int.natCast_nonneg _
  have hle1 : s.nodes_assigned_a_cluster ≤ s.num_nodes_marked_before_deassign := by
    rw [a3, a4]; exact h2
  have hle2 : s.num_nodes_marked_before_deassign ≤ s.number_of_nodes := by
    rw [a4, a1]; exact h3
  refine ⟨a1, a2, a3, a4, a5, a6, a7, ?_, ?_, ?_⟩
  · rw [a5]; exact percentOf_bounds hmarked0 hle2 hpos
  · rw [a6]; exact percentOf_bounds hassigned0 (le_trans hle1 hle2) hpos
  · rw [a7]
    by_cases hm : s.num_nodes_marked_before_deassign > 0
    · rw [if_pos hm]; exact percentOf_bounds hassigned0 hle1 hm
    · rw [if_neg hm]; exact ⟨le_refl _, by decide⟩

theorem marked_is_assigned_plus_discarded_witness :
    (envPlain.getenv "NGRAPH_TF_DISABLE_DEASSIGN_CLUSTERS").isSome = false ∧
    graphFive.nodes.length < 2147483648 ∧
    (DeassignClusters envPlain graphFive glStale).globals.num_nodes_marked_before_deassign = 7 ∧
    ((DeassignClusters envPlain graphFive glStale).graph.nodes.filter hasCluster).length = 0 ∧
    (DeassignClusters envPlain graphFive glStale).globals.num_nodes_marked_before_deassign =
      (((DeassignClusters envPlain graphFive glStale).graph.nodes.filter hasCluster).length : Int) +
        ((DeassignClusters envPlain graphFive glStale).globals.deassigned_histogram.map
          Prod.snd).sum :=
  ⟨by decide, by decide, by decide, by decide,
    (marked_is_assigned_plus_discarded envPlain graphFive glStale (by decide) (by decide)).1⟩

theorem inCluster_after (g : Graph) (c : Int)
    (hge : ¬ (nonTrivialCount g c : Int) < MIN_NONTRIVIAL_NODES) (n : Node) :
    inCluster c (if discards g n then clearBoth n else n) = inCluster c n := by
  cases hd : discards g n with
  | false => simp
  | true =>
    rw [if_pos rfl]
    have h1 : inCluster c (clearBoth n) = false := by
      simp [inCluster, GetNodeCluster_clearBoth]
    rw [h1]
    symm
    rw [Bool.eq_false_iff]
    intro hin
    have hc : GetNodeCluster n = some c := by simpa [inCluster] using hin
    rw [discards_of_cluster g hc] at hd
    simp only [decide_eq_true_eq] at hd
    exact hge hd

theorem nonTrivialCount_after (g G1 : Graph) (c : Int)
    (hG : G1.nodes = g.nodes.map (fun n => if discards g n then clearBoth n else n))
    (hge : ¬ (nonTrivialCount g c : Int) < MIN_NONTRIVIAL_NODES) :
    nonTrivialCount G1 c = nonTrivialCount g c := by
  unfold nonTrivialCount
  rw [hG, List.filter_map, List.length_map]
  congr 1
  apply List.filter_congr
  intro n _
  simp only [Function.comp]
  rw [inCluster_after g c hge n]
  congr 1
  cases discards g n <;> rfl

theorem remaining_cluster_count (g G1 : Graph)
    (hG : G1.nodes = g.nodes.map (fun n => if discards g n then clearBoth n else n))
    (m : Node) (hm : m ∈ G1.nodes) (c : Int) (hc : GetNodeCluster m = some c) :
    ¬ (nonTrivialCount G1 c : Int) < MIN_NONTRIVIAL_NODES := by
  rw [hG, List.mem_map] at hm
  obtain ⟨n, _, hn⟩ := hm
  cases hd : discards g n with
  | true =>
    rw [hd, if_pos rfl] at hn
    rw [← hn, GetNodeCluster_clearBoth] at hc
    cases hc
  | false =>
    rw [hd] at hn
    simp only [Bool.false_eq_true, if_false] at hn
    subst hn
    rw [discards_of_cluster g hc] at hd
    simp only [decide_eq_false_iff_not] at hd
    rw [nonTrivialCount_after g G1 c hG hd]
    exact hd

theorem discards_after (g G1 : Graph)
    (hG : G1.nodes = g.nodes.map (fun n => if discards g n then clearBoth n else n))
    (m : Node) (hm : m ∈ G1.nodes) : discards G1 m = false := by
  cases hc : GetNodeCluster m with
  | none => exact discards_of_no_cluster G1 hc
  | some c =>
    rw [discards_of_cluster G1 hc]
    simp only [decide_eq_false_iff_not]
    exact remaining_cluster_count g G1 hG m hm c hc

theorem foldl_increment_eq_nil_iff (ks : List String) :
    ks.foldl Histogram.increment [] = [] ↔ ks = [] := by
  constructor
  · intro h
    cases ks with
    | nil => rfl
    | cons a ks =>
      exfalso
      have hne : ∀ (l : List String) (h0 : Histogram), h0 ≠ [] →
          l.foldl Histogram.increment h0 ≠ [] := by
        intro l
        induction l with
        | nil => intro h0 hh; exact hh
        | cons b l ih =>
          intro h0 hh
          rw [List.foldl_cons]
          apply ih
          cases h0 with
          | nil => exact absurd rfl hh
          | cons e t =>
            obtain ⟨k, v⟩ := e
            unfold Histogram.increment
            split_ifs <;> exact List.cons_ne_nil _ _
      rw [List.foldl_cons] at h
      exact hne ks _ (by simp [Histogram.increment]) h
  · intro h; rw [h]; rfl

/-- C16: after a run on the main path every cluster that is left has at least
`MIN_NONTRIVIAL_NODES` members outside the trivial set, so a second run on the
resulting graph (main path, any globals) leaves the graph as it is and leaves
the histogram empty. -/
theorem deassign_is_idempotent (env env' : Env) (g : Graph) (gl gl' : Globals)
    (hby : (env.getenv "NGRAPH_TF_DISABLE_DEASSIGN_CLUSTERS").isSome = false)
    (hby' : (env'.getenv "NGRAPH_TF_DISABLE_DEASSIGN_CLUSTERS").isSome = false)
    (hb : g.nodes.length < 2147483648) :
    (∀ m ∈ (DeassignClusters env g gl).graph.nodes, ∀ c : Int, GetNodeCluster m = some c →
      MIN_NONTRIVIAL_NODES ≤ (nonTrivialCount (DeassignClusters env g gl).graph c : Int)) ∧
    (DeassignClusters env' (DeassignClusters env g gl).graph gl').graph =
      (DeassignClusters env g gl).graph ∧
    (DeassignClusters env' (DeassignClusters env g gl).graph gl').globals.deassigned_histogram =
      [] := by
  have hG := DeassignClusters_nodes env g gl hby hb
  have hlen : (DeassignClusters env g gl).graph.nodes.length < 2147483648 := by
    rw [hG, List.length_map]; exact hb
  have hnodes : (DeassignClusters env' (DeassignClusters env g gl).graph gl').graph.nodes =
      (DeassignClusters env g gl).graph.nodes := by
    rw [DeassignClusters_nodes env' _ gl' hby' hlen]
    conv_rhs => rw [← List.map_id (DeassignClusters env g gl).graph.nodes]
    apply List.map_congr_left
    intro m hm
    rw [discards_after g _ hG m hm]
    rfl
  refine ⟨?_, ?_, ?_⟩
  · intro m hm c hc
    have := remaining_cluster_count g _ hG m hm c hc
    omega
  · have hedges := (DeassignClusters_main env' (DeassignClusters env g gl).graph gl' hby').2.2.1
    cases hR : (DeassignClusters env' (DeassignClusters env g gl).graph gl').graph with
    | mk ns es =>
      cases hR1 : (DeassignClusters env g gl).graph with
      | mk ns1 es1 =>
        rw [hR, hR1] at hnodes hedges
        simp only at hnodes hedges
        rw [hnodes, hedges]
  · rw [(DeassignClusters_main env' _ gl' hby').2.2.2.1, (bustClusters_spec _ _ _).2,
      foldl_increment_eq_nil_iff]
    apply List.eq_nil_of_length_eq_zero
    rw [bustedKinds_length_eq _ hlen]
    rw [List.length_eq_zero, List.filter_eq_nil_iff]
    intro m hm
    rw [discards_after g _ hG m hm]
    exact Bool.false_ne_true

theorem deassign_is_idempotent_witness :
    (envPlain.getenv "NGRAPH_TF_DISABLE_DEASSIGN_CLUSTERS").isSome = false ∧
    graphSix.nodes.length < 2147483648 ∧
    (DeassignClusters envPlain (DeassignClusters envPlain graphSix glStale).graph
      glStale).graph = (DeassignClusters envPlain graphSix glStale).graph ∧
    (DeassignClusters envPlain graphFive glStale).graph ≠ graphFive ∧
    (DeassignClusters envPlain (DeassignClusters envPlain graphFive glStale).graph
      glStale).graph = (DeassignClusters envPlain graphFive glStale).graph :=
  ⟨by decide, by decide,
    (deassign_is_idempotent envPlain envPlain graphSix glStale glStale (by decide) (by decide)
      (by decide)).2.1,
    by decide,
    (deassign_is_idempotent envPlain envPlain graphFive glStale glStale (by decide) (by decide)
      (by decide)).2.1⟩

/-! ## `ValuesFromConstNode`: the paths that resize -/

theorem vectorResize_length {α : Type} (zero : α) (values : List α) (n : Nat) :
    (vectorResize zero values n).length = n := by
  unfold vectorResize
  rw [List.length_append, List.length_take, List.length_replicate]
  omega

theorem fillValues_agree {α : Type} (T : ElemType α) (dtype : DataType) (tensor : TensorProto)
    (r i : Nat) (vs ws : List α) (hlen : vs.length = ws.length) (hn : i + r = vs.length)
    (hag : ∀ j, j < i → vs[j]? = ws[j]?) :
    (fillValues T dtype tensor r i vs).1 = (fillValues T dtype tensor r i ws).1 ∧
    ((fillValues T dtype tensor r i vs).1 = none →
      (fillValues T dtype tensor r i vs).2 = (fillValues T dtype tensor r i ws).2) := by
  induction r generalizing i vs ws with
  | zero =>
    refine ⟨rfl, fun _ => ?_⟩
    show vs = ws
    apply List.ext_getElem?
    intro j
    by_cases hj : j < i
    · exact hag j hj
    · rw [List.getElem?_eq_none (by omega), List.getElem?_eq_none (by omega)]
  | succ r ih =>
    have hstep : ∀ x : α,
        (fillValues T dtype tensor r (i + 1) (vs.set i x)).1 =
          (fillValues T dtype tensor r (i + 1) (ws.set i x)).1 ∧
        ((fillValues T dtype tensor r (i + 1) (vs.set i x)).1 = none →
          (fillValues T dtype tensor r (i + 1) (vs.set i x)).2 =
            (fillValues T dtype tensor r (i + 1) (ws.set i x)).2) := by
      intro x
      apply ih
      · rw [List.length_set, List.length_set]; exact hlen
      · rw [List.length_set]; omega
      · intro j hj
        rw [List.getElem?_set, List.getElem?_set]
        by_cases hji : i = j
        · subst hji
          have h1 : i < vs.length := by omega
          have h2 : i < ws.length := by omega
          simp [h1, h2]
        · simp only [hji, if_false]
          exact hag j (by omega)
    unfold fillValues
    cases dtype with
    | DT_INT32 =>
      simp only []
      cases tensor.int_val[i]? with
      | none => exact ⟨rfl, fun h => by cases h⟩
      | some v => exact hstep _
    | DT_FLOAT =>
      simp only []
      cases tensor.float_val[i]? with
      | none => exact ⟨rfl, fun h => by cases h⟩
      | some v => exact hstep _
    | DT_INVALID => exact ⟨rfl, fun h => by cases h⟩
    | DT_DOUBLE => exact ⟨rfl, fun h => by cases h⟩
    | DT_INT64 => exact ⟨rfl, fun h => by cases h⟩
    | DT_BOOL => exact ⟨rfl, fun h => by cases h⟩

theorem fillValues_early_not_ok {α : Type} (T : ElemType α) (dtype : DataType)
    (tensor : TensorProto) (r i : Nat) (vs : List α) (e : CallEnd)
    (h : (fillValues T dtype tensor r i vs).1 = some e) : e ≠ CallEnd.returned Status.OK := by
  induction r generalizing i vs with
  | zero => cases h
  | succ r ih =>
    unfold fillValues at h
    cases dtype with
    | DT_INT32 =>
      simp only [] at h
      cases hv : tensor.int_val[i]? with
      | none =>
        rw [hv] at h
        simp only [Option.some.injEq] at h
        rw [← h]; intro hc; cases hc
      | some v => rw [hv] at h; exact ih _ _ h
    | DT_FLOAT =>
      simp only [] at h
      cases hv : tensor.float_val[i]? with
      | none =>
        rw [hv] at h
        simp only [Option.some.injEq] at h
        rw [← h]; intro hc; cases hc
      | some v => rw [hv] at h; exact ih _ _ h
    | DT_INVALID => simp only [Option.some.injEq] at h; rw [← h]; intro hc; cases hc
    | DT_DOUBLE => simp only [Option.some.injEq] at h; rw [← h]; intro hc; cases hc
    | DT_INT64 => simp only [Option.some.injEq] at h; rw [← h]; intro hc; cases hc
    | DT_BOOL => simp only [Option.some.injEq] at h; rw [← h]; intro hc; cases hc

/-- Off the path of source lines 64-72 a successful call replaces the content
of the output vector: two calls that differ in the initial shape and vector
both return OK and leave the same vector. -/
theorem values_replaced_off_fast_path {α : Type} (T : ElemType α) (node : NodeDef)
    (shape0 shape1 : TensorShapeProto) (values0 values1 : List α)
    (hslow : ∀ a : NodeDefAttr, node.attr.lookup "value" = some a →
      (!(T.protoData a.getTensor).isEmpty && a.getTensor.tensor_shape.isSome &&
        ((a.getTensor.tensor_shape.getD TensorShapeProto.empty).dim.length == 1 &&
          (a.getTensor.tensor_shape.getD TensorShapeProto.empty).dim[0]? ==
            some ((T.protoData a.getTensor).length : Int))) = false)
    (hok : (ValuesFromConstNode T node shape0 values0).outcome = CallEnd.returned Status.OK) :
    (ValuesFromConstNode T node shape1 values1).outcome = CallEnd.returned Status.OK ∧
    (ValuesFromConstNode T node shape1 values1).values =
      (ValuesFromConstNode T node shape0 values0).values := by
  by_cases hop : node.op = "Const"
  swap
  · unfold ValuesFromConstNode at hok
    simp only [ne_eq, hop, not_false_eq_true, if_true] at hok
    cases hok
  cases hd : node.attr.lookup "dtype" with
  | none =>
    unfold ValuesFromConstNode at hok
    simp only [hop, ne_eq, not_true_eq_false, if_false, hd] at hok
    cases hok
  | some dt =>
    by_cases hty : dt.getType = T.dtype
    swap
    · unfold ValuesFromConstNode at hok
      simp only [hop, ne_eq, not_true_eq_false, if_false, hd, hty, not_false_eq_true,
        if_true] at hok
      cases hok
    cases hv : node.attr.lookup "value" with
    | none =>
      unfold ValuesFromConstNode at hok
      simp only [hop, ne_eq, not_true_eq_false, if_false, hd, hty, hv] at hok
      cases hok
    | some va =>
      have hs := hslow va hv
      by_cases hmod : va.getTensor.tensor_content.length % T.sizeof = 0
      swap
      · unfold ValuesFromConstNode at hok
        simp only [hop, ne_eq, not_true_eq_false, if_false, hd, hty, hv, hs,
          Bool.false_eq_true, hmod, not_false_eq_true, if_true] at hok
        cases hok
      by_cases hz : va.getTensor.tensor_content.length = 0
      swap
      · unfold ValuesFromConstNode
        simp only [hop, ne_eq, not_true_eq_false, if_false, hd, hty, hv, hs,
          Bool.false_eq_true, hmod, hz, and_self]
      cases hce : countElements (va.getTensor.tensor_shape.getD TensorShapeProto.empty).dim 1 with
      | none =>
        unfold ValuesFromConstNode at hok
        simp only [hop, ne_eq, not_true_eq_false, if_false, hd, hty, hv, hs,
          Bool.false_eq_true, hz, Nat.zero_mod, if_true, hce] at hok
        cases hok
      | some n =>
        by_cases hneg : n < 0
        · unfold ValuesFromConstNode at hok
          simp only [hop, ne_eq, not_true_eq_false, if_false, hd, hty, hv, hs,
            Bool.false_eq_true, hz, Nat.zero_mod, if_true, hce, hneg] at hok
          cases hok
        · have hag := fillValues_agree T T.dtype va.getTensor n.toNat 0
            (vectorResize T.zero values1 n.toNat) (vectorResize T.zero values0 n.toNat)
            (by rw [vectorResize_length, vectorResize_length])
            (by rw [vectorResize_length]; omega)
            (by intro j hj; omega)
          unfold ValuesFromConstNode at hok ⊢
          simp only [hop, ne_eq, not_true_eq_false, if_false, hd, hty, hv, hs,
            Bool.false_eq_true, hz, Nat.zero_mod, if_true, hce, hneg] at hok ⊢
          cases h0 : fillValues T T.dtype va.getTensor n.toNat 0
              (vectorResize T.zero values0 n.toNat) with
          | mk e0 w0 =>
            cases h1 : fillValues T T.dtype va.getTensor n.toNat 0
                (vectorResize T.zero values1 n.toNat) with
            | mk e1 w1 =>
              rw [h0] at hok hag
              rw [h1] at hag
              simp only at hag
              obtain ⟨hag1, hag2⟩ := hag
              subst hag1
              cases e1 with
              | some early =>
                simp only at hok
                have := fillValues_early_not_ok T T.dtype va.getTensor n.toNat 0
                  (vectorResize T.zero values0 n.toNat) early (by rw [h0])
                exact absurd hok this
              | none => exact ⟨rfl, hag2 rfl⟩

end NgraphBridge
